import Mathlib

/-!
# Task provisioner of supergiant/control

A shallow embedding of `pkg/provisioner/provisioner.go` and
`pkg/provisioner/util.go`: the planner (`prepare`), the synchronous part of
`ProvisionCluster`, `grabTaskIds`, `nodesFromProfile`, `Cancel`,
`ProvisionNodes`, the detached driver goroutine of `ProvisionCluster` as a
step function over scheduler events, and the event handlers of the reducer
`monitorClusterState`.
-/

namespace Provisioner

/-! ## Data model -/

/-- A Go string, one list element per byte (task IDs are ASCII). `len(s)` is
`s.length` and `s[:k]` is `s.take k` when `k ≤ len(s)`. -/
abbrev GoString := List Char

/-- The provider names of `clouds.Name` (a Go string type): the five constants
the sources switch on and any other string. -/
inductive CloudName
  | AWS
  | DigitalOcean
  | Packet
  | GCE
  | OpenStack
  | other (name : String)
  deriving DecidableEq

/-- The fields of `workflows.WorkflowSet` used by the provisioner; an absent
workflow is the empty string (Go zero value). -/
structure WorkflowSet where
  PreProvision : String := ""
  ProvisionMaster : String := ""
  ProvisionNode : String := ""
  deriving DecidableEq

/-- Modelled from the spec: the workflow-name constants of package `workflows`
(not among the sources); spec section 6 lists the stable strings. -/
def workflows.DigitalOceanMaster : String := "DigitalOceanMaster"

/-- Modelled from the spec: workflow-name constant, spec section 6. -/
def workflows.DigitalOceanNode : String := "DigitalOceanNode"

/-- Modelled from the spec: workflow-name constant, spec section 6. -/
def workflows.AWSMaster : String := "AWSMaster"

/-- Modelled from the spec: workflow-name constant, spec section 6. -/
def workflows.AWSNode : String := "AWSNode"

/-- Modelled from the spec: workflow-name constant, spec section 6. -/
def workflows.AWSPreProvision : String := "AWSPreProvision"

/-- Modelled from the spec: workflow-name constant, spec section 6. -/
def workflows.GCEMaster : String := "GCEMaster"

/-- Modelled from the spec: workflow-name constant, spec section 6. -/
def workflows.GCENode : String := "GCENode"

/-- Modelled from the spec: workflow-name constant, spec section 6. -/
def workflows.Cluster : String := "Cluster"

/-- Modelled from the spec: the workflow names listed in spec section 6, the
content of the process-wide registry after `Init()` (section 4.3). -/
def workflows.stableNames : List String :=
  ["DigitalOceanMaster", "DigitalOceanNode", "DigitalOceanDeleteCluster",
   "DigitalOceanDeleteNode", "AWSMaster", "AWSNode", "AWSPreProvision",
   "GCEMaster", "GCENode", "Cluster"]

/-- A `workflows.Task` as far as the provisioner reads it. -/
structure Task where
  ID : GoString
  /-- the field `Type`, the workflow name -/
  WorkflowType : String
  deriving DecidableEq

/-- Role of a `node.Node`. -/
inductive NodeRole
  | none
  | master
  | node
  deriving DecidableEq

/-- State of a `node.Node`. -/
inductive NodeState
  | unset
  | planned
  | provisioning
  | active
  | failed
  deriving DecidableEq

/-- A `node.Node`. -/
structure Node where
  TaskID : GoString := []
  Name : GoString := []
  Provider : CloudName := CloudName.other ""
  Region : String := ""
  Role : NodeRole := NodeRole.none
  State : NodeState := NodeState.unset
  PrivateIp : String := ""
  PublicIp : String := ""
  Size : String := ""
  deriving DecidableEq

/-- A `profile.NodeProfile`: `map[string]string`. -/
abbrev NodeProfile := List (String × String)

/-- A `profile.Profile` as far as the provisioner reads it. -/
structure Profile where
  Provider : CloudName := CloudName.other ""
  Region : String := ""
  Zone : String := ""
  Arch : String := ""
  OperatingSystem : String := ""
  UbuntuVersion : String := ""
  DockerVersion : String := ""
  K8SVersion : String := ""
  K8SServicesCIDR : String := ""
  HelmVersion : String := ""
  FlannelVersion : String := ""
  NetworkType : String := ""
  CIDR : String := ""
  User : String := ""
  Password : String := ""
  RBACEnabled : Bool := false
  CloudSpecificSettings : List (String × String) := []
  MasterProfiles : List NodeProfile := []
  NodesProfiles : List NodeProfile := []
  deriving DecidableEq

/-- The `steps.SshConfig` part of the config. -/
structure SshConfig where
  User : String := ""
  PublicKey : String := ""
  BootstrapPrivateKey : String := ""
  BootstrapPublicKey : String := ""
  deriving DecidableEq

/-- The `steps.CertificatesConfig` part of the config. -/
structure CertificatesConfig where
  ParenCert : String := ""
  Username : String := ""
  Password : String := ""
  CACert : String := ""
  CAKey : String := ""
  AdminCert : String := ""
  AdminKey : String := ""
  deriving DecidableEq

/-- The `steps.AWSConfig` fields the reducer copies into the cloud spec. -/
structure AWSConfig where
  AvailabilityZone : String := ""
  VPCCIDR : String := ""
  VPCID : String := ""
  KeyPairName : String := ""
  MastersSecurityGroupID : String := ""
  NodesSecurityGroupID : String := ""
  RouteTableID : String := ""
  InternetGatewayID : String := ""
  MastersInstanceProfile : String := ""
  NodesInstanceProfile : String := ""
  ImageID : String := ""
  Subnets : List (String × String) := []
  deriving DecidableEq

/-- A `steps.Config` as far as the provisioner reads and writes it. -/
structure Config where
  ClusterID : GoString := []
  ClusterName : GoString := []
  CloudAccountName : String := ""
  Provider : CloudName := CloudName.other ""
  IsMaster : Bool := false
  TaskID : GoString := []
  SshConfig : SshConfig := {}
  CertificatesConfig : CertificatesConfig := {}
  AWSConfig : AWSConfig := {}
  EtcdHost : String := ""
  Masters : List Node := []
  /-- the field `Node`, the node a task works on -/
  Node : Node := {}
  deriving DecidableEq

/-- A `model.KubeState`. -/
inductive KubeState
  | provisioning
  | operational
  | failed
  deriving DecidableEq

/-- The `model.Auth` part of a cluster record. -/
structure Auth where
  Username : String := ""
  Password : String := ""
  CACert : String := ""
  CAKey : String := ""
  AdminCert : String := ""
  AdminKey : String := ""
  deriving DecidableEq

/-- The `model.Networking` part of a cluster record. -/
structure Networking where
  Manager : String := ""
  Version : String := ""
  NetworkType : String := ""
  CIDR : String := ""
  deriving DecidableEq

/-- A `model.Kube`, the persisted cluster record. Go maps are association
lists with unique keys. -/
structure Kube where
  ID : GoString := []
  State : KubeState := KubeState.provisioning
  Name : GoString := []
  Provider : CloudName := CloudName.other ""
  AccountName : String := ""
  RBACEnabled : Bool := false
  ServicesCIDR : String := ""
  Region : String := ""
  Zone : String := ""
  SshUser : String := ""
  SshPublicKey : String := ""
  BootstrapPublicKey : String := ""
  BootstrapPrivateKey : String := ""
  User : String := ""
  Password : String := ""
  Auth : Auth := {}
  Arch : String := ""
  OperatingSystem : String := ""
  OperatingSystemVersion : String := ""
  K8SVersion : String := ""
  DockerVersion : String := ""
  HelmVersion : String := ""
  Networking : Networking := {}
  CloudSpec : List (String × String) := []
  Subnets : List (String × String) := []
  Masters : List (GoString × Node) := []
  Nodes : List (GoString × Node) := []
  Tasks : List GoString := []
  deriving DecidableEq

/-- Assignment `m[k] = v` on a Go map kept as an association list: an existing
entry for `k` is replaced in place, a new one is appended. -/
def mapSet {α β : Type} [DecidableEq α] : List (α × β) → α → β → List (α × β)
  | [], k, v => [(k, v)]
  | (k', v') :: rest, k, v =>
    if k' = k then (k, v) :: rest else (k', v') :: mapSet rest k v

/-- Lookup `m[k]` on a Go map kept as an association list. -/
def mapGet {α β : Type} [DecidableEq α] : List (α × β) → α → Option β
  | [], _ => none
  | (k', v') :: rest, k => if k' = k then some v' else mapGet rest k

/-! ## External collaborators -/

/-- What the provisioner consumes from code outside `pkg/provisioner`:
the workflow registry and task-ID source behind `workflows.NewTask`, the
helpers of package `util`, `strings.ToLower` of the standard library, the
key and certificate generators, and the answer of `KubeService.Create`. -/
structure World where
  /-- the names registered in the process-wide workflow registry -/
  registry : List String
  /-- the ID given to the k-th task created -/
  taskID : Nat → GoString
  /-- the helper `util.MakeNodeName(clusterName, taskId, isMaster)` -/
  MakeNodeName : GoString → GoString → Bool → GoString
  /-- the helper `util.BindParams(profile, node)`, as a function on the node -/
  BindParams : NodeProfile → Node → Node
  /-- the function `strings.ToLower` of the Go standard library -/
  ToLower : GoString → GoString
  /-- the result of `generateKeyPair(keySize)`: private and public key, or an error -/
  generateKeyPair : Option (String × String)
  /-- the result of `pki.NewCAPair(parent)`: certificate and key, or an error -/
  NewCAPair : String → Option (String × String)
  /-- the result of `pki.NewAdminPair(ca)`: certificate and key, or an error -/
  NewAdminPair : String × String → Option (String × String)
  /-- whether `KubeService.Create` succeeds on a record -/
  kubeCreate : Kube → Bool
  /-- the helper `util.BindParams(nodeProfile, &config.XConfig)` on the
  provider section of the config: the config afterwards and whether it succeeded -/
  bindConfig : CloudName → NodeProfile → Config → Config × Bool
  /-- the effect of `KubeService.Get` followed by
  `util.LoadCloudSpecificDataFromKube`: the config afterwards, or an error -/
  loadCloudSpecificData : Config → Option Config

/-- Modelled from the spec: `workflows.NewTask(taskType, repository)` (package
`workflows` is not among the sources). Spec 4.3: the registry maps a
workflow name to its step list and lookup can fail; spec 3: a task has a
globally unique identity. Given the number `n` of tasks created so far, the
call returns the new task and the new count, or no task (an error) when
`taskType` is not registered. -/
def NewTask (w : World) (taskType : String) (n : Nat) : Option Task × Nat :=
  if taskType ∈ w.registry then (some { ID := w.taskID n, WorkflowType := taskType }, n + 1)
  else (none, n)

/-! ## The provisioner -/

/-- A cancel function of `context.WithCancel`, named by the context it cancels. -/
abbrev CancelFunc := Nat

/-- The mutable part of `TaskProvisioner` together with its `provisionMap`. -/
structure TaskProvisioner where
  provisionMap : List (CloudName × WorkflowSet)
  cancelMap : List (GoString × CancelFunc) := []
  deriving DecidableEq

/-- The `provisionMap` literal of `NewProvisioner`. -/
def NewProvisioner : TaskProvisioner :=
  { provisionMap :=
      [ (CloudName.DigitalOcean,
          { ProvisionMaster := workflows.DigitalOceanMaster,
            ProvisionNode := workflows.DigitalOceanNode }),
        (CloudName.AWS,
          { ProvisionMaster := workflows.AWSMaster,
            ProvisionNode := workflows.AWSNode,
            PreProvision := workflows.AWSPreProvision }),
        (CloudName.GCE,
          { ProvisionMaster := workflows.GCEMaster,
            ProvisionNode := workflows.GCENode }) ],
    cancelMap := [] }

/-- The expression `tp.provisionMap[name]`: the zero `WorkflowSet` when absent. -/
def TaskProvisioner.workflowSet (tp : TaskProvisioner) (name : CloudName) : WorkflowSet :=
  (mapGet tp.provisionMap name).getD {}

/-- The two task-creating loops of `prepare`: `count` calls of `NewTask`, a
failed call is skipped (`continue`). Returns the tasks in creation order. -/
def createTasks (w : World) (taskType : String) : Nat → Nat → List Task × Nat
  | 0, n => ([], n)
  | count + 1, n =>
    match NewTask w taskType n with
    | (some t, n') =>
      let r := createTasks w taskType count n'
      (t :: r.1, r.2)
    | (none, n') => createTasks w taskType count n'

/-- What `prepare` returns. A nil `*workflows.Task` is `none`. -/
structure Plan where
  masterTasks : List Task
  nodeTasks : List Task
  preProvisionTask : Option Task
  clusterTask : Option Task
  deriving DecidableEq

/-- The body shared by all providers after the switch of `prepare`. -/
def prepareRest (w : World) (tp : TaskProvisioner) (name : CloudName)
    (masterCount nodeCount : Nat) (pre : Option Task) (n : Nat) : Plan × Nat :=
  let ms := createTasks w (tp.workflowSet name).ProvisionMaster masterCount n
  let ns := createTasks w (tp.workflowSet name).ProvisionNode nodeCount ms.2
  let post := NewTask w workflows.Cluster ns.2
  ({ masterTasks := ms.1, nodeTasks := ns.1, preProvisionTask := pre,
     clusterTask := post.1 }, post.2)

/-- The method `TaskProvisioner.prepare`; `n` counts the tasks created so far. -/
def prepare (w : World) (tp : TaskProvisioner) (name : CloudName)
    (masterCount nodeCount : Nat) (n : Nat) : Plan × Nat :=
  match name with
  | CloudName.AWS =>
    match NewTask w (tp.workflowSet name).PreProvision n with
    | (some pre, n') => prepareRest w tp name masterCount nodeCount (some pre) n'
    | (none, n') =>
      ({ masterTasks := [], nodeTasks := [], preProvisionTask := none,
         clusterTask := none }, n')
  | _ => prepareRest w tp name masterCount nodeCount none n

/-- The function `grabTaskIds`; the caller has checked `clusterTask != nil`. -/
def grabTaskIds (preProvisionTask : Option Task) (clusterTask : Task)
    (masterTasks nodeTasks : List Task) : List GoString :=
  let taskIds : List GoString := []
  let taskIds := taskIds ++ [clusterTask.ID]
  let taskIds :=
    match preProvisionTask with
    | some pre => taskIds ++ [pre.ID]
    | none => taskIds
  let taskIds := masterTasks.foldl (fun acc task => acc ++ [task.ID]) taskIds
  let taskIds := nodeTasks.foldl (fun acc task => acc ++ [task.ID]) taskIds
  taskIds

/-- One iteration of the first loop of `nodesFromProfile`; `none` is the
index-out-of-range panic of `masterTasks[index]`. -/
def masterNodeOf (w : World) (clusterName : GoString) (profile : Profile)
    (masterTasks : List Task) (index : Nat) (p : NodeProfile) : Option Node :=
  match masterTasks.get? index with
  | none => none
  | some task =>
    let taskId := task.ID
    let name := w.MakeNodeName clusterName taskId true
    let name := if profile.Provider = CloudName.GCE then w.ToLower name else name
    let n : Node := { TaskID := taskId, Name := name, Provider := profile.Provider,
                      Region := profile.Region, State := NodeState.planned }
    some (w.BindParams p n)

/-- One iteration of the second loop of `nodesFromProfile`; `none` is a
panic of `nodeTasks[index]` or of `taskId[:4]`. -/
def workerNodeOf (w : World) (clusterName : GoString) (profile : Profile)
    (nodeTasks : List Task) (index : Nat) (p : NodeProfile) : Option Node :=
  match nodeTasks.get? index with
  | none => none
  | some task =>
    let taskId := task.ID
    if taskId.length < 4 then none
    else
      let name := w.MakeNodeName clusterName (taskId.take 4) false
      let name := if profile.Provider = CloudName.GCE then w.ToLower name else name
      let n : Node := { TaskID := taskId, Name := name, Provider := profile.Provider,
                        Region := profile.Region, State := NodeState.planned }
      some (w.BindParams p n)

/-- A `for index, p := range profiles` loop of `nodesFromProfile` filling a map. -/
def fillNodes (mk : Nat → NodeProfile → Option Node) :
    List NodeProfile → Nat → List (GoString × Node) → Option (List (GoString × Node))
  | [], _, acc => some acc
  | p :: ps, index, acc =>
    match mk index p with
    | none => none
    | some n => fillNodes mk ps (index + 1) (mapSet acc n.Name n)

/-- The function `nodesFromProfile`; `none` is a runtime panic. -/
def nodesFromProfile (w : World) (clusterName : GoString) (masterTasks nodeTasks : List Task)
    (profile : Profile) : Option (List (GoString × Node) × List (GoString × Node)) :=
  match fillNodes (masterNodeOf w clusterName profile masterTasks) profile.MasterProfiles 0 [] with
  | none => none
  | some masters =>
    match fillNodes (workerNodeOf w clusterName profile nodeTasks) profile.NodesProfiles 0 [] with
    | none => none
    | some nodes => some (masters, nodes)

/-- The function `bootstrapKeys`: `none` is the error return. -/
def bootstrapKeys (w : World) (config : Config) : Option Config :=
  match w.generateKeyPair with
  | none => none
  | some (priv, pub) =>
    some { config with
      SshConfig := { config.SshConfig with BootstrapPrivateKey := priv, BootstrapPublicKey := pub } }

/-- The function `bootstrapCerts`: the config as written so far, and whether
an error is returned. -/
def bootstrapCerts (w : World) (config : Config) : Config × Bool :=
  match w.NewCAPair config.CertificatesConfig.ParenCert with
  | none => (config, false)
  | some ca =>
    let config := { config with
      CertificatesConfig := { config.CertificatesConfig with CACert := ca.1, CAKey := ca.2 } }
    match w.NewAdminPair ca with
    | none => (config, false)
    | some admin =>
      ({ config with
          CertificatesConfig :=
            { config.CertificatesConfig with AdminCert := admin.1, AdminKey := admin.2 } }, true)

/-- The record built by `buildInitialCluster` and handed to `kubeService.Create`. -/
def initialCluster (profile : Profile) (masters nodes : List (GoString × Node))
    (config : Config) (taskIds : List GoString) : Kube :=
  { ID := config.ClusterID,
    State := KubeState.provisioning,
    Name := config.ClusterName,
    Provider := profile.Provider,
    AccountName := config.CloudAccountName,
    RBACEnabled := profile.RBACEnabled,
    ServicesCIDR := profile.K8SServicesCIDR,
    Region := profile.Region,
    Zone := profile.Zone,
    SshUser := config.SshConfig.User,
    SshPublicKey := config.SshConfig.PublicKey,
    BootstrapPublicKey := config.SshConfig.BootstrapPublicKey,
    BootstrapPrivateKey := config.SshConfig.BootstrapPrivateKey,
    User := profile.User,
    Password := profile.Password,
    Auth :=
      { Username := config.CertificatesConfig.Username,
        Password := config.CertificatesConfig.Password,
        CACert := config.CertificatesConfig.CACert,
        CAKey := config.CertificatesConfig.CAKey,
        AdminCert := config.CertificatesConfig.AdminCert,
        AdminKey := config.CertificatesConfig.AdminKey },
    Arch := profile.Arch,
    OperatingSystem := profile.OperatingSystem,
    OperatingSystemVersion := profile.UbuntuVersion,
    K8SVersion := profile.K8SVersion,
    DockerVersion := profile.DockerVersion,
    HelmVersion := profile.HelmVersion,
    Networking :=
      { Manager := profile.FlannelVersion,
        Version := profile.FlannelVersion,
        NetworkType := profile.NetworkType,
        CIDR := profile.CIDR },
    CloudSpec := profile.CloudSpecificSettings,
    Masters := masters,
    Nodes := nodes,
    Tasks := taskIds }

/-- The errors `ProvisionCluster` returns synchronously, by their message. -/
inductive ProvisionError
  /-- the message "Wrong value of cluster task" -/
  | wrongClusterTask
  /-- the wrap "bootstrap keys" -/
  | bootstrapKeys
  /-- the wrap "bootstrap certs" -/
  | bootstrapCerts
  /-- the wrap "build initial cluster" -/
  | buildInitialCluster
  deriving DecidableEq

/-- How a call of `ProvisionCluster` ends: the task map with a nil error, a
nil map with an error, or a runtime panic. -/
inductive ProvisionReturn
  | ok (taskMap : List (String × List Task))
  | error (e : ProvisionError)
  | panic
  deriving DecidableEq

/-- The observable effects of the synchronous part of `ProvisionCluster`. -/
structure ProvisionOutcome where
  ret : ProvisionReturn
  /-- what `prepare` returned -/
  plan : Plan
  /-- the provisioner afterwards (its cancel map) -/
  tp : TaskProvisioner
  /-- the caller's `*config` afterwards -/
  config : Config
  /-- the records handed to `kubeService.Create`, in call order -/
  createCalls : List Kube
  /-- whether the reducer and driver goroutines were started -/
  spawned : Bool
  /-- the number of tasks created so far -/
  created : Nat
  deriving DecidableEq

/-- The method `ProvisionCluster` up to its return; `ctx` names the context
made by `context.WithCancel`, `n` counts the tasks created so far. -/
def ProvisionCluster (w : World) (tp : TaskProvisioner) (ctx : Nat) (profile : Profile)
    (config : Config) (n : Nat) : ProvisionOutcome :=
  let pn := prepare w tp config.Provider profile.MasterProfiles.length
    profile.NodesProfiles.length n
  let plan := pn.1
  let stop (r : ProvisionReturn) (tp : TaskProvisioner) (config : Config)
      (calls : List Kube) : ProvisionOutcome :=
    { ret := r, plan := plan, tp := tp, config := config, createCalls := calls,
      spawned := false, created := pn.2 }
  match plan.clusterTask with
  | none => stop (ProvisionReturn.error ProvisionError.wrongClusterTask) tp config []
  | some clusterTask =>
    if clusterTask.ID.length < 8 then
      stop (ProvisionReturn.error ProvisionError.wrongClusterTask) tp config []
    else
      let config := { config with ClusterID := clusterTask.ID.take 8 }
      let tp := { tp with cancelMap := mapSet tp.cancelMap config.ClusterID ctx }
      match nodesFromProfile w config.ClusterName plan.masterTasks plan.nodeTasks profile with
      | none => stop ProvisionReturn.panic tp config []
      | some (masters, nodes) =>
        match bootstrapKeys w config with
        | none => stop (ProvisionReturn.error ProvisionError.bootstrapKeys) tp config []
        | some config =>
          match bootstrapCerts w config with
          | (config, false) =>
            stop (ProvisionReturn.error ProvisionError.bootstrapCerts) tp config []
          | (config, true) =>
            let taskIds := grabTaskIds plan.preProvisionTask clusterTask plan.masterTasks
              plan.nodeTasks
            let cluster := initialCluster profile masters nodes config taskIds
            if w.kubeCreate cluster = false then
              stop (ProvisionReturn.error ProvisionError.buildInitialCluster) tp config [cluster]
            else
              let taskMap : List (String × List Task) :=
                [("master", plan.masterTasks), ("node", plan.nodeTasks),
                 ("cluster", [clusterTask])]
              let taskMap :=
                match plan.preProvisionTask with
                | some pre => mapSet taskMap "preprovision" [pre]
                | none => taskMap
              { ret := ProvisionReturn.ok taskMap, plan := plan, tp := tp, config := config,
                createCalls := [cluster], spawned := true, created := pn.2 }

/-- The error values `Cancel` can return. -/
inductive CancelError
  | ErrNotFound
  deriving DecidableEq

/-- The method `Cancel`: the returned error (`none` is nil), the provisioner
afterwards, and the set of cancelled contexts afterwards. Calling a cancel
function marks its context as cancelled; calling it again changes nothing. -/
def Cancel (tp : TaskProvisioner) (cancelled : List Nat) (clusterID : GoString) :
    Option CancelError × TaskProvisioner × List Nat :=
  match mapGet tp.cancelMap clusterID with
  | some cancelFunc =>
    (none, tp, if cancelFunc ∈ cancelled then cancelled else cancelFunc :: cancelled)
  | none => (some CancelError.ErrNotFound, tp, cancelled)

/-! ## Rate limiter, latch and the actions a run performs -/

/-- Modelled from the spec: the countdown latch of `util.NewCountdownLatch`
(package `util` is not among the sources). Spec 4.6: constructed with
(ctx, N); `CountDown()` decrements; once the counter reaches zero `Wait()`
unblocks all current and future callers; if ctx is cancelled before zero,
`Wait()` unblocks as well. -/
structure CountdownLatch where
  count : Nat
  deriving DecidableEq

/-- Modelled from the spec: the constructor `util.NewCountdownLatch(ctx, n)`. -/
def NewCountdownLatch (n : Nat) : CountdownLatch := { count := n }

/-- Modelled from the spec: the method `CountDown()`; a latch at zero stays at zero. -/
def CountdownLatch.CountDown (l : CountdownLatch) : CountdownLatch := { count := l.count - 1 }

/-- Modelled from the spec: whether `Wait()` returns, given whether the
latch's context is cancelled. -/
def CountdownLatch.released (l : CountdownLatch) (ctxDone : Bool) : Bool :=
  l.count == 0 || ctxDone

/-- The role in which a task is run. -/
inductive TaskRole
  | preProvision
  | master
  | node
  | cluster
  deriving DecidableEq

/-- The calls and channel sends of the provisioner that the claims observe. -/
inductive Action
  /-- a call `tp.rateLimiter.Take()` that returned -/
  | take
  /-- a call `tp.getWriter(util.MakeFileName(id))` and whether it succeeded -/
  | getWriter (id : GoString) (ok : Bool)
  /-- a call `t.Run(ctx, cfg, out)` of the task `id`; for a master or worker
  task of `ProvisionCluster`, the `go` statement whose goroutine makes the call -/
  | run (role : TaskRole) (id : GoString)
  /-- a send on `config.KubeStateChan()` -/
  | kubeState (s : KubeState)
  /-- a send on `config.ConfigChan()` -/
  | configUpdate
  /-- the call `tp.provisionNodes(...)` of the driver -/
  | provisionNodes
  /-- the call `tp.waitCluster(...)` of the driver -/
  | waitCluster
  deriving DecidableEq

/-! ## Adding nodes: `ProvisionNodes` -/

/-- The errors of `FillNodeCloudSpecificData`. -/
inductive FillError
  /-- an error of `util.BindParams` -/
  | bindParams
  | ErrUnknownProvider
  deriving DecidableEq

/-- The function `FillNodeCloudSpecificData`: the config afterwards and the
returned error (`none` is nil). -/
def FillNodeCloudSpecificData (w : World) (provider : CloudName) (nodeProfile : NodeProfile)
    (config : Config) : Config × Option FillError :=
  match provider with
  | CloudName.other _ => (config, some FillError.ErrUnknownProvider)
  | _ =>
    let r := w.bindConfig provider nodeProfile config
    (r.1, if r.2 then none else some FillError.bindParams)

/-- The errors `ProvisionNodes` returns, by their wrap message. -/
inductive NodesError
  /-- the error `ErrNotFound` wrapped with "master node" -/
  | masterNode
  /-- the wrap "load cloud specific config" -/
  | loadCloudSpecific
  /-- the error `ErrNotFound` wrapped with "provider workflow" -/
  | providerWorkflow
  /-- the error `ErrNotFound` wrapped with "workflow" -/
  | workflow
  /-- the wrap "get writer" -/
  | getWriter
  /-- the wrap "fill node profile data to config" -/
  | fillNodeProfile
  deriving DecidableEq

/-- How a call of `ProvisionNodes` ends: the task IDs with a nil error, a nil
list with an error, or a runtime panic (nil pointer dereference). -/
inductive NodesReturn
  | ok (tasks : List GoString)
  | error (e : NodesError)
  | panic
  deriving DecidableEq

/-- The observable effects of a call of `ProvisionNodes`. -/
structure NodesOutcome where
  ret : NodesReturn
  /-- the provisioner afterwards (its cancel map) -/
  tp : TaskProvisioner
  /-- the caller's `*config` afterwards -/
  config : Config
  /-- the calls made, oldest first -/
  trace : List Action
  /-- whether the reducer goroutine was started -/
  spawned : Bool
  /-- the number of tasks created so far -/
  created : Nat
  deriving DecidableEq

/-- The loop of `ProvisionNodes` over the node profiles, from the iteration
`index` on: `tasks` are the IDs collected, `trace` the calls made, `n` the
number of tasks created so far. -/
def provisionNodesLoop (w : World) (writerOk : Nat → Bool) (nodeWorkflow : String) :
    List NodeProfile → Nat → Config → List GoString → List Action → Nat →
    NodesReturn × Config × List Action × Nat
  | [], _, config, tasks, trace, n => (NodesReturn.ok tasks, config, trace, n)
  | nodeProfile :: rest, index, config, tasks, trace, n =>
    let trace := trace ++ [Action.take]
    match NewTask w nodeWorkflow n with
    | (none, n') => (NodesReturn.panic, config, trace, n')
    | (some t, n') =>
      let tasks := tasks ++ [t.ID]
      if writerOk index = false then
        (NodesReturn.error NodesError.getWriter, config, trace ++ [Action.getWriter t.ID false], n')
      else
        let trace := trace ++ [Action.getWriter t.ID true]
        match FillNodeCloudSpecificData w config.Provider nodeProfile config with
        | (config, some _) => (NodesReturn.error NodesError.fillNodeProfile, config, trace, n')
        | (config, none) =>
          let config := { config with TaskID := t.ID }
          provisionNodesLoop w writerOk nodeWorkflow rest (index + 1) config tasks
            (trace ++ [Action.run TaskRole.node t.ID]) n'

/-- The method `ProvisionNodes`; `ctx` names the context made by
`context.WithCancel`, `writerOk` tells whether `getWriter` succeeds for the
profile at an index, `n` counts the tasks created so far. -/
def ProvisionNodes (w : World) (tp : TaskProvisioner) (ctx : Nat) (writerOk : Nat → Bool)
    (nodeProfiles : List NodeProfile) (kube : Kube) (config : Config) (n : Nat) : NodesOutcome :=
  if kube.Masters.length = 0 then
    { ret := NodesReturn.error NodesError.masterNode, tp := tp, config := config, trace := [],
      spawned := false, created := n }
  else
    let config := { config with Masters := config.Masters ++ kube.Masters.map Prod.snd }
    let tp := { tp with cancelMap := mapSet tp.cancelMap config.ClusterID ctx }
    match w.loadCloudSpecificData config with
    | none =>
      { ret := NodesReturn.error NodesError.loadCloudSpecific, tp := tp, config := config,
        trace := [], spawned := false, created := n }
    | some config =>
      match mapGet tp.provisionMap config.Provider with
      | none =>
        { ret := NodesReturn.error NodesError.providerWorkflow, tp := tp, config := config,
          trace := [], spawned := false, created := n }
      | some providerWorkflowSet =>
        let r := provisionNodesLoop w writerOk providerWorkflowSet.ProvisionNode nodeProfiles 0
          config [] [] n
        { ret := r.1, tp := tp, config := r.2.1, trace := r.2.2.1, spawned := true,
          created := r.2.2.2 }

/-! ## The driver goroutine of `ProvisionCluster` -/

/-- What the driver goroutine (the `go func()` of `ProvisionCluster`) works on
and what its environment answers. -/
structure DriverEnv where
  /-- the number `len(profile.MasterProfiles)` -/
  M : Nat
  /-- the number `len(profile.NodesProfiles)` -/
  N : Nat
  preProvisionTask : Option Task
  masterTasks : List Task
  nodeTasks : List Task
  clusterTask : Task
  /-- whether `getWriter` succeeds in `preProvision` -/
  writerPre : Bool
  /-- whether `getWriter` succeeds for the master task at an index -/
  writerMaster : Nat → Bool
  /-- whether `getWriter` succeeds for the worker task at an index -/
  writerNode : Nat → Bool
  /-- whether `getWriter` succeeds in `waitCluster` -/
  writerCluster : Bool
  /-- whether the pre-provision task's run reports nil -/
  preRunOk : Bool
  /-- whether the cluster task's run reports nil -/
  clusterRunOk : Bool
  /-- whether `config.GetMaster()` is non-nil in `provisionNodes` -/
  masterAtNodes : Bool
  /-- whether `config.GetMaster()` is non-nil in `waitCluster` -/
  masterAtCluster : Bool

/-- Where the driver goroutine stands. -/
inductive Phase
  /-- at `if preProvisionTask != nil` -/
  | preProvision
  /-- in the loop of `provisionMasters`, before the iteration `index` -/
  | masters (index : Nat)
  /-- at the `select`; `chans` is false when `provisionMasters` returned nil
  channels together with an error -/
  | waitQuorum (chans : Bool)
  /-- in the loop of `provisionNodes`, before the iteration `index` -/
  | nodes (index : Nat)
  /-- before the call of `waitCluster` -/
  | waitCluster
  /-- the goroutine has returned -/
  | returned
  /-- the goroutine hit a runtime panic (index out of range) -/
  | panicked
  deriving DecidableEq

/-- The state of one provisioning: the driver, the two latches of
`provisionMasters`, their channels, the context and the master goroutines. -/
structure DriverState where
  phase : Phase
  /-- the driver's actions, oldest first -/
  trace : List Action
  masterLatch : CountdownLatch
  failLatch : CountdownLatch
  /-- the context of the provisioning is cancelled -/
  ctxDone : Bool
  /-- the channel `doneChan` is closed -/
  doneClosed : Bool
  /-- the channel `failChan` is closed -/
  failClosed : Bool
  /-- the two goroutines waiting on the latches have been started -/
  watchers : Bool
  /-- the number of master goroutines started -/
  launched : Nat
  /-- the master outcomes received so far, oldest first: index and success -/
  reports : List (Nat × Bool)
  deriving DecidableEq

/-- The three cases of the driver's `select`. -/
inductive SelectCase
  | ctxDone
  | doneChan
  | failChan
  deriving DecidableEq

/-- What the scheduler and the environment can make happen next. -/
inductive Event
  /-- the driver runs up to its next blocking point or loop iteration -/
  | driver
  /-- the driver's `select` proceeds with a case -/
  | select (c : SelectCase)
  /-- the goroutine of the master task `index` receives the run's result -/
  | report (index : Nat) (ok : Bool)
  /-- the goroutine waiting on `masterLatch` closes `doneChan` -/
  | closeDone
  /-- the goroutine waiting on `failLatch` closes `failChan` -/
  | closeFail
  /-- the context of the provisioning is cancelled -/
  | cancel
  deriving DecidableEq

/-- The driver goroutine at its start. The latches are those that
`provisionMasters` allocates on entry, before any master goroutine exists. -/
def DriverState.init (env : DriverEnv) : DriverState :=
  { phase := Phase.preProvision,
    trace := [],
    masterLatch := NewCountdownLatch (env.M / 2 + 1),
    failLatch := NewCountdownLatch (env.M / 2 + 1),
    ctxDone := false,
    doneClosed := false,
    failClosed := false,
    watchers := false,
    launched := 0,
    reports := [] }

/-- The method `preProvision`: its actions and whether it returns an error. -/
def preProvision (env : DriverEnv) (preProvisionTask : Task) : List Action × Bool :=
  if env.writerPre = false then
    ([Action.getWriter preProvisionTask.ID false], true)
  else if env.preRunOk = false then
    ([Action.getWriter preProvisionTask.ID true,
      Action.run TaskRole.preProvision preProvisionTask.ID,
      Action.kubeState KubeState.failed], true)
  else
    ([Action.getWriter preProvisionTask.ID true,
      Action.run TaskRole.preProvision preProvisionTask.ID,
      Action.kubeState KubeState.provisioning,
      Action.configUpdate], false)

/-- The pre-provision block of the driver (lines 118 to 134): its actions and
whether the goroutine returns there. The variable `preProvisionErr` tested
by the second `if` is the one declared by `var`, which stays nil: the first
`if` assigns the result of `tp.preProvision` to a variable of its own. -/
def driverPreProvision (env : DriverEnv) : List Action × Bool :=
  let preProvisionErr : Bool := false
  match env.preProvisionTask with
  | some preProvisionTask =>
    let r := preProvision env preProvisionTask
    let _innerPreProvisionErr := r.2
    if preProvisionErr then (r.1, true) else (r.1, false)
  | none => ([], false)

/-- One iteration of the loop of `provisionMasters`, or the end of the method.
The tasks come from `prepare`, which appends no nil task, so the
`logrus.Fatal` branch is not taken. -/
def mastersStep (env : DriverEnv) (s : DriverState) (index : Nat) : DriverState :=
  match env.masterTasks.get? index with
  | none => { s with phase := Phase.waitQuorum true, watchers := true }
  | some masterTask =>
    if env.writerMaster index = false then
      { s with
        trace := s.trace ++ [Action.take, Action.getWriter masterTask.ID false],
        phase := Phase.waitQuorum false }
    else if env.M ≤ index then
      { s with
        trace := s.trace ++ [Action.take, Action.getWriter masterTask.ID true],
        phase := Phase.panicked }
    else
      { s with
        trace := s.trace ++ [Action.take, Action.getWriter masterTask.ID true,
          Action.run TaskRole.master masterTask.ID],
        launched := index + 1,
        phase := Phase.masters (index + 1) }

/-- One iteration of the loop of `provisionNodes`, or the end of the method. -/
def nodesStep (env : DriverEnv) (s : DriverState) (index : Nat) : DriverState :=
  match env.nodeTasks.get? index with
  | none => { s with phase := Phase.waitCluster }
  | some nodeTask =>
    if env.writerNode index = false then
      { s with
        trace := s.trace ++ [Action.take, Action.getWriter nodeTask.ID false],
        phase := Phase.waitCluster }
    else if env.N ≤ index then
      { s with
        trace := s.trace ++ [Action.take, Action.getWriter nodeTask.ID true],
        phase := Phase.panicked }
    else
      { s with
        trace := s.trace ++ [Action.take, Action.getWriter nodeTask.ID true,
          Action.run TaskRole.node nodeTask.ID],
        phase := Phase.nodes (index + 1) }

/-- The actions of the method `waitCluster`. -/
def waitCluster (env : DriverEnv) : List Action :=
  if env.writerCluster = false then
    [Action.waitCluster, Action.getWriter env.clusterTask.ID false]
  else if env.masterAtCluster = false then
    [Action.waitCluster, Action.getWriter env.clusterTask.ID true,
     Action.kubeState KubeState.failed]
  else if env.clusterRunOk = false then
    [Action.waitCluster, Action.getWriter env.clusterTask.ID true,
     Action.run TaskRole.cluster env.clusterTask.ID, Action.kubeState KubeState.failed]
  else
    [Action.waitCluster, Action.getWriter env.clusterTask.ID true,
     Action.run TaskRole.cluster env.clusterTask.ID, Action.kubeState KubeState.operational]

/-- The driver's step outside its `select`. -/
def driverStep (env : DriverEnv) (s : DriverState) : DriverState :=
  match s.phase with
  | Phase.preProvision =>
    let r := driverPreProvision env
    if r.2 then { s with trace := s.trace ++ r.1, phase := Phase.returned }
    else if env.M = 0 then
      { s with trace := s.trace ++ r.1, doneClosed := true, phase := Phase.waitQuorum true }
    else { s with trace := s.trace ++ r.1, phase := Phase.masters 0 }
  | Phase.masters index => mastersStep env s index
  | Phase.waitQuorum _ => s
  | Phase.nodes index => nodesStep env s index
  | Phase.waitCluster => { s with trace := s.trace ++ waitCluster env, phase := Phase.returned }
  | Phase.returned => s
  | Phase.panicked => s

/-- The driver's `select` (lines 145 to 154) proceeding with the case `c`,
which must be ready; the call of `provisionNodes` starts with its
`GetMaster` test. -/
def selectStep (env : DriverEnv) (s : DriverState) (c : SelectCase) : DriverState :=
  match s.phase with
  | Phase.waitQuorum chans =>
    match c with
    | SelectCase.ctxDone =>
      if s.ctxDone then { s with phase := Phase.returned } else s
    | SelectCase.doneChan =>
      if chans && s.doneClosed then
        { s with
          trace := s.trace ++ [Action.provisionNodes],
          phase := if env.masterAtNodes then Phase.nodes 0 else Phase.waitCluster }
      else s
    | SelectCase.failChan =>
      if chans && s.failClosed then
        { s with
          trace := s.trace ++ [Action.kubeState KubeState.failed],
          phase := Phase.returned }
      else s
  | _ => s

/-- The goroutine of the master task `index` receiving the result of its run:
a nil result counts down `masterLatch`, an error counts down `failLatch`.
Each started goroutine receives one result. -/
def reportStep (s : DriverState) (index : Nat) (ok : Bool) : DriverState :=
  if index < s.launched ∧ index ∉ s.reports.map Prod.fst then
    if ok then
      { s with reports := s.reports ++ [(index, ok)], masterLatch := s.masterLatch.CountDown }
    else
      { s with reports := s.reports ++ [(index, ok)], failLatch := s.failLatch.CountDown }
  else s

/-- One event of the provisioning; an event that is not enabled changes nothing. -/
def step (env : DriverEnv) (s : DriverState) : Event → DriverState
  | Event.driver => driverStep env s
  | Event.select c => selectStep env s c
  | Event.report index ok => reportStep s index ok
  | Event.closeDone =>
    if s.watchers && s.masterLatch.released s.ctxDone then { s with doneClosed := true } else s
  | Event.closeFail =>
    if s.watchers && s.failLatch.released s.ctxDone then { s with failClosed := true } else s
  | Event.cancel => { s with ctxDone := true }

/-- The state after a schedule of events, from the start of the goroutine. -/
def run (env : DriverEnv) (es : List Event) : DriverState :=
  es.foldl (step env) (DriverState.init env)

/-- No step of the driver or of a latch watcher changes the state: the
driver has ended or is blocked for good unless a master reports or the
context is cancelled. -/
def quiescent (env : DriverEnv) (s : DriverState) : Prop :=
  step env s Event.driver = s ∧ step env s Event.closeDone = s ∧
  step env s Event.closeFail = s ∧ step env s (Event.select SelectCase.ctxDone) = s ∧
  step env s (Event.select SelectCase.doneChan) = s ∧
  step env s (Event.select SelectCase.failChan) = s

instance (env : DriverEnv) (s : DriverState) : Decidable (quiescent env s) := by
  unfold quiescent
  infer_instance

/-- The number of successes among reported outcomes. -/
def successes (r : List (Nat × Bool)) : Nat := r.countP (fun o => o.2)

/-- The number of failures among reported outcomes. -/
def failures (r : List (Nat × Bool)) : Nat := r.countP (fun o => !o.2)

/-- Among the reported outcomes, `q` successes were reported before `q` failures. -/
def successQuorumFirst (q : Nat) (r : List (Nat × Bool)) : Prop :=
  ∃ k, k ≤ r.length ∧ q ≤ successes (r.take k) ∧ failures (r.take k) < q

instance (q : Nat) (r : List (Nat × Bool)) : Decidable (successQuorumFirst q r) := by
  unfold successQuorumFirst
  infer_instance

/-- The driver has entered the workers phase: it has called `provisionNodes`. -/
def enteredWorkers (s : DriverState) : Prop := Action.provisionNodes ∈ s.trace

instance (s : DriverState) : Decidable (enteredWorkers s) := by
  unfold enteredWorkers
  infer_instance

/-- Every run of a task in a role that `needs` a token finds a token taken
since the last such run: `tok` tells whether a `Take()` is still unused. -/
def takenBeforeRun (needs : TaskRole → Bool) : List Action → Bool → Bool
  | [], _ => true
  | Action.take :: rest, _ => takenBeforeRun needs rest true
  | Action.run role _ :: rest, tok =>
    if needs role then tok && takenBeforeRun needs rest false
    else takenBeforeRun needs rest tok
  | _ :: rest, tok => takenBeforeRun needs rest tok

/-- The roles the rate limiter is claimed to cover: pre-provision, master, worker. -/
def cloudRoles : TaskRole → Bool
  | TaskRole.preProvision => true
  | TaskRole.master => true
  | TaskRole.node => true
  | TaskRole.cluster => false

/-- The roles whose runs create instances: master and worker. -/
def instanceRoles : TaskRole → Bool
  | TaskRole.master => true
  | TaskRole.node => true
  | _ => false

/-- A world for the examples: the registry of spec section 6, task IDs that
differ in their first byte, collaborators that always succeed, and for
`strings.ToLower` its value on strings of ASCII bytes, which the names of
the examples are: the bytes 'A' to 'Z' become 'a' to 'z'. -/
def exampleWorld : World :=
  { registry := workflows.stableNames,
    taskID := fun k => (("abcdefghijklmnopqrstuvwxyz".toList.get? k).getD 'z') ::
      ("-task-0".toList ++ List.replicate k 'x'),
    MakeNodeName := fun clusterName taskId isMaster =>
      clusterName ++ (if isMaster then "-master-".toList else "-node-".toList) ++ taskId,
    BindParams := fun _ n => n,
    ToLower := fun s => s.map Char.toLower,
    generateKeyPair := some ("private", "public"),
    NewCAPair := fun _ => some ("cacert", "cakey"),
    NewAdminPair := fun _ => some ("admincert", "adminkey"),
    kubeCreate := fun _ => true,
    bindConfig := fun _ _ c => (c, true),
    loadCloudSpecificData := fun c => some c }

/-- A DigitalOcean profile with one master and one worker. -/
def exampleProfile : Profile :=
  { Provider := CloudName.DigitalOcean, MasterProfiles := [[]], NodesProfiles := [[]] }

/-- A DigitalOcean config. -/
def exampleConfig : Config :=
  { Provider := CloudName.DigitalOcean, ClusterName := "kube".toList }

/-- What holds of the master goroutines and the two latches in every state. -/
structure Inv (env : DriverEnv) (s : DriverState) : Prop where
  launched_le : s.launched ≤ env.M
  pre_launched : s.phase = Phase.preProvision → s.launched = 0
  phase_launched : ∀ i, s.phase = Phase.masters i → s.launched = i
  idx_lt : ∀ p ∈ s.reports, p.1 < s.launched
  nodup : (s.reports.map Prod.fst).Nodup
  mcount : s.masterLatch.count = env.M / 2 + 1 - successes s.reports
  fcount : s.failLatch.count = env.M / 2 + 1 - failures s.reports

/-- The phases before the driver's `select` has proceeded. -/
def Phase.early : Phase → Bool
  | Phase.preProvision => true
  | Phase.masters _ => true
  | Phase.waitQuorum _ => true
  | _ => false

/-- The phases of the workers stage and the post-provision stage. -/
def Phase.late : Phase → Bool
  | Phase.nodes _ => true
  | Phase.waitCluster => true
  | _ => false

/-- How the channels, the trace and the phase of the driver hang together in
every state. -/
structure Inv2 (env : DriverEnv) (s : DriverState) : Prop where
  done_imp : s.doneClosed = true → s.masterLatch.count = 0 ∨ s.ctxDone = true ∨ env.M = 0
  fail_imp : s.failClosed = true → s.failLatch.count = 0 ∨ s.ctxDone = true
  entered_done : Action.provisionNodes ∈ s.trace → s.doneClosed = true
  early : s.phase.early = true → Action.provisionNodes ∉ s.trace
  late : s.phase.late = true → Action.provisionNodes ∈ s.trace
  ret : s.phase = Phase.returned →
    Action.provisionNodes ∈ s.trace ∨ s.failClosed = true ∨ s.ctxDone = true
  pan : s.phase = Phase.panicked →
    Action.provisionNodes ∈ s.trace ∨ env.M < env.masterTasks.length
  wq_true : s.phase = Phase.waitQuorum true → s.watchers = true ∨ env.M = 0
  wq_false : s.phase = Phase.waitQuorum false →
    ∃ i, i < env.masterTasks.length ∧ env.writerMaster i = false

/-- An environment for the examples: three masters, one worker, no
pre-provision task, every writer opens and every run succeeds. -/
def exampleEnv : DriverEnv :=
  { M := 3, N := 1,
    preProvisionTask := none,
    masterTasks := [{ ID := "a-task-0".toList, WorkflowType := "DigitalOceanMaster" },
      { ID := "b-task-0".toList, WorkflowType := "DigitalOceanMaster" },
      { ID := "c-task-0".toList, WorkflowType := "DigitalOceanMaster" }],
    nodeTasks := [{ ID := "d-task-0".toList, WorkflowType := "DigitalOceanNode" }],
    clusterTask := { ID := "e-task-0".toList, WorkflowType := "Cluster" },
    writerPre := true, writerMaster := fun _ => true, writerNode := fun _ => true,
    writerCluster := true, preRunOk := true, clusterRunOk := true,
    masterAtNodes := true, masterAtCluster := true }

/-- A complete schedule for `exampleEnv`: the three masters are started, two
succeed and one fails, the success latch fires, the worker and the cluster
task are run. -/
def exampleSchedule : List Event :=
  [Event.driver, Event.driver, Event.driver, Event.driver, Event.driver,
   Event.report 0 true, Event.report 1 false, Event.report 2 true,
   Event.closeDone, Event.select SelectCase.doneChan,
   Event.driver, Event.driver, Event.driver]

/-- The environment of `exampleEnv` on AWS with one master: there is a
pre-provision task. -/
def awsEnv : DriverEnv :=
  { exampleEnv with
    M := 1,
    preProvisionTask := some { ID := "p-task-0".toList, WorkflowType := "AWSPreProvision" },
    masterTasks := [{ ID := "a-task-0".toList, WorkflowType := "AWSMaster" }] }

/-- The environment `awsEnv` when the run of the pre-provision task reports an error. -/
def awsFailingEnv : DriverEnv :=
  { awsEnv with preRunOk := false }

/-- The number of driver steps still needed to leave the masters stage: an
upper bound used to show that the driver reaches its `select`. -/
def pending (env : DriverEnv) : Phase → Nat
  | Phase.preProvision => env.masterTasks.length + 2
  | Phase.masters index => (env.masterTasks.length - index) + 1
  | _ => 0

/-- A continuation after which the driver has passed its `select` if the
success latch has fired: the driver runs through the loop of
`provisionMasters`, the watcher of `masterLatch` closes `doneChan`, and the
`select` takes that case. -/
def finishMasters (env : DriverEnv) : List Event :=
  List.replicate (env.masterTasks.length + 2) Event.driver ++
    [Event.closeDone, Event.select SelectCase.doneChan]

/-! ## The cluster state reducer: `monitorClusterState` -/

/-- Modelled from the spec: the cloud-spec key constants of package `clouds`
(not among the sources); spec section 6 gives their exact spellings. -/
def clouds.AwsAZ : String := "aws/availabilityZone"

/-- Modelled from the spec: cloud-spec key constant, spec section 6. -/
def clouds.AwsVpcCIDR : String := "aws/vpcCidr"

/-- Modelled from the spec: cloud-spec key constant, spec section 6. -/
def clouds.AwsVpcID : String := "aws/vpcId"

/-- Modelled from the spec: cloud-spec key constant, spec section 6. -/
def clouds.AwsKeyPairName : String := "aws/keyPairName"

/-- Modelled from the spec: cloud-spec key constant, spec section 6. -/
def clouds.AwsMastersSecGroupID : String := "aws/mastersSecGroupId"

/-- Modelled from the spec: cloud-spec key constant, spec section 6. -/
def clouds.AwsNodesSecgroupID : String := "aws/nodesSecGroupId"

/-- Modelled from the spec: cloud-spec key constant, spec section 6. -/
def clouds.AwsSshBootstrapPrivateKey : String := "aws/sshBootstrapPrivateKey"

/-- Modelled from the spec: cloud-spec key constant, spec section 6. -/
def clouds.AwsUserProvidedSshPublicKey : String := "aws/userProvidedSshPublicKey"

/-- Modelled from the spec: cloud-spec key constant, spec section 6. -/
def clouds.AwsRouteTableID : String := "aws/routeTableId"

/-- Modelled from the spec: cloud-spec key constant, spec section 6. -/
def clouds.AwsInternetGateWayID : String := "aws/internetGatewayId"

/-- Modelled from the spec: cloud-spec key constant, spec section 6. -/
def clouds.AwsMasterInstanceProfile : String := "aws/mastersInstanceProfile"

/-- Modelled from the spec: cloud-spec key constant, spec section 6. -/
def clouds.AwsNodeInstanceProfile : String := "aws/nodesInstanceProfile"

/-- Modelled from the spec: cloud-spec key constant, spec section 6. -/
def clouds.AwsImageID : String := "aws/imageId"

/-- The map `cloudSpecificSettings` after the switch of `updateCloudSpecificData`:
empty at first, filled by thirteen assignments for AWS and left empty otherwise. -/
def cloudSpecificSettings (config : Config) : List (String × String) :=
  let m : List (String × String) := []
  match config.Provider with
  | CloudName.AWS =>
    let m := mapSet m clouds.AwsAZ config.AWSConfig.AvailabilityZone
    let m := mapSet m clouds.AwsVpcCIDR config.AWSConfig.VPCCIDR
    let m := mapSet m clouds.AwsVpcID config.AWSConfig.VPCID
    let m := mapSet m clouds.AwsKeyPairName config.AWSConfig.KeyPairName
    let m := mapSet m clouds.AwsMastersSecGroupID config.AWSConfig.MastersSecurityGroupID
    let m := mapSet m clouds.AwsNodesSecgroupID config.AWSConfig.NodesSecurityGroupID
    let m := mapSet m clouds.AwsSshBootstrapPrivateKey config.SshConfig.BootstrapPrivateKey
    let m := mapSet m clouds.AwsUserProvidedSshPublicKey config.SshConfig.PublicKey
    let m := mapSet m clouds.AwsRouteTableID config.AWSConfig.RouteTableID
    let m := mapSet m clouds.AwsInternetGateWayID config.AWSConfig.InternetGatewayID
    let m := mapSet m clouds.AwsMasterInstanceProfile config.AWSConfig.MastersInstanceProfile
    let m := mapSet m clouds.AwsNodeInstanceProfile config.AWSConfig.NodesInstanceProfile
    let m := mapSet m clouds.AwsImageID config.AWSConfig.ImageID
    m
  | _ => m

/-- The method `updateCloudSpecificData`: the record `k` after the call. -/
def updateCloudSpecificData (k : Kube) (config : Config) : Kube :=
  let k := { k with
    BootstrapPrivateKey := config.SshConfig.BootstrapPrivateKey,
    SshPublicKey := config.SshConfig.PublicKey }
  let k :=
    match config.Provider with
    | CloudName.AWS => { k with Subnets := config.AWSConfig.Subnets }
    | CloudName.GCE => k
    | CloudName.DigitalOcean =>
      { k with BootstrapPublicKey := config.SshConfig.BootstrapPublicKey }
    | _ => k
  { k with CloudSpec := cloudSpecificSettings config }

/-- What the reducer receives on its three channels. -/
inductive ReducerEvent
  /-- a node received on `nodeChan` -/
  | node (n : Node)
  /-- a state received on `kubeStateChan` -/
  | kubeState (state : KubeState)
  /-- a config received on `configChan` -/
  | config (config : Config)
  deriving DecidableEq

/-- What a case of the `select` of `monitorClusterState` does to the fetched
record `k` before it hands it to `kubeService.Create`. The maps of a fetched
record are not nil. -/
def reducerUpdate (k : Kube) : ReducerEvent → Kube
  | ReducerEvent.node n =>
    if n.Role = NodeRole.master then { k with Masters := mapSet k.Masters n.Name n }
    else { k with Nodes := mapSet k.Nodes n.Name n }
  | ReducerEvent.kubeState state => { k with State := state }
  | ReducerEvent.config config => updateCloudSpecificData k config

/-- One event handled by `monitorClusterState`, given the answer of
`kubeService.Get` (`none` is an error): the record handed to
`kubeService.Create`, or nothing when the fetch failed and the loop continues. -/
def reducerHandle (fetched : Option Kube) (e : ReducerEvent) : Option Kube :=
  match fetched with
  | none => none
  | some k => some (reducerUpdate k e)

/-! ## Runs, worker goroutines and the provisioner around the driver -/

/-- The states sent on `KubeStateChan` in a trace, in order. -/
def kubeStates : List Action → List KubeState
  | [] => []
  | Action.kubeState s :: rest => s :: kubeStates rest
  | _ :: rest => kubeStates rest

/-- The IDs of the tasks run in a role in a trace, in order. -/
def runsOf (role : TaskRole) : List Action → List GoString
  | [] => []
  | Action.run r id :: rest => if r = role then id :: runsOf role rest else runsOf role rest
  | _ :: rest => runsOf role rest

/-- The config that the goroutine of `waitCluster` passes to the run of the
cluster task, given what `config.GetMaster()` returns: a copy of the config
with `Node` set to the master, or no run when there is no master. -/
def clusterRunConfig (config : Config) (master : Option Node) : Option Config :=
  match master with
  | some m => some { config with Node := m }
  | none => none

/-- The goroutines started by the loop of `ProvisionNodes` (lines 238 to 245):
each receives the result of one run and logs it when it is an error. `runOk`
tells whether the run started for the profile at an index reports nil; the
result is the list of the task IDs whose error is logged. -/
def nodeRunErrors (runOk : Nat → Bool) (trace : List Action) : List GoString :=
  (((runsOf TaskRole.node trace).enum.filter (fun p => !runOk p.1)).map Prod.snd)

/-- The method `ProvisionNodes` together with the goroutines it leaves behind:
what the call returns and does, and the errors the goroutines log. -/
def ProvisionNodesObserved (w : World) (tp : TaskProvisioner) (ctx : Nat)
    (writerOk runOk : Nat → Bool) (nodeProfiles : List NodeProfile) (kube : Kube)
    (config : Config) (n : Nat) : NodesOutcome × List GoString :=
  let out := ProvisionNodes w tp ctx writerOk nodeProfiles kube config n
  (out, nodeRunErrors runOk out.trace)

/-- An event of one provisioning, the worker goroutines included. -/
inductive ClusterEvent
  /-- an event of the driver, the masters, the latch watchers or the context -/
  | base (e : Event)
  /-- the goroutine of the worker task `index` receives the result of its run -/
  | workerReport (index : Nat) (ok : Bool)
  deriving DecidableEq

/-- The state of one provisioning together with what the worker goroutines
have logged: index of the worker task and success. -/
structure ClusterState where
  driver : DriverState
  workerLog : List (Nat × Bool)
  deriving DecidableEq

/-- One event of a provisioning. A worker goroutine (lines 431 to 442) receives
the result of its run and logs it; it writes nothing the driver reads. -/
def clusterStep (env : DriverEnv) (s : ClusterState) : ClusterEvent → ClusterState
  | ClusterEvent.base e => { s with driver := step env s.driver e }
  | ClusterEvent.workerReport index ok =>
    if index < (runsOf TaskRole.node s.driver.trace).length ∧
        index ∉ s.workerLog.map Prod.fst then
      { s with workerLog := s.workerLog ++ [(index, ok)] }
    else s

/-- The state after a schedule of events, worker reports included. -/
def clusterRun (env : DriverEnv) (es : List ClusterEvent) : ClusterState :=
  es.foldl (clusterStep env) { driver := DriverState.init env, workerLog := [] }

/-- The events of a schedule that are not worker reports. -/
def baseEvents : List ClusterEvent → List Event
  | [] => []
  | ClusterEvent.base e :: rest => e :: baseEvents rest
  | ClusterEvent.workerReport _ _ :: rest => baseEvents rest

/-- Whether a trace sends `KubeState=Failed` inside the workers phase, that is
after the call of `provisionNodes` and before the call of `waitCluster`;
`inWorkers` tells whether the scan is inside the phase. True when it does not. -/
def noFailedInWorkers : List Action → Bool → Bool
  | [], _ => true
  | Action.provisionNodes :: rest, _ => noFailedInWorkers rest true
  | Action.waitCluster :: rest, _ => noFailedInWorkers rest false
  | Action.kubeState s :: rest, inWorkers =>
    if inWorkers && s = KubeState.failed then false else noFailedInWorkers rest inWorkers
  | _ :: rest, inWorkers => noFailedInWorkers rest inWorkers

/-- Whether the scan of `noFailedInWorkers` ends inside the workers phase. -/
def inWorkersAfter : List Action → Bool → Bool
  | [], inWorkers => inWorkers
  | Action.provisionNodes :: rest, _ => inWorkersAfter rest true
  | Action.waitCluster :: rest, _ => inWorkersAfter rest false
  | _ :: rest, inWorkers => inWorkersAfter rest inWorkers

/-- The number of driver steps still needed to reach the end of `waitCluster`
from the workers phase. -/
def pendingNodes (env : DriverEnv) : Phase → Nat
  | Phase.nodes index => (env.nodeTasks.length - index) + 2
  | Phase.waitCluster => 1
  | _ => 0

/-- How the trace and the phase hang together in the workers phase and after. -/
structure Inv3 (env : DriverEnv) (s : DriverState) : Prop where
  nofail : noFailedInWorkers s.trace false = true
  flag : inWorkersAfter s.trace false = true → s.phase.late = true ∨ s.phase = Phase.panicked
  ret_wait : s.phase = Phase.returned → Action.provisionNodes ∈ s.trace →
    Action.waitCluster ∈ s.trace
  pan_nodes : s.phase = Phase.panicked → Action.provisionNodes ∈ s.trace →
    env.N < env.nodeTasks.length

/-- The environment of the driver that `ProvisionCluster` starts for a plan,
when every writer opens, every run reports nil and a master is found. -/
def driverEnvOf (profile : Profile) (plan : Plan) (clusterTask : Task) : DriverEnv :=
  { M := profile.MasterProfiles.length, N := profile.NodesProfiles.length,
    preProvisionTask := plan.preProvisionTask,
    masterTasks := plan.masterTasks,
    nodeTasks := plan.nodeTasks,
    clusterTask := clusterTask,
    writerPre := true, writerMaster := fun _ => true, writerNode := fun _ => true,
    writerCluster := true, preRunOk := true, clusterRunOk := true,
    masterAtNodes := true, masterAtCluster := true }

/-- The provisioner next to the driver of one of its provisionings: the
goroutine of `ProvisionCluster` (lines 117 to 165) reads and writes no field
of the provisioner's cancel map, so the provisioner is the one
`ProvisionCluster` left behind whatever the driver has done. -/
def provisioningRun (env : DriverEnv) (tp : TaskProvisioner) (es : List Event) :
    TaskProvisioner × DriverState :=
  es.foldl (fun p e => (p.1, step env p.2 e)) (tp, DriverState.init env)

/-- A kube with one master, for the examples of `ProvisionNodes`. -/
def exampleKube : Kube :=
  { ID := "c-task-0".toList,
    Masters := [("kube-master".toList, { Name := "kube-master".toList, Role := NodeRole.master })] }

/-- A complete schedule of the driver for one master and one worker: the
master is started and succeeds, the success latch fires, the worker and the
cluster task are run. -/
def exampleFinish : List Event :=
  [Event.driver, Event.driver, Event.driver, Event.report 0 true, Event.closeDone,
   Event.select SelectCase.doneChan, Event.driver, Event.driver, Event.driver]

/-- A config of the cluster "c-task-0" for a provider without workflow set. -/
def vultrConfig : Config :=
  { Provider := CloudName.other "Vultr", ClusterID := "c-task-0".toList }

/-- An AWS config as it is after pre-provision, with a VPC ID and an image ID. -/
def awsConfig : Config :=
  { Provider := CloudName.AWS, AWSConfig := { VPCID := "vpc-1", ImageID := "ami-xyz" } }

/-- A schedule for `exampleEnv` with the worker goroutine: the masters reach
their quorum, the driver starts the worker, and the run of the worker
reports an error. -/
def exampleWorkerSchedule : List ClusterEvent :=
  [ClusterEvent.base Event.driver, ClusterEvent.base Event.driver,
   ClusterEvent.base Event.driver, ClusterEvent.base Event.driver,
   ClusterEvent.base Event.driver, ClusterEvent.base (Event.report 0 true),
   ClusterEvent.base (Event.report 1 false), ClusterEvent.base (Event.report 2 true),
   ClusterEvent.base Event.closeDone, ClusterEvent.base (Event.select SelectCase.doneChan),
   ClusterEvent.base Event.driver, ClusterEvent.workerReport 0 false]

/-! ## The loop of `monitorClusterState`, node lists and further examples -/

/-- What an iteration of the `for`/`select` loop of `monitorClusterState`
proceeds with: an event received on one of the three channels, together with
the answers of `kubeService.Get` (`none` is an error) and of
`kubeService.Create` (`false` is an error), or the case `<-ctx.Done()`. -/
inductive ReducerInput
  | event (e : ReducerEvent) (fetched : Option Kube) (createOk : Bool)
  | ctxDone
  deriving DecidableEq

/-- What the goroutine of `monitorClusterState` has done so far. -/
structure ReducerState where
  /-- the records handed to `kubeService.Create`, oldest first -/
  createCalls : List Kube
  /-- the number of events received on the three channels -/
  received : Nat
  /-- the number of errors logged by `logrus.Errorf` -/
  logged : Nat
  /-- the method has returned -/
  returned : Bool
  deriving DecidableEq

/-- One iteration of the loop of `monitorClusterState`. An error of `Get` is
logged and the loop continues before the update and before `Create`; an
error of `Create` is logged and the loop continues; `<-ctx.Done()` returns. -/
def monitorStep (s : ReducerState) : ReducerInput → ReducerState
  | ReducerInput.event e fetched createOk =>
    if s.returned then s
    else
      match reducerHandle fetched e with
      | none => { s with received := s.received + 1, logged := s.logged + 1 }
      | some k =>
        if createOk then
          { s with createCalls := s.createCalls ++ [k], received := s.received + 1 }
        else
          { s with createCalls := s.createCalls ++ [k], received := s.received + 1,
                   logged := s.logged + 1 }
  | ReducerInput.ctxDone => { s with returned := true }

/-- The method `monitorClusterState` over the cases its `select` proceeds
with, in order. -/
def monitorClusterState (inputs : List ReducerInput) : ReducerState :=
  inputs.foldl monitorStep { createCalls := [], received := 0, logged := 0, returned := false }

/-- The record that the iteration for an input hands to `kubeService.Create`,
if it hands one. -/
def ReducerInput.created : ReducerInput → Option Kube
  | ReducerInput.event e fetched _ => reducerHandle fetched e
  | ReducerInput.ctxDone => none

/-- The inputs before the first `<-ctx.Done()`. -/
def beforeDone (inputs : List ReducerInput) : List ReducerInput :=
  inputs.takeWhile (fun i => decide (i ≠ ReducerInput.ctxDone))

/-- The node records that a loop of `nodesFromProfile` builds, in the order
of the profiles; `none` when an iteration panics. -/
def plannedNodes (mk : Nat → NodeProfile → Option Node) :
    List NodeProfile → Nat → Option (List Node)
  | [], _ => some []
  | p :: ps, index =>
    match mk index p with
    | none => none
    | some n =>
      match plannedNodes mk ps (index + 1) with
      | none => none
      | some ns => some (n :: ns)

/-- The assignments `m[n.Name] = n` for a list of node records, in order. -/
def storeNodes (ns : List Node) (acc : List (GoString × Node)) : List (GoString × Node) :=
  ns.foldl (fun m n => mapSet m n.Name n) acc

/-- The environment `exampleEnv` when `getWriter` fails for the third master task. -/
def lastMasterNoWriterEnv : DriverEnv :=
  { exampleEnv with writerMaster := fun i => decide (i ≠ 2) }

/-- A schedule for `lastMasterNoWriterEnv`: two masters are started, the
writer of the third cannot be opened, both started masters succeed, and the
watcher of the success latch and the `select` are tried. -/
def twoSuccessesSchedule : List Event :=
  [Event.driver, Event.driver, Event.driver, Event.driver,
   Event.report 0 true, Event.report 1 true, Event.closeDone,
   Event.select SelectCase.doneChan]

/-- A schedule for `exampleEnv`: the three masters are started, the context
is cancelled before any of them reports, the watcher of the success latch
closes `doneChan`, and the `select` proceeds with that case. -/
def cancelledSchedule : List Event :=
  [Event.driver, Event.driver, Event.driver, Event.driver, Event.driver,
   Event.cancel, Event.closeDone, Event.select SelectCase.doneChan]

/-- A world like `exampleWorld` whose `util.BindParams` binds the key "region"
of the node profile to the field Region of the node. -/
def bindingWorld : World :=
  { exampleWorld with
    BindParams := fun p n =>
      match mapGet p "region" with
      | some r => { n with Region := r }
      | none => n }

/-- A DigitalOcean profile of region "fra1" whose one master profile holds
the key "region". -/
def regionProfile : Profile :=
  { Provider := CloudName.DigitalOcean, Region := "fra1",
    MasterProfiles := [[("region", "nyc3")]], NodesProfiles := [] }

/-- A GCE profile with one master and one worker. -/
def gceProfile : Profile :=
  { Provider := CloudName.GCE, Region := "us-east1", MasterProfiles := [[]],
    NodesProfiles := [[]] }

/-- Two worker tasks with distinct IDs that agree on their first four bytes. -/
def collidingTasks : List Task :=
  [{ ID := "abcd-1111".toList, WorkflowType := "DigitalOceanNode" },
   { ID := "abcd-2222".toList, WorkflowType := "DigitalOceanNode" }]

/-- A DigitalOcean profile with no master and two workers. -/
def twoWorkersProfile : Profile :=
  { Provider := CloudName.DigitalOcean, MasterProfiles := [], NodesProfiles := [[], []] }

/-- The environment of the driver that `ProvisionCluster` starts for a plan,
with the answers of the writers, of the runs and of `GetMaster` taken from
`answers`. -/
def driverEnvFor (profile : Profile) (plan : Plan) (clusterTask : Task)
    (answers : DriverEnv) : DriverEnv :=
  { answers with
    M := profile.MasterProfiles.length, N := profile.NodesProfiles.length,
    preProvisionTask := plan.preProvisionTask,
    masterTasks := plan.masterTasks,
    nodeTasks := plan.nodeTasks,
    clusterTask := clusterTask }

/-- The method `ProvisionCluster` with the goroutine it starts: what the call
returns and, when the driver was started, the state of the driver after a
schedule under the given answers of the tasks. The `return` of
`ProvisionCluster` does not wait for the goroutine. -/
def ProvisionClusterObserved (w : World) (tp : TaskProvisioner) (ctx : Nat) (profile : Profile)
    (config : Config) (n : Nat) (answers : DriverEnv) (es : List Event) :
    ProvisionReturn × Option DriverState :=
  let out := ProvisionCluster w tp ctx profile config n
  match out.spawned, out.plan.clusterTask with
  | true, some clusterTask =>
    (out.ret, some (run (driverEnvFor profile out.plan clusterTask answers) es))
  | _, _ => (out.ret, none)

/-- The environment `awsEnv` when `getWriter` fails for the pre-provision task. -/
def awsNoWriterEnv : DriverEnv :=
  { awsEnv with writerPre := false }

/-- The environment `exampleEnv` when `getWriter` fails for the second master task. -/
def masterNoWriterEnv : DriverEnv :=
  { exampleEnv with writerMaster := fun i => decide (i ≠ 1) }

/-- The environment `exampleEnv` with two masters. -/
def twoMastersEnv : DriverEnv :=
  { exampleEnv with
    M := 2,
    masterTasks := [{ ID := "a-task-0".toList, WorkflowType := "DigitalOceanMaster" },
      { ID := "b-task-0".toList, WorkflowType := "DigitalOceanMaster" }] }

/-- A schedule for `twoMastersEnv`: both masters are started, the first
succeeds and the second fails, then the two latch watchers are tried. -/
def tieSchedule : List Event :=
  [Event.driver, Event.driver, Event.driver, Event.driver,
   Event.report 0 true, Event.report 1 false, Event.closeDone, Event.closeFail]

/-- A world like `exampleWorld` in which no key pair can be generated. -/
def noKeysWorld : World :=
  { exampleWorld with generateKeyPair := none }

/-- A world like `exampleWorld` in which the cluster record cannot be persisted. -/
def noCreateWorld : World :=
  { exampleWorld with kubeCreate := fun _ => false }

/-- A world like `exampleWorld` whose registry holds the cluster workflow only. -/
def clusterOnlyWorld : World :=
  { exampleWorld with registry := [workflows.Cluster] }

/-- A Packet profile with one master and no worker. -/
def packetProfile : Profile :=
  { Provider := CloudName.Packet, MasterProfiles := [[]], NodesProfiles := [] }

/-- A Packet config. -/
def packetConfig : Config :=
  { Provider := CloudName.Packet, ClusterName := "kube".toList }

/-- A kube whose cloud-spec mapping holds an entry. -/
def gceKube : Kube :=
  { exampleKube with CloudSpec := [("gce/projectId", "p-1")] }

/-- A GCE config. -/
def gceConfig : Config :=
  { Provider := CloudName.GCE, ClusterName := "kube".toList }

/-! ## The planner and the synchronous part of `ProvisionCluster` -/

theorem grabTaskIds_foldl (l : List Task) (acc : List GoString) :
    l.foldl (fun acc task => acc ++ [task.ID]) acc = acc ++ l.map Task.ID := by
  induction l generalizing acc with
  | nil => simp
  | cons t ts ih => simp [ih]

theorem grabTaskIds_eq (pre : Option Task) (c : Task) (ms ns : List Task) :
    grabTaskIds pre c ms ns
      = c.ID :: ((pre.map Task.ID).toList ++ ms.map Task.ID ++ ns.map Task.ID) := by
  cases pre <;> simp [grabTaskIds, grabTaskIds_foldl]

theorem bootstrapKeys_ClusterID (w : World) (c c1 : Config) (h : bootstrapKeys w c = some c1) :
    c1.ClusterID = c.ClusterID := by
  unfold bootstrapKeys at h
  split at h
  · simp at h
  · simp at h; subst h; rfl

theorem bootstrapCerts_ClusterID (w : World) (c : Config) :
    (bootstrapCerts w c).1.ClusterID = c.ClusterID := by
  unfold bootstrapCerts
  split
  · rfl
  · split <;> rfl

theorem ProvisionCluster_plan (w : World) (tp : TaskProvisioner) (ctx : Nat) (profile : Profile)
    (config : Config) (n : Nat) :
    (ProvisionCluster w tp ctx profile config n).plan =
      (prepare w tp config.Provider profile.MasterProfiles.length
        profile.NodesProfiles.length n).1 := by
  unfold ProvisionCluster
  simp only
  repeat (first | rfl | split)

theorem ProvisionCluster_ok_inv (w : World) (tp : TaskProvisioner) (ctx : Nat) (profile : Profile)
    (config : Config) (n : Nat) (taskMap : List (String × List Task))
    (h : (ProvisionCluster w tp ctx profile config n).ret = ProvisionReturn.ok taskMap) :
    ∃ clusterTask masters nodes cfg1 cfg2,
      (prepare w tp config.Provider profile.MasterProfiles.length
        profile.NodesProfiles.length n).1.clusterTask = some clusterTask ∧
      8 ≤ clusterTask.ID.length ∧
      bootstrapKeys w { config with ClusterID := clusterTask.ID.take 8 } = some cfg1 ∧
      bootstrapCerts w cfg1 = (cfg2, true) ∧
      (ProvisionCluster w tp ctx profile config n).config = cfg2 ∧
      (ProvisionCluster w tp ctx profile config n).createCalls =
        [initialCluster profile masters nodes cfg2
          (grabTaskIds
            (prepare w tp config.Provider profile.MasterProfiles.length
              profile.NodesProfiles.length n).1.preProvisionTask clusterTask
            (prepare w tp config.Provider profile.MasterProfiles.length
              profile.NodesProfiles.length n).1.masterTasks
            (prepare w tp config.Provider profile.MasterProfiles.length
              profile.NodesProfiles.length n).1.nodeTasks)] ∧
      w.kubeCreate (initialCluster profile masters nodes cfg2
          (grabTaskIds
            (prepare w tp config.Provider profile.MasterProfiles.length
              profile.NodesProfiles.length n).1.preProvisionTask clusterTask
            (prepare w tp config.Provider profile.MasterProfiles.length
              profile.NodesProfiles.length n).1.masterTasks
            (prepare w tp config.Provider profile.MasterProfiles.length
              profile.NodesProfiles.length n).1.nodeTasks)) = true ∧
      mapGet taskMap "cluster" = some [clusterTask] := by
  unfold ProvisionCluster at h ⊢
  simp only at h ⊢
  split at h
  · simp at h
  · rename_i clusterTask hct
    split at h
    · simp at h
    · rename_i hlen
      split at h
      · simp at h
      · rename_i masters nodes hnp
        split at h
        · simp at h
        · rename_i cfg1 hbk
          split at h
          · simp at h
          · rename_i cfg2 hbc
            split at h
            · simp at h
            · rename_i hkc
              refine ⟨clusterTask, masters, nodes, cfg1, cfg2, hct, by omega, hbk, hbc, ?_, ?_,
                by simpa using hkc, ?_⟩
              · simp [hct, hlen, hnp, hbk, hbc, hkc]
              · simp [hct, hlen, hnp, hbk, hbc, hkc]
              · simp only [ProvisionReturn.ok.injEq] at h
                subst h
                split <;> simp [mapSet, mapGet]

theorem ProvisionCluster_create_inv (w : World) (tp : TaskProvisioner) (ctx : Nat)
    (profile : Profile) (config : Config) (n : Nat) (kube : Kube)
    (h : kube ∈ (ProvisionCluster w tp ctx profile config n).createCalls) :
    ∃ clusterTask masters nodes cfg,
      (prepare w tp config.Provider profile.MasterProfiles.length
        profile.NodesProfiles.length n).1.clusterTask = some clusterTask ∧
      kube = initialCluster profile masters nodes cfg
          (grabTaskIds
            (prepare w tp config.Provider profile.MasterProfiles.length
              profile.NodesProfiles.length n).1.preProvisionTask clusterTask
            (prepare w tp config.Provider profile.MasterProfiles.length
              profile.NodesProfiles.length n).1.masterTasks
            (prepare w tp config.Provider profile.MasterProfiles.length
              profile.NodesProfiles.length n).1.nodeTasks) := by
  unfold ProvisionCluster at h
  simp only at h
  split at h
  · simp at h
  · rename_i clusterTask hct
    split at h
    · simp at h
    · split at h
      · simp at h
      · rename_i masters nodes hnp
        split at h
        · simp at h
        · split at h
          · simp at h
          · rename_i cfg2 hbc
            refine ⟨clusterTask, masters, nodes, cfg2, hct, ?_⟩
            split at h <;> simpa using h

theorem createTasks_registered (w : World) (taskType : String) (h : taskType ∈ w.registry)
    (count n : Nat) : (createTasks w taskType count n).1.length = count := by
  induction count generalizing n with
  | zero => simp [createTasks]
  | succ c ih => simp [createTasks, NewTask, h, ih]

theorem createTasks_unregistered (w : World) (taskType : String) (h : taskType ∉ w.registry)
    (count n : Nat) : createTasks w taskType count n = ([], n) := by
  induction count generalizing n with
  | zero => simp [createTasks]
  | succ c ih => simp [createTasks, NewTask, h, ih]

/-- C4: when `ProvisionCluster` returns without error, `config.ClusterID` is the
first 8 bytes of the ID of the task returned under the key "cluster", and the
one record handed to `kubeService.Create`, which accepted it, has that ID. -/
theorem C4_clusterID_from_cluster_task (w : World) (tp : TaskProvisioner) (ctx : Nat)
    (profile : Profile) (config : Config) (n : Nat) (taskMap : List (String × List Task))
    (h : (ProvisionCluster w tp ctx profile config n).ret = ProvisionReturn.ok taskMap) :
    ∃ clusterTask kube,
      mapGet taskMap "cluster" = some [clusterTask] ∧
      (ProvisionCluster w tp ctx profile config n).plan.clusterTask = some clusterTask ∧
      (ProvisionCluster w tp ctx profile config n).config.ClusterID = clusterTask.ID.take 8 ∧
      (ProvisionCluster w tp ctx profile config n).config.ClusterID.length = 8 ∧
      (ProvisionCluster w tp ctx profile config n).createCalls = [kube] ∧
      w.kubeCreate kube = true ∧
      kube.ID = clusterTask.ID.take 8 := by
  obtain ⟨clusterTask, masters, nodes, cfg1, cfg2, hct, hlen, hbk, hbc, hcfg, hcalls, hkc, hmap⟩ :=
    ProvisionCluster_ok_inv w tp ctx profile config n taskMap h
  have hid : cfg2.ClusterID = clusterTask.ID.take 8 := by
    have h1 := bootstrapCerts_ClusterID w cfg1
    rw [hbc] at h1
    have h2 := bootstrapKeys_ClusterID w _ cfg1 hbk
    simp only at h1 h2
    rw [h1, h2]
  refine ⟨clusterTask, _, hmap, ?_, ?_, ?_, hcalls, hkc, ?_⟩
  · rw [ProvisionCluster_plan]; exact hct
  · rw [hcfg]; exact hid
  · rw [hcfg, hid, List.length_take]; omega
  · simpa [initialCluster] using hid

/-- Witness for C4 : a DigitalOcean provisioning with one master and one worker. -/
theorem C4_clusterID_from_cluster_task_witness :
    ∃ clusterTask kube,
      mapGet [("master", [({ ID := "a-task-0".toList, WorkflowType := "DigitalOceanMaster" } : Task)]),
         ("node", [{ ID := "b-task-0x".toList, WorkflowType := "DigitalOceanNode" }]),
         ("cluster", [{ ID := "c-task-0xx".toList, WorkflowType := "Cluster" }])] "cluster"
        = some [clusterTask] ∧
      (ProvisionCluster exampleWorld NewProvisioner 1 exampleProfile exampleConfig 0).plan.clusterTask
        = some clusterTask ∧
      (ProvisionCluster exampleWorld NewProvisioner 1 exampleProfile exampleConfig 0).config.ClusterID
        = clusterTask.ID.take 8 ∧
      (ProvisionCluster exampleWorld NewProvisioner 1 exampleProfile
        exampleConfig 0).config.ClusterID.length = 8 ∧
      (ProvisionCluster exampleWorld NewProvisioner 1 exampleProfile exampleConfig 0).createCalls
        = [kube] ∧
      exampleWorld.kubeCreate kube = true ∧
      kube.ID = clusterTask.ID.take 8 :=
  C4_clusterID_from_cluster_task exampleWorld NewProvisioner 1 exampleProfile exampleConfig 0
    _ (by decide)

/-- C5: `ProvisionCluster` returns a nil task map and the error "Wrong value of
cluster task" exactly when the cluster task returned by `prepare` is nil or
its ID has fewer than 8 bytes. -/
theorem C5_planning_error_iff (w : World) (tp : TaskProvisioner) (ctx : Nat)
    (profile : Profile) (config : Config) (n : Nat) :
    (ProvisionCluster w tp ctx profile config n).ret
        = ProvisionReturn.error ProvisionError.wrongClusterTask ↔
      ((prepare w tp config.Provider profile.MasterProfiles.length
          profile.NodesProfiles.length n).1.clusterTask = none ∨
       ∃ t, (prepare w tp config.Provider profile.MasterProfiles.length
          profile.NodesProfiles.length n).1.clusterTask = some t ∧ t.ID.length < 8) := by
  unfold ProvisionCluster
  simp only
  split
  · rename_i hct
    simp [hct]
  · rename_i clusterTask hct
    split
    · rename_i hlen
      simp [hct, hlen]
    · rename_i hlen
      have : ¬ ∃ t, some clusterTask = some t ∧ t.ID.length < 8 := by
        rintro ⟨t, ht, hl⟩
        simp only [Option.some.injEq] at ht
        subst ht
        exact hlen hl
      simp only [hct, this, or_false, reduceCtorEq, iff_false]
      repeat (first | split | simp)

/-- C6: the record that `ProvisionCluster` hands to `kubeService.Create` has as
`Tasks` the result of `grabTaskIds`: the cluster task ID, then the
pre-provision task ID if there is such a task, then the ID of every master
task, then the ID of every worker task, one entry per task and nothing else. -/
theorem C6_initial_record_tasks (w : World) (tp : TaskProvisioner) (ctx : Nat)
    (profile : Profile) (config : Config) (n : Nat) (kube : Kube)
    (h : kube ∈ (ProvisionCluster w tp ctx profile config n).createCalls) :
    ∃ clusterTask,
      (ProvisionCluster w tp ctx profile config n).plan.clusterTask = some clusterTask ∧
      kube.Tasks = grabTaskIds (ProvisionCluster w tp ctx profile config n).plan.preProvisionTask
        clusterTask (ProvisionCluster w tp ctx profile config n).plan.masterTasks
        (ProvisionCluster w tp ctx profile config n).plan.nodeTasks ∧
      kube.Tasks = clusterTask.ID ::
        (((ProvisionCluster w tp ctx profile config n).plan.preProvisionTask.map Task.ID).toList ++
          (ProvisionCluster w tp ctx profile config n).plan.masterTasks.map Task.ID ++
          (ProvisionCluster w tp ctx profile config n).plan.nodeTasks.map Task.ID) ∧
      kube.Tasks.length =
        1 + ((ProvisionCluster w tp ctx profile config n).plan.preProvisionTask.map Task.ID).toList.length +
          (ProvisionCluster w tp ctx profile config n).plan.masterTasks.length +
          (ProvisionCluster w tp ctx profile config n).plan.nodeTasks.length := by
  obtain ⟨clusterTask, masters, nodes, cfg, hct, hk⟩ :=
    ProvisionCluster_create_inv w tp ctx profile config n kube h
  rw [ProvisionCluster_plan]
  have ht : kube.Tasks = grabTaskIds
      (prepare w tp config.Provider profile.MasterProfiles.length
        profile.NodesProfiles.length n).1.preProvisionTask clusterTask
      (prepare w tp config.Provider profile.MasterProfiles.length
        profile.NodesProfiles.length n).1.masterTasks
      (prepare w tp config.Provider profile.MasterProfiles.length
        profile.NodesProfiles.length n).1.nodeTasks := by
    rw [hk]; rfl
  refine ⟨clusterTask, hct, ht, ?_, ?_⟩
  · rw [ht, grabTaskIds_eq]
  · rw [ht, grabTaskIds_eq]
    simp only [List.length_cons, List.length_append, List.length_map]
    omega

/-- Witness for C6 : the record of a DigitalOcean provisioning with one master
and one worker. -/
theorem C6_initial_record_tasks_witness :
    ∃ clusterTask,
      (ProvisionCluster exampleWorld NewProvisioner 1 exampleProfile exampleConfig 0).plan.clusterTask
        = some clusterTask ∧
      ((ProvisionCluster exampleWorld NewProvisioner 1 exampleProfile
          exampleConfig 0).createCalls.headD {}).Tasks
        = grabTaskIds
          (ProvisionCluster exampleWorld NewProvisioner 1 exampleProfile exampleConfig 0).plan.preProvisionTask
          clusterTask
          (ProvisionCluster exampleWorld NewProvisioner 1 exampleProfile exampleConfig 0).plan.masterTasks
          (ProvisionCluster exampleWorld NewProvisioner 1 exampleProfile exampleConfig 0).plan.nodeTasks ∧
      ((ProvisionCluster exampleWorld NewProvisioner 1 exampleProfile
          exampleConfig 0).createCalls.headD {}).Tasks
        = clusterTask.ID ::
        (((ProvisionCluster exampleWorld NewProvisioner 1 exampleProfile
            exampleConfig 0).plan.preProvisionTask.map Task.ID).toList ++
          (ProvisionCluster exampleWorld NewProvisioner 1 exampleProfile
            exampleConfig 0).plan.masterTasks.map Task.ID ++
          (ProvisionCluster exampleWorld NewProvisioner 1 exampleProfile
            exampleConfig 0).plan.nodeTasks.map Task.ID) ∧
      ((ProvisionCluster exampleWorld NewProvisioner 1 exampleProfile
          exampleConfig 0).createCalls.headD {}).Tasks.length
        = 1 + ((ProvisionCluster exampleWorld NewProvisioner 1 exampleProfile
            exampleConfig 0).plan.preProvisionTask.map Task.ID).toList.length +
          (ProvisionCluster exampleWorld NewProvisioner 1 exampleProfile
            exampleConfig 0).plan.masterTasks.length +
          (ProvisionCluster exampleWorld NewProvisioner 1 exampleProfile
            exampleConfig 0).plan.nodeTasks.length :=
  C6_initial_record_tasks exampleWorld NewProvisioner 1 exampleProfile exampleConfig 0 _
    (by decide)

/-- C7 as stated fails for Packet (and OpenStack): `NewProvisioner` registers no
workflow set for it, the master and node workflow names are empty, no such
workflow is registered, and `prepare(Packet, 1, 1)` returns no master and no
worker task. -/
theorem C7_counterexample_packet :
    (prepare exampleWorld NewProvisioner CloudName.Packet 1 1 0).1.masterTasks = [] ∧
    (prepare exampleWorld NewProvisioner CloudName.Packet 1 1 0).1.nodeTasks = [] ∧
    ¬ ((prepare exampleWorld NewProvisioner CloudName.Packet 1 1 0).1.masterTasks.length = 1 ∧
       (prepare exampleWorld NewProvisioner CloudName.Packet 1 1 0).1.nodeTasks.length = 1) := by
  decide

/-- C7, amended: with the workflows of spec section 6 registered,
`prepare(provider, M, N)` of a provisioner made by `NewProvisioner` returns,
for each of the providers AWS, GCE and DigitalOcean, exactly M master tasks,
exactly N worker tasks, one cluster task, and a pre-provision task exactly
when the provider is AWS. -/
theorem C7_prepare_counts (w : World) (name : CloudName) (M N n : Nat)
    (hreg : ∀ nm ∈ workflows.stableNames, nm ∈ w.registry)
    (hp : name = CloudName.AWS ∨ name = CloudName.GCE ∨ name = CloudName.DigitalOcean) :
    (prepare w NewProvisioner name M N n).1.masterTasks.length = M ∧
    (prepare w NewProvisioner name M N n).1.nodeTasks.length = N ∧
    (prepare w NewProvisioner name M N n).1.clusterTask.isSome = true ∧
    ((prepare w NewProvisioner name M N n).1.preProvisionTask.isSome = true
      ↔ name = CloudName.AWS) := by
  have hC : workflows.Cluster ∈ w.registry := hreg _ (by decide)
  have hend : ∀ (pre : Option Task) (k : Nat),
      (prepareRest w NewProvisioner name M N pre k).1.clusterTask.isSome = true ∧
      (prepareRest w NewProvisioner name M N pre k).1.preProvisionTask = pre := by
    intro pre k
    simp [prepareRest, NewTask, hC]
  have hlenM : ∀ (ws : WorkflowSet) (pre : Option Task) (k : Nat),
      NewProvisioner.workflowSet name = ws →
      ((ws.ProvisionMaster ∈ w.registry →
        (prepareRest w NewProvisioner name M N pre k).1.masterTasks.length = M) ∧
      (ws.ProvisionNode ∈ w.registry →
        (prepareRest w NewProvisioner name M N pre k).1.nodeTasks.length = N)) := by
    intro ws pre k hws
    refine ⟨?_, ?_⟩ <;> intro hin
    · simp [prepareRest, hws, createTasks_registered w _ hin]
    · simp [prepareRest, hws, createTasks_registered w _ hin]
  rcases hp with hp | hp | hp
  · subst hp
    have hpre : workflows.AWSPreProvision ∈ w.registry := hreg _ (by decide)
    have hm : workflows.AWSMaster ∈ w.registry := hreg _ (by decide)
    have hn : workflows.AWSNode ∈ w.registry := hreg _ (by decide)
    have hws : NewProvisioner.workflowSet CloudName.AWS =
        { ProvisionMaster := workflows.AWSMaster, ProvisionNode := workflows.AWSNode,
          PreProvision := workflows.AWSPreProvision } := by decide
    have hnew : NewTask w workflows.AWSPreProvision n =
        (some { ID := w.taskID n, WorkflowType := workflows.AWSPreProvision }, n + 1) := by
      simp [NewTask, hpre]
    have h := hlenM _ (some { ID := w.taskID n, WorkflowType := workflows.AWSPreProvision })
      (n + 1) hws
    have he := hend (some { ID := w.taskID n, WorkflowType := workflows.AWSPreProvision })
      (n + 1)
    simp only [prepare, hws, hnew]
    refine ⟨by simpa using h.1 hm, by simpa using h.2 hn, he.1, ?_⟩
    rw [he.2]; simp
  · subst hp
    have hm : workflows.GCEMaster ∈ w.registry := hreg _ (by decide)
    have hn : workflows.GCENode ∈ w.registry := hreg _ (by decide)
    have hws : NewProvisioner.workflowSet CloudName.GCE =
        { ProvisionMaster := workflows.GCEMaster, ProvisionNode := workflows.GCENode } := by
      decide
    have h := hlenM _ none n hws
    have he := hend none n
    simp only [prepare]
    refine ⟨by simpa using h.1 hm, by simpa using h.2 hn, he.1, ?_⟩
    rw [he.2]; simp
  · subst hp
    have hm : workflows.DigitalOceanMaster ∈ w.registry := hreg _ (by decide)
    have hn : workflows.DigitalOceanNode ∈ w.registry := hreg _ (by decide)
    have hws : NewProvisioner.workflowSet CloudName.DigitalOcean =
        { ProvisionMaster := workflows.DigitalOceanMaster,
          ProvisionNode := workflows.DigitalOceanNode } := by
      decide
    have h := hlenM _ none n hws
    have he := hend none n
    simp only [prepare]
    refine ⟨by simpa using h.1 hm, by simpa using h.2 hn, he.1, ?_⟩
    rw [he.2]; simp

/-- Witness for C7 : AWS with three masters and two workers. -/
theorem C7_prepare_counts_witness :
    (∀ nm ∈ workflows.stableNames, nm ∈ exampleWorld.registry) ∧
    (prepare exampleWorld NewProvisioner CloudName.AWS 3 2 0).1.masterTasks.length = 3 ∧
    (prepare exampleWorld NewProvisioner CloudName.AWS 3 2 0).1.nodeTasks.length = 2 ∧
    (prepare exampleWorld NewProvisioner CloudName.AWS 3 2 0).1.clusterTask.isSome = true ∧
    ((prepare exampleWorld NewProvisioner CloudName.AWS 3 2 0).1.preProvisionTask.isSome = true
      ↔ CloudName.AWS = CloudName.AWS) :=
  ⟨by decide,
   C7_prepare_counts exampleWorld CloudName.AWS 3 2 0 (by decide) (Or.inl rfl)⟩

/-- C10: `Cancel(clusterID)` returns `ErrNotFound` exactly when the cancel map has
no entry for `clusterID`; otherwise it returns nil, the registered function
has been called (its context is cancelled), the cancel map is unchanged, and
a second `Cancel(clusterID)` returns nil again and changes nothing. -/
theorem C10_cancel (tp : TaskProvisioner) (cancelled : List Nat) (clusterID : GoString) :
    ((Cancel tp cancelled clusterID).1 = some CancelError.ErrNotFound
      ↔ mapGet tp.cancelMap clusterID = none) ∧
    (∀ cancelFunc, mapGet tp.cancelMap clusterID = some cancelFunc →
      (Cancel tp cancelled clusterID).1 = none ∧
      cancelFunc ∈ (Cancel tp cancelled clusterID).2.2 ∧
      (Cancel tp cancelled clusterID).2.1 = tp ∧
      (Cancel (Cancel tp cancelled clusterID).2.1 (Cancel tp cancelled clusterID).2.2 clusterID)
        = (none, tp, (Cancel tp cancelled clusterID).2.2)) := by
  constructor
  · unfold Cancel
    cases mapGet tp.cancelMap clusterID <;> simp
  · intro cancelFunc hf
    unfold Cancel
    simp only [hf]
    by_cases hc : cancelFunc ∈ cancelled <;> simp [hc, hf]

/-- Witness for C10 : a provisioner with one registered cancel function. -/
theorem C10_cancel_witness :
    mapGet ({ NewProvisioner with cancelMap := [("c-task-0".toList, 7)] } : TaskProvisioner).cancelMap
        "c-task-0".toList = some 7 ∧
    ((Cancel { NewProvisioner with cancelMap := [("c-task-0".toList, 7)] } []
        "c-task-0".toList).1 = none ∧
      7 ∈ (Cancel { NewProvisioner with cancelMap := [("c-task-0".toList, 7)] } []
        "c-task-0".toList).2.2 ∧
      (Cancel { NewProvisioner with cancelMap := [("c-task-0".toList, 7)] } []
        "c-task-0".toList).2.1 = { NewProvisioner with cancelMap := [("c-task-0".toList, 7)] } ∧
      (Cancel
        (Cancel { NewProvisioner with cancelMap := [("c-task-0".toList, 7)] } []
          "c-task-0".toList).2.1
        (Cancel { NewProvisioner with cancelMap := [("c-task-0".toList, 7)] } []
          "c-task-0".toList).2.2 "c-task-0".toList)
        = (none, { NewProvisioner with cancelMap := [("c-task-0".toList, 7)] },
            (Cancel { NewProvisioner with cancelMap := [("c-task-0".toList, 7)] } []
              "c-task-0".toList).2.2)) :=
  ⟨by decide,
   (C10_cancel { NewProvisioner with cancelMap := [("c-task-0".toList, 7)] } []
      "c-task-0".toList).2 7 (by decide)⟩

/-! ## The driver: invariants and quorum -/

theorem successes_append (r : List (Nat × Bool)) (i : Nat) (ok : Bool) :
    successes (r ++ [(i, ok)]) = successes r + (if ok then 1 else 0) := by
  cases ok <;> simp [successes, List.countP_append]

theorem failures_append (r : List (Nat × Bool)) (i : Nat) (ok : Bool) :
    failures (r ++ [(i, ok)]) = failures r + (if ok then 0 else 1) := by
  cases ok <;> simp [failures, List.countP_append]

theorem successes_add_failures (r : List (Nat × Bool)) :
    successes r + failures r = r.length := by
  induction r with
  | nil => rfl
  | cons p ps ih =>
    rcases p with ⟨i, ok⟩
    cases ok <;> simp [successes, failures, List.countP_cons] at ih ⊢ <;> omega

theorem length_le_of_nodup_lt (l : List Nat) (n : Nat) (hd : l.Nodup) (hlt : ∀ x ∈ l, x < n) :
    l.length ≤ n := by
  have hsub : l ⊆ List.range n := fun x hx => List.mem_range.mpr (hlt x hx)
  have := (hd.subperm hsub).length_le
  simpa using this

theorem Inv_init (env : DriverEnv) : Inv env (DriverState.init env) := by
  constructor <;> simp [DriverState.init, NewCountdownLatch, successes, failures]

theorem Inv_step (env : DriverEnv) (s : DriverState) (e : Event) (h : Inv env s) :
    Inv env (step env s e) := by
  obtain ⟨h1, h0, h2, h3, h4, h5, h6⟩ := h
  cases e with
  | driver =>
    cases hph : s.phase with
    | preProvision =>
      have hl := h0 hph
      simp only [step, driverStep, hph]
      split_ifs
      · exact ⟨h1, (fun h => nomatch h), (fun _ h => nomatch h), h3, h4, h5, h6⟩
      · exact ⟨h1, (fun h => nomatch h), (fun _ h => nomatch h), h3, h4, h5, h6⟩
      · refine ⟨h1, (fun h => nomatch h), (fun i h => ?_), h3, h4, h5, h6⟩
        cases h; exact hl
    | masters index =>
      have hl := h2 index hph
      simp only [step, driverStep, hph, mastersStep]
      split
      · exact ⟨h1, (fun h => nomatch h), (fun _ h => nomatch h), h3, h4, h5, h6⟩
      · split_ifs with hw hM
        · exact ⟨h1, (fun h => nomatch h), (fun _ h => nomatch h), h3, h4, h5, h6⟩
        · exact ⟨h1, (fun h => nomatch h), (fun _ h => nomatch h), h3, h4, h5, h6⟩
        · refine ⟨?_, (fun h => nomatch h), (fun i h => ?_), ?_, h4, h5, h6⟩
          · show index + 1 ≤ env.M
            omega
          · cases h; rfl
          · intro p hp
            have := h3 p hp
            show p.1 < index + 1
            omega
    | waitQuorum chans =>
      simp only [step, driverStep, hph]
      exact ⟨h1, h0, h2, h3, h4, h5, h6⟩
    | nodes index =>
      simp only [step, driverStep, hph, nodesStep]
      split
      · exact ⟨h1, (fun h => nomatch h), (fun _ h => nomatch h), h3, h4, h5, h6⟩
      · split_ifs
        · exact ⟨h1, (fun h => nomatch h), (fun _ h => nomatch h), h3, h4, h5, h6⟩
        · exact ⟨h1, (fun h => nomatch h), (fun _ h => nomatch h), h3, h4, h5, h6⟩
        · exact ⟨h1, (fun h => nomatch h), (fun _ h => nomatch h), h3, h4, h5, h6⟩
    | waitCluster =>
      simp only [step, driverStep, hph]
      exact ⟨h1, (fun h => nomatch h), (fun _ h => nomatch h), h3, h4, h5, h6⟩
    | returned =>
      simp only [step, driverStep, hph]
      exact ⟨h1, h0, h2, h3, h4, h5, h6⟩
    | panicked =>
      simp only [step, driverStep, hph]
      exact ⟨h1, h0, h2, h3, h4, h5, h6⟩
  | select c =>
    cases hph : s.phase with
    | waitQuorum chans =>
      simp only [step, selectStep, hph]
      cases c with
      | ctxDone =>
        simp only []
        split_ifs
        · exact ⟨h1, (fun h => nomatch h), (fun _ h => nomatch h), h3, h4, h5, h6⟩
        · exact ⟨h1, h0, h2, h3, h4, h5, h6⟩
      | doneChan =>
        simp only []
        split_ifs
        · exact ⟨h1, (fun h => nomatch h), (fun _ h => nomatch h), h3, h4, h5, h6⟩
        · exact ⟨h1, (fun h => nomatch h), (fun _ h => nomatch h), h3, h4, h5, h6⟩
        · exact ⟨h1, h0, h2, h3, h4, h5, h6⟩
      | failChan =>
        simp only []
        split_ifs
        · exact ⟨h1, (fun h => nomatch h), (fun _ h => nomatch h), h3, h4, h5, h6⟩
        · exact ⟨h1, h0, h2, h3, h4, h5, h6⟩
    | preProvision => simp only [step, selectStep, hph]; exact ⟨h1, h0, h2, h3, h4, h5, h6⟩
    | masters index => simp only [step, selectStep, hph]; exact ⟨h1, h0, h2, h3, h4, h5, h6⟩
    | nodes index => simp only [step, selectStep, hph]; exact ⟨h1, h0, h2, h3, h4, h5, h6⟩
    | waitCluster => simp only [step, selectStep, hph]; exact ⟨h1, h0, h2, h3, h4, h5, h6⟩
    | returned => simp only [step, selectStep, hph]; exact ⟨h1, h0, h2, h3, h4, h5, h6⟩
    | panicked => simp only [step, selectStep, hph]; exact ⟨h1, h0, h2, h3, h4, h5, h6⟩
  | report index ok =>
    simp only [step, reportStep]
    split_ifs with hen hok
    · obtain ⟨hlt, hnew⟩ := hen
      subst hok
      refine ⟨h1, h0, h2, ?_, ?_, ?_, ?_⟩
      · intro p hp
        simp only [List.mem_append, List.mem_singleton] at hp
        rcases hp with hp | hp
        · exact h3 p hp
        · subst hp; exact hlt
      · simp only [List.map_append, List.map_cons, List.map_nil]
        rw [List.nodup_append]
        refine ⟨h4, by simp, ?_⟩
        intro a ha hb
        simp only [List.mem_singleton] at hb
        subst hb
        exact hnew ha
      · show (s.masterLatch.count - 1) = env.M / 2 + 1 - successes (s.reports ++ [(index, true)])
        rw [successes_append, h5]
        simp only [if_true]
        omega
      · show s.failLatch.count = env.M / 2 + 1 - failures (s.reports ++ [(index, true)])
        rw [failures_append, h6]
        simp
    · obtain ⟨hlt, hnew⟩ := hen
      have hok2 : ok = false := by simpa using hok
      subst hok2
      refine ⟨h1, h0, h2, ?_, ?_, ?_, ?_⟩
      · intro p hp
        simp only [List.mem_append, List.mem_singleton] at hp
        rcases hp with hp | hp
        · exact h3 p hp
        · subst hp; exact hlt
      · simp only [List.map_append, List.map_cons, List.map_nil]
        rw [List.nodup_append]
        refine ⟨h4, by simp, ?_⟩
        intro a ha hb
        simp only [List.mem_singleton] at hb
        subst hb
        exact hnew ha
      · show s.masterLatch.count = env.M / 2 + 1 - successes (s.reports ++ [(index, false)])
        rw [successes_append, h5]
        simp
      · show (s.failLatch.count - 1) = env.M / 2 + 1 - failures (s.reports ++ [(index, false)])
        rw [failures_append, h6]
        simp only [Bool.false_eq_true, if_false]
        omega
    · exact ⟨h1, h0, h2, h3, h4, h5, h6⟩
  | closeDone =>
    simp only [step]
    split_ifs <;> exact ⟨h1, h0, h2, h3, h4, h5, h6⟩
  | closeFail =>
    simp only [step]
    split_ifs <;> exact ⟨h1, h0, h2, h3, h4, h5, h6⟩
  | cancel => exact ⟨h1, h0, h2, h3, h4, h5, h6⟩

theorem Inv_run (env : DriverEnv) (es : List Event) : Inv env (run env es) := by
  unfold run
  induction es using List.reverseRecOn with
  | nil => exact Inv_init env
  | append_singleton es e ih =>
    rw [List.foldl_append]
    exact Inv_step env _ e ih

theorem run_append (env : DriverEnv) (es es2 : List Event) :
    run env (es ++ es2) = es2.foldl (step env) (run env es) := by
  simp [run, List.foldl_append]

theorem Inv_reports_le (env : DriverEnv) (s : DriverState) (h : Inv env s) :
    successes s.reports + failures s.reports ≤ env.M := by
  rw [successes_add_failures]
  have := length_le_of_nodup_lt _ s.launched h.nodup (by
    intro x hx
    simp only [List.mem_map] at hx
    obtain ⟨p, hp, rfl⟩ := hx
    exact h.idx_lt p hp)
  simp only [List.length_map] at this
  exact le_trans this h.launched_le

theorem driverPreProvision_snd (env : DriverEnv) : (driverPreProvision env).2 = false := by
  unfold driverPreProvision
  cases env.preProvisionTask <;> simp

theorem driverPreProvision_no_nodes (env : DriverEnv) :
    Action.provisionNodes ∉ (driverPreProvision env).1 := by
  unfold driverPreProvision preProvision
  cases env.preProvisionTask with
  | none => simp
  | some t =>
    simp only [Bool.false_eq_true, if_false]
    split_ifs <;> simp

theorem Inv2_init (env : DriverEnv) : Inv2 env (DriverState.init env) := by
  constructor <;> simp [DriverState.init, Phase.early, Phase.late]

theorem Inv2_step (env : DriverEnv) (s : DriverState) (e : Event) (h : Inv2 env s) :
    Inv2 env (step env s e) := by
  obtain ⟨phase, trace, ml, fl, cd, dc, fc, wa, la, re⟩ := s
  obtain ⟨h1, h2, h3, h4, h5, h6, h7, h8, h9⟩ := h
  simp only at h1 h2 h3 h4 h5 h6 h7 h8 h9
  cases e with
  | driver =>
    cases phase with
    | preProvision =>
      have hp := driverPreProvision_no_nodes env
      simp only [step, driverStep, driverPreProvision_snd]
      split_ifs <;> constructor <;> simp_all [Phase.early, Phase.late]
    | masters index =>
      simp only [step, driverStep, mastersStep]
      split
      · constructor <;> simp_all [Phase.early, Phase.late]
      · rename_i task hget
        have hlt : index < env.masterTasks.length := by
          have := List.get?_eq_some.mp hget
          exact this.1
        split_ifs
        · constructor <;> simp_all [Phase.early, Phase.late]
          exact ⟨index, hlt, by assumption⟩
        · constructor <;> simp_all [Phase.early, Phase.late]
          omega
        · constructor <;> simp_all [Phase.early, Phase.late]
    | waitQuorum chans =>
      simp only [step, driverStep]
      exact ⟨h1, h2, h3, h4, h5, h6, h7, h8, h9⟩
    | nodes index =>
      simp only [step, driverStep, nodesStep]
      split
      · constructor <;> simp_all [Phase.early, Phase.late]
      · split_ifs <;> constructor <;> simp_all [Phase.early, Phase.late]
    | waitCluster =>
      simp only [step, driverStep]
      constructor <;> simp_all [Phase.early, Phase.late]
    | returned =>
      simp only [step, driverStep]
      exact ⟨h1, h2, h3, h4, h5, h6, h7, h8, h9⟩
    | panicked =>
      simp only [step, driverStep]
      exact ⟨h1, h2, h3, h4, h5, h6, h7, h8, h9⟩
  | select c =>
    cases phase with
    | waitQuorum chans =>
      simp only [step, selectStep]
      cases c with
      | ctxDone =>
        simp only []
        split_ifs <;> constructor <;> simp_all [Phase.early, Phase.late]
      | doneChan =>
        simp only []
        split_ifs <;> constructor <;> simp_all [Phase.early, Phase.late]
      | failChan =>
        simp only []
        split_ifs <;> constructor <;> simp_all [Phase.early, Phase.late]
    | preProvision => simp only [step, selectStep]; exact ⟨h1, h2, h3, h4, h5, h6, h7, h8, h9⟩
    | masters index => simp only [step, selectStep]; exact ⟨h1, h2, h3, h4, h5, h6, h7, h8, h9⟩
    | nodes index => simp only [step, selectStep]; exact ⟨h1, h2, h3, h4, h5, h6, h7, h8, h9⟩
    | waitCluster => simp only [step, selectStep]; exact ⟨h1, h2, h3, h4, h5, h6, h7, h8, h9⟩
    | returned => simp only [step, selectStep]; exact ⟨h1, h2, h3, h4, h5, h6, h7, h8, h9⟩
    | panicked => simp only [step, selectStep]; exact ⟨h1, h2, h3, h4, h5, h6, h7, h8, h9⟩
  | report index ok =>
    simp only [step, reportStep]
    split_ifs
    · refine ⟨?_, h2, h3, h4, h5, h6, h7, h8, h9⟩
      intro hd
      rcases h1 hd with h | h
      · left; show ml.count - 1 = 0; omega
      · right; exact h
    · refine ⟨h1, ?_, h3, h4, h5, h6, h7, h8, h9⟩
      intro hd
      rcases h2 hd with h | h
      · left; show fl.count - 1 = 0; omega
      · right; exact h
    · exact ⟨h1, h2, h3, h4, h5, h6, h7, h8, h9⟩
  | closeDone =>
    simp only [step]
    split_ifs with hc
    · refine ⟨?_, h2, ?_, h4, h5, h6, h7, h8, h9⟩
      · intro _
        simp only [CountdownLatch.released, Bool.and_eq_true, Bool.or_eq_true, beq_iff_eq] at hc
        rcases hc.2 with h | h
        · left; exact h
        · right; left; exact h
      · intro _; rfl
    · exact ⟨h1, h2, h3, h4, h5, h6, h7, h8, h9⟩
  | closeFail =>
    simp only [step]
    split_ifs with hc
    · refine ⟨h1, ?_, h3, h4, h5, ?_, h7, h8, h9⟩
      · intro _
        simp only [CountdownLatch.released, Bool.and_eq_true, Bool.or_eq_true, beq_iff_eq] at hc
        exact hc.2
      · intro hr
        rcases h6 hr with h | h | h
        · left; exact h
        · right; left; rfl
        · right; right; exact h
    · exact ⟨h1, h2, h3, h4, h5, h6, h7, h8, h9⟩
  | cancel =>
    simp only [step]
    refine ⟨?_, ?_, h3, h4, h5, ?_, h7, h8, h9⟩
    · intro _; right; left; rfl
    · intro _; right; rfl
    · intro hr
      right; right; rfl

theorem Inv2_run (env : DriverEnv) (es : List Event) : Inv2 env (run env es) := by
  unfold run
  induction es using List.reverseRecOn with
  | nil => exact Inv2_init env
  | append_singleton es e ih =>
    rw [List.foldl_append]
    exact Inv2_step env _ e ih

theorem step_ctxDone (env : DriverEnv) (s : DriverState) (e : Event) (he : e ≠ Event.cancel) :
    (step env s e).ctxDone = s.ctxDone := by
  obtain ⟨phase, trace, ml, fl, cd, dc, fc, wa, la, re⟩ := s
  cases e with
  | driver =>
    cases phase with
    | preProvision =>
      simp only [step, driverStep]
      split_ifs <;> rfl
    | masters index =>
      simp only [step, driverStep, mastersStep]
      split
      · rfl
      · split_ifs <;> rfl
    | nodes index =>
      simp only [step, driverStep, nodesStep]
      split
      · rfl
      · split_ifs <;> rfl
    | waitQuorum chans => rfl
    | waitCluster => rfl
    | returned => rfl
    | panicked => rfl
  | select c =>
    cases phase with
    | waitQuorum chans =>
      cases c <;> simp only [step, selectStep] <;> split_ifs <;> rfl
    | preProvision => rfl
    | masters index => rfl
    | nodes index => rfl
    | waitCluster => rfl
    | returned => rfl
    | panicked => rfl
  | report index ok =>
    simp only [step, reportStep]
    split_ifs <;> rfl
  | closeDone =>
    simp only [step]
    split_ifs <;> rfl
  | closeFail =>
    simp only [step]
    split_ifs <;> rfl
  | cancel => exact absurd rfl he

theorem run_ctxDone_false (env : DriverEnv) (es : List Event) (hnc : Event.cancel ∉ es) :
    (run env es).ctxDone = false := by
  unfold run
  induction es using List.reverseRecOn with
  | nil => rfl
  | append_singleton es e ih =>
    rw [List.foldl_append]
    simp only [List.mem_append, List.mem_singleton, not_or] at hnc
    simp only [List.foldl_cons, List.foldl_nil]
    rw [step_ctxDone env _ e (fun h => hnc.2 h.symm)]
    exact ih hnc.1

theorem successes_take_le (r : List (Nat × Bool)) (k : Nat) :
    successes (r.take k) ≤ successes r :=
  (List.take_sublist k r).countP_le _

theorem step_masterLatch_le (env : DriverEnv) (s : DriverState) (e : Event) :
    (step env s e).masterLatch.count ≤ s.masterLatch.count := by
  obtain ⟨phase, trace, ml, fl, cd, dc, fc, wa, la, re⟩ := s
  cases e with
  | driver =>
    cases phase with
    | preProvision =>
      simp only [step, driverStep]
      split_ifs <;> exact le_refl _
    | masters index =>
      simp only [step, driverStep, mastersStep]
      split
      · exact le_refl _
      · split_ifs <;> exact le_refl _
    | nodes index =>
      simp only [step, driverStep, nodesStep]
      split
      · exact le_refl _
      · split_ifs <;> exact le_refl _
    | waitQuorum chans => exact le_refl _
    | waitCluster => exact le_refl _
    | returned => exact le_refl _
    | panicked => exact le_refl _
  | select c =>
    cases phase with
    | waitQuorum chans =>
      cases c <;> simp only [step, selectStep] <;> split_ifs <;> exact le_refl _
    | preProvision => exact le_refl _
    | masters index => exact le_refl _
    | nodes index => exact le_refl _
    | waitCluster => exact le_refl _
    | returned => exact le_refl _
    | panicked => exact le_refl _
  | report index ok =>
    simp only [step, reportStep]
    split_ifs
    · exact Nat.sub_le _ _
    · exact le_refl _
    · exact le_refl _
  | closeDone =>
    simp only [step]
    split_ifs <;> exact le_refl _
  | closeFail =>
    simp only [step]
    split_ifs <;> exact le_refl _
  | cancel => exact le_refl _

theorem foldl_masterLatch_le (env : DriverEnv) (es : List Event) (s : DriverState) :
    (es.foldl (step env) s).masterLatch.count ≤ s.masterLatch.count := by
  induction es generalizing s with
  | nil => exact le_refl _
  | cons e es ih =>
    simp only [List.foldl_cons]
    exact le_trans (ih _) (step_masterLatch_le env s e)

theorem takenBeforeRun_append (needs : TaskRole → Bool) (a b : List Action) (tok : Bool)
    (ha : takenBeforeRun needs a tok = true)
    (hb : ∀ t, takenBeforeRun needs b t = true) :
    takenBeforeRun needs (a ++ b) tok = true := by
  induction a generalizing tok with
  | nil => simpa using hb tok
  | cons x xs ih =>
    cases x with
    | take => simp only [List.cons_append, takenBeforeRun] at ha ⊢; exact ih _ ha
    | run role id =>
      simp only [List.cons_append, takenBeforeRun] at ha ⊢
      split_ifs at ha ⊢ with hn
      · simp only [Bool.and_eq_true] at ha ⊢
        exact ⟨ha.1, ih _ ha.2⟩
      · exact ih _ ha
    | getWriter id ok => simp only [List.cons_append, takenBeforeRun] at ha ⊢; exact ih _ ha
    | kubeState st => simp only [List.cons_append, takenBeforeRun] at ha ⊢; exact ih _ ha
    | configUpdate => simp only [List.cons_append, takenBeforeRun] at ha ⊢; exact ih _ ha
    | provisionNodes => simp only [List.cons_append, takenBeforeRun] at ha ⊢; exact ih _ ha
    | waitCluster => simp only [List.cons_append, takenBeforeRun] at ha ⊢; exact ih _ ha

theorem step_trace_chunk (env : DriverEnv) (s : DriverState) (e : Event) :
    ∃ chunk, (step env s e).trace = s.trace ++ chunk ∧
      ∀ t, takenBeforeRun instanceRoles chunk t = true := by
  obtain ⟨phase, trace, ml, fl, cd, dc, fc, wa, la, re⟩ := s
  have hnil : ∃ chunk, trace = trace ++ chunk ∧
      ∀ t, takenBeforeRun instanceRoles chunk t = true :=
    ⟨[], by simp, fun _ => rfl⟩
  cases e with
  | driver =>
    cases phase with
    | preProvision =>
      have hpre : ∀ t, takenBeforeRun instanceRoles (driverPreProvision env).1 t = true := by
        intro t
        unfold driverPreProvision preProvision
        cases env.preProvisionTask with
        | none => rfl
        | some task =>
          simp only [Bool.false_eq_true, if_false]
          split_ifs <;> simp [takenBeforeRun, instanceRoles]
      simp only [step, driverStep]
      split_ifs <;> exact ⟨_, rfl, hpre⟩
    | masters index =>
      simp only [step, driverStep, mastersStep]
      split
      · exact hnil
      · split_ifs
        · exact ⟨_, rfl, fun _ => by simp [takenBeforeRun]⟩
        · exact ⟨_, rfl, fun _ => by simp [takenBeforeRun]⟩
        · exact ⟨_, rfl, fun _ => by simp [takenBeforeRun, instanceRoles]⟩
    | nodes index =>
      simp only [step, driverStep, nodesStep]
      split
      · exact hnil
      · split_ifs
        · exact ⟨_, rfl, fun _ => by simp [takenBeforeRun]⟩
        · exact ⟨_, rfl, fun _ => by simp [takenBeforeRun]⟩
        · exact ⟨_, rfl, fun _ => by simp [takenBeforeRun, instanceRoles]⟩
    | waitQuorum chans => exact hnil
    | waitCluster =>
      simp only [step, driverStep]
      refine ⟨_, rfl, fun t => ?_⟩
      unfold waitCluster
      split_ifs <;> simp [takenBeforeRun, instanceRoles]
    | returned => exact hnil
    | panicked => exact hnil
  | select c =>
    cases phase with
    | waitQuorum chans =>
      cases c <;> simp only [step, selectStep] <;> split_ifs <;>
        first
        | exact hnil
        | exact ⟨_, rfl, fun _ => by simp [takenBeforeRun]⟩
    | preProvision => exact hnil
    | masters index => exact hnil
    | nodes index => exact hnil
    | waitCluster => exact hnil
    | returned => exact hnil
    | panicked => exact hnil
  | report index ok =>
    simp only [step, reportStep]
    split_ifs <;> exact hnil
  | closeDone =>
    simp only [step]
    split_ifs <;> exact hnil
  | closeFail =>
    simp only [step]
    split_ifs <;> exact hnil
  | cancel => exact hnil

theorem step_trace_mono (env : DriverEnv) (s : DriverState) (e : Event) (a : Action)
    (h : a ∈ s.trace) : a ∈ (step env s e).trace := by
  obtain ⟨chunk, hc, _⟩ := step_trace_chunk env s e
  rw [hc]
  exact List.mem_append_left _ h

theorem foldl_trace_mono (env : DriverEnv) (es : List Event) (s : DriverState) (a : Action)
    (h : a ∈ s.trace) : a ∈ (es.foldl (step env) s).trace := by
  induction es generalizing s with
  | nil => exact h
  | cons e es ih =>
    simp only [List.foldl_cons]
    exact ih _ (step_trace_mono env s e a h)

theorem pending_driver (env : DriverEnv) (s : DriverState) :
    pending env (step env s Event.driver).phase ≤ pending env s.phase - 1 := by
  obtain ⟨phase, trace, ml, fl, cd, dc, fc, wa, la, re⟩ := s
  cases phase with
  | preProvision =>
    simp only [step, driverStep]
    split_ifs <;> simp [pending]
  | masters index =>
    simp only [step, driverStep, mastersStep]
    split
    · simp [pending]
    · rename_i task hget
      have hlt : index < env.masterTasks.length := (List.get?_eq_some.mp hget).1
      split_ifs
      · simp [pending]
      · simp [pending]
      · simp only [pending]
        omega
  | nodes index =>
    simp only [step, driverStep, nodesStep]
    split
    · simp [pending]
    · split_ifs <;> simp [pending]
  | waitQuorum chans => simp [step, driverStep, pending]
  | waitCluster => simp [step, driverStep, pending]
  | returned => simp [step, driverStep, pending]
  | panicked => simp [step, driverStep, pending]

theorem pending_replicate (env : DriverEnv) (k : Nat) (s : DriverState) :
    pending env ((List.replicate k Event.driver).foldl (step env) s).phase
      ≤ pending env s.phase - k := by
  induction k generalizing s with
  | zero => simp
  | succ k ih =>
    simp only [List.replicate_succ, List.foldl_cons]
    have h1 := ih (step env s Event.driver)
    have h2 := pending_driver env s
    omega

theorem pending_le (env : DriverEnv) (ph : Phase) :
    pending env ph ≤ env.masterTasks.length + 2 := by
  cases ph <;> simp only [pending] <;> omega

/-- The safety half of the quorum gate, in every state of a provisioning
that is not cancelled: the driver has called `provisionNodes` only if the
success latch is at zero. -/
theorem entered_imp_latch_zero (env : DriverEnv) (es : List Event) (hM : 1 ≤ env.M)
    (hnc : Event.cancel ∉ es) (hent : enteredWorkers (run env es)) :
    (run env es).masterLatch.count = 0 := by
  have I2 := Inv2_run env es
  have hctx := run_ctxDone_false env es hnc
  rcases I2.done_imp (I2.entered_done hent) with h | h | h
  · exact h
  · rw [hctx] at h; cases h
  · omega

/-- The progress half of the quorum gate: once the success latch is at zero,
the events of `finishMasters` take the driver into the workers phase. -/
theorem latch_zero_imp_can_enter (env : DriverEnv) (es : List Event) (hM : 1 ≤ env.M)
    (hlen : env.masterTasks.length ≤ env.M)
    (hw : ∀ i, i < env.masterTasks.length → env.writerMaster i = true)
    (hnc : Event.cancel ∉ es) (hz : (run env es).masterLatch.count = 0) :
    enteredWorkers (run env (es ++ finishMasters env)) := by
  have hnc1 : Event.cancel ∉ es ++ List.replicate (env.masterTasks.length + 2) Event.driver := by
    simp only [List.mem_append, not_or]
    refine ⟨hnc, ?_⟩
    intro h
    have := List.eq_of_mem_replicate h
    cases this
  have I1 := Inv_run env (es ++ List.replicate (env.masterTasks.length + 2) Event.driver)
  have I2 := Inv2_run env (es ++ List.replicate (env.masterTasks.length + 2) Event.driver)
  have hctx := run_ctxDone_false env _ hnc1
  have hcount := Inv_reports_le env _ I1
  have hfc := I1.fcount
  have hmc := I1.mcount
  have hz1 : (run env (es ++ List.replicate (env.masterTasks.length + 2)
      Event.driver)).masterLatch.count = 0 := by
    have := foldl_masterLatch_le env (List.replicate (env.masterTasks.length + 2) Event.driver)
      (run env es)
    rw [← run_append] at this
    omega
  have hpend : pending env (run env (es ++ List.replicate (env.masterTasks.length + 2)
      Event.driver)).phase = 0 := by
    have h1 := pending_replicate env (env.masterTasks.length + 2) (run env es)
    rw [← run_append] at h1
    have h2 := pending_le env (run env es).phase
    omega
  have hfin : finishMasters env = List.replicate (env.masterTasks.length + 2) Event.driver ++
      [Event.closeDone, Event.select SelectCase.doneChan] := rfl
  rw [hfin, ← List.append_assoc, run_append]
  generalize run env (es ++ List.replicate (env.masterTasks.length + 2) Event.driver) = s at *
  have hkeep : Action.provisionNodes ∈ s.trace →
      enteredWorkers ([Event.closeDone, Event.select SelectCase.doneChan].foldl (step env) s) :=
    fun h => foldl_trace_mono env _ s _ h
  obtain ⟨phase, trace, ml, fl, cd, dc, fc, wa, la, re⟩ := s
  simp only at hctx hz1 hmc hfc hcount hkeep
  subst hctx
  cases phase with
  | preProvision => simp [pending] at hpend
  | masters index => simp [pending] at hpend
  | waitQuorum chans =>
    cases chans with
    | false =>
      obtain ⟨i, hi, hwi⟩ := I2.wq_false rfl
      rw [hw i hi] at hwi
      cases hwi
    | true =>
      have hwa : wa = true := by
        rcases I2.wq_true rfl with h | h
        · exact h
        · omega
      subst hwa
      simp [enteredWorkers, step, selectStep, CountdownLatch.released, hz1]
  | nodes index => exact hkeep (I2.late rfl)
  | waitCluster => exact hkeep (I2.late rfl)
  | returned =>
    rcases I2.ret rfl with h | h | h
    · exact hkeep h
    · rcases I2.fail_imp h with h | h
      · simp only at h
        omega
      · cases h
    · cases h
  | panicked =>
    rcases I2.pan rfl with h | h
    · exact hkeep h
    · omega

/-- The quorum gate at rest: once neither the driver nor a latch watcher can
take a further step, a success latch at zero means the driver has called
`provisionNodes`. -/
theorem quiescent_latch_zero_imp_entered (env : DriverEnv) (es : List Event) (hM : 1 ≤ env.M)
    (hlen : env.masterTasks.length ≤ env.M)
    (hw : ∀ i, i < env.masterTasks.length → env.writerMaster i = true)
    (hnc : Event.cancel ∉ es) (hq : quiescent env (run env es))
    (hz : (run env es).masterLatch.count = 0) : enteredWorkers (run env es) := by
  have I1 := Inv_run env es
  have I2 := Inv2_run env es
  have hctx := run_ctxDone_false env es hnc
  have hcount := Inv_reports_le env _ I1
  generalize run env es = s at *
  obtain ⟨h1, h2, h3, h4, h5, h6⟩ := hq
  have hmc := I1.mcount
  have hfc := I1.fcount
  by_contra hent
  obtain ⟨phase, trace, ml, fl, cd, dc, fc, wa, la, re⟩ := s
  simp only at hctx hz hmc hfc hcount
  subst hctx
  cases phase with
  | preProvision =>
    simp only [step, driverStep, driverPreProvision_snd] at h1
    split_ifs at h1 <;> simp at h1
  | masters index =>
    simp only [step, driverStep, mastersStep] at h1
    split at h1
    · simp at h1
    · split_ifs at h1 <;> simp at h1
  | waitQuorum chans =>
    cases chans with
    | false =>
      obtain ⟨i, hi, hwi⟩ := I2.wq_false rfl
      rw [hw i hi] at hwi
      cases hwi
    | true =>
      have hwa : wa = true := by
        rcases I2.wq_true rfl with h | h
        · exact h
        · omega
      subst hwa
      have hdc : dc = true := by
        simp only [step, CountdownLatch.released, hz] at h2
        simpa using h2
      subst hdc
      simp only [step, selectStep] at h5
      simp at h5
  | nodes index => exact hent (I2.late rfl)
  | waitCluster => exact hent (I2.late rfl)
  | returned =>
    rcases I2.ret rfl with h | h | h
    · exact hent h
    · rcases I2.fail_imp h with h | h
      · simp only at h
        omega
      · cases h
    · cases h
  | panicked =>
    rcases I2.pan rfl with h | h
    · exact hent h
    · omega

theorem successQuorumFirst_iff_latch_zero (env : DriverEnv) (es : List Event) :
    successQuorumFirst (env.M / 2 + 1) (run env es).reports ↔
      (run env es).masterLatch.count = 0 := by
  have I1 := Inv_run env es
  have hcount := Inv_reports_le env _ I1
  have hmc := I1.mcount
  constructor
  · rintro ⟨k, _, hk, _⟩
    have := successes_take_le (run env es).reports k
    omega
  · intro hz
    refine ⟨(run env es).reports.length, le_refl _, ?_, ?_⟩
    · rw [List.take_length]; omega
    · rw [List.take_length]; omega

/-- C1, counterexample: two schedules for three masters. In the first the
writer of the third master task cannot be opened, `provisionMasters`
returns nil channels, and the two started masters both succeed: two
successes were reported before any failure, no step of the driver or of a
watcher remains, and `provisionNodes` has not been called, nor is it after
the continuation `finishMasters`. In the second the context is cancelled
before any master reports: the watcher of the success latch closes
`doneChan`, the `select` proceeds with it, and `provisionNodes` is called
although no master has reported success. -/
theorem C1_counterexample_writer_failure_and_cancel :
    1 ≤ lastMasterNoWriterEnv.M ∧
    lastMasterNoWriterEnv.writerMaster 2 = false ∧
    successQuorumFirst (lastMasterNoWriterEnv.M / 2 + 1)
      (run lastMasterNoWriterEnv twoSuccessesSchedule).reports ∧
    quiescent lastMasterNoWriterEnv (run lastMasterNoWriterEnv twoSuccessesSchedule) ∧
    ¬ enteredWorkers (run lastMasterNoWriterEnv twoSuccessesSchedule) ∧
    ¬ enteredWorkers (run lastMasterNoWriterEnv
      (twoSuccessesSchedule ++ finishMasters lastMasterNoWriterEnv)) ∧
    Event.cancel ∈ cancelledSchedule ∧
    (run exampleEnv cancelledSchedule).reports = [] ∧
    ¬ successQuorumFirst (exampleEnv.M / 2 + 1) (run exampleEnv cancelledSchedule).reports ∧
    enteredWorkers (run exampleEnv cancelledSchedule) := by
  decide

/-- C1, amended: in a provisioning with M ≥ 1 master profiles and no more master tasks
than profiles, whose context is not cancelled and whose master writers all
open, whatever the order in which the master tasks report and however the
reports interleave with the driver: (1) the driver has called
`provisionNodes` only if ⌊M/2⌋+1 master tasks reported success before
⌊M/2⌋+1 reported failure; (2) once they have, the driver can run on into the
workers phase (`finishMasters`); (3) once neither the driver nor a latch
watcher can take a further step, the driver has called `provisionNodes`
exactly when ⌊M/2⌋+1 master tasks reported success before ⌊M/2⌋+1 reported
failure. -/
theorem C1_workers_iff_success_quorum (env : DriverEnv) (es : List Event)
    (hM : 1 ≤ env.M) (hlen : env.masterTasks.length ≤ env.M)
    (hw : ∀ i, i < env.masterTasks.length → env.writerMaster i = true)
    (hnc : Event.cancel ∉ es) :
    (enteredWorkers (run env es) →
      successQuorumFirst (env.M / 2 + 1) (run env es).reports) ∧
    (successQuorumFirst (env.M / 2 + 1) (run env es).reports →
      enteredWorkers (run env (es ++ finishMasters env))) ∧
    (quiescent env (run env es) →
      (enteredWorkers (run env es) ↔
        successQuorumFirst (env.M / 2 + 1) (run env es).reports)) := by
  refine ⟨?_, ?_, ?_⟩
  · intro hent
    exact (successQuorumFirst_iff_latch_zero env es).mpr
      (entered_imp_latch_zero env es hM hnc hent)
  · intro hs
    exact latch_zero_imp_can_enter env es hM hlen hw hnc
      ((successQuorumFirst_iff_latch_zero env es).mp hs)
  · intro hq
    constructor
    · intro hent
      exact (successQuorumFirst_iff_latch_zero env es).mpr
        (entered_imp_latch_zero env es hM hnc hent)
    · intro hs
      exact quiescent_latch_zero_imp_entered env es hM hlen hw hnc hq
        ((successQuorumFirst_iff_latch_zero env es).mp hs)

/-- Witness for C1 : the complete schedule `exampleSchedule` of `exampleEnv`, in
which two of three masters succeed and the driver calls `provisionNodes`. -/
theorem C1_workers_iff_success_quorum_witness :
    (1 ≤ exampleEnv.M ∧ exampleEnv.masterTasks.length ≤ exampleEnv.M ∧
      Event.cancel ∉ exampleSchedule ∧
      quiescent exampleEnv (run exampleEnv exampleSchedule) ∧
      enteredWorkers (run exampleEnv exampleSchedule) ∧
      successQuorumFirst (exampleEnv.M / 2 + 1) (run exampleEnv exampleSchedule).reports) ∧
    ((enteredWorkers (run exampleEnv exampleSchedule) →
      successQuorumFirst (exampleEnv.M / 2 + 1) (run exampleEnv exampleSchedule).reports) ∧
    (successQuorumFirst (exampleEnv.M / 2 + 1) (run exampleEnv exampleSchedule).reports →
      enteredWorkers (run exampleEnv (exampleSchedule ++ finishMasters exampleEnv))) ∧
    (quiescent exampleEnv (run exampleEnv exampleSchedule) →
      (enteredWorkers (run exampleEnv exampleSchedule) ↔
        successQuorumFirst (exampleEnv.M / 2 + 1)
          (run exampleEnv exampleSchedule).reports))) :=
  ⟨⟨by decide, by decide, by decide, by decide, by decide, by decide⟩,
   C1_workers_iff_success_quorum exampleEnv exampleSchedule (by decide) (by decide)
    (fun _ _ => rfl) (by decide)⟩

/-- C2: each master goroutine reports once, so at most M outcomes are counted,
and the success count and the failure count never both reach ⌊M/2⌋+1; once
the success latch is at zero it stays there, and whatever happens later the
failure latch does not reach zero and `failChan` is closed only if the
context is cancelled. -/
theorem C2_latches_exclusive (env : DriverEnv) (es es2 : List Event) :
    (run env es).reports.length ≤ env.M ∧
    ¬ (env.M / 2 + 1 ≤ successes (run env es).reports ∧
       env.M / 2 + 1 ≤ failures (run env es).reports) ∧
    ((run env es).masterLatch.count = 0 →
      (run env (es ++ es2)).masterLatch.count = 0 ∧
      (run env (es ++ es2)).failLatch.count ≠ 0 ∧
      ((run env (es ++ es2)).failClosed = true → (run env (es ++ es2)).ctxDone = true)) := by
  have hc := Inv_reports_le env _ (Inv_run env es)
  refine ⟨?_, ?_, ?_⟩
  · rw [← successes_add_failures]; exact hc
  · rintro ⟨h1, h2⟩
    omega
  · intro hz
    have hle := foldl_masterLatch_le env es2 (run env es)
    rw [← run_append] at hle
    have I1 := Inv_run env (es ++ es2)
    have I2 := Inv2_run env (es ++ es2)
    have hc2 := Inv_reports_le env _ I1
    have hm := I1.mcount
    have hf := I1.fcount
    have hz2 : (run env (es ++ es2)).masterLatch.count = 0 := by omega
    have hnz : (run env (es ++ es2)).failLatch.count ≠ 0 := by omega
    refine ⟨hz2, hnz, ?_⟩
    intro hfc
    rcases I2.fail_imp hfc with h | h
    · exact absurd h hnz
    · exact h

/-- Witness for C2 : in `exampleEnv` the success latch is at zero after two
successes; the third master failing afterwards does not fire the failure latch. -/
theorem C2_latches_exclusive_witness :
    (run exampleEnv [Event.driver, Event.driver, Event.driver, Event.driver, Event.driver,
      Event.report 0 true, Event.report 2 true]).masterLatch.count = 0 ∧
    ((run exampleEnv ([Event.driver, Event.driver, Event.driver, Event.driver, Event.driver,
      Event.report 0 true, Event.report 2 true] ++
        [Event.report 1 false, Event.closeFail])).masterLatch.count = 0 ∧
     (run exampleEnv ([Event.driver, Event.driver, Event.driver, Event.driver, Event.driver,
      Event.report 0 true, Event.report 2 true] ++
        [Event.report 1 false, Event.closeFail])).failLatch.count ≠ 0 ∧
     ((run exampleEnv ([Event.driver, Event.driver, Event.driver, Event.driver, Event.driver,
      Event.report 0 true, Event.report 2 true] ++
        [Event.report 1 false, Event.closeFail])).failClosed = true →
      (run exampleEnv ([Event.driver, Event.driver, Event.driver, Event.driver, Event.driver,
      Event.report 0 true, Event.report 2 true] ++
        [Event.report 1 false, Event.closeFail])).ctxDone = true)) :=
  ⟨by decide,
   (C2_latches_exclusive exampleEnv _ [Event.report 1 false, Event.closeFail]).2.2 (by decide)⟩

/-- C3, the code at the failing input: on AWS with one master, the
pre-provision run reports an error; the driver sends `KubeState=Failed`, does
not return, and goes on to take a token and start the master task. In no
environment does the first step of the driver end the goroutine. -/
theorem C3_master_started_after_failed_preprovision :
    (run awsFailingEnv [Event.driver]).trace =
      [Action.getWriter "p-task-0".toList true,
       Action.run TaskRole.preProvision "p-task-0".toList,
       Action.kubeState KubeState.failed] ∧
    (run awsFailingEnv [Event.driver]).phase = Phase.masters 0 ∧
    (run awsFailingEnv [Event.driver, Event.driver]).trace =
      [Action.getWriter "p-task-0".toList true,
       Action.run TaskRole.preProvision "p-task-0".toList,
       Action.kubeState KubeState.failed,
       Action.take,
       Action.getWriter "a-task-0".toList true,
       Action.run TaskRole.master "a-task-0".toList] ∧
    ∀ env : DriverEnv, (run env [Event.driver]).phase ≠ Phase.returned := by
  refine ⟨by decide, by decide, by decide, ?_⟩
  intro env
  simp only [run, List.foldl_cons, List.foldl_nil, step, driverStep, DriverState.init,
    driverPreProvision_snd]
  split_ifs <;> (first | contradiction | simp)

theorem run_takenBeforeRun (env : DriverEnv) (es : List Event) :
    takenBeforeRun instanceRoles (run env es).trace false = true := by
  unfold run
  induction es using List.reverseRecOn with
  | nil => rfl
  | append_singleton es e ih =>
    rw [List.foldl_append]
    simp only [List.foldl_cons, List.foldl_nil]
    obtain ⟨chunk, hc, hgood⟩ := step_trace_chunk env (List.foldl (step env) (DriverState.init env) es) e
    rw [hc]
    exact takenBeforeRun_append _ _ _ _ ih hgood

theorem provisionNodesLoop_takenBeforeRun (w : World) (writerOk : Nat → Bool) (wf : String)
    (needs : TaskRole → Bool)
    (ps : List NodeProfile) (index : Nat) (config : Config) (tasks : List GoString)
    (trace : List Action) (n : Nat) (h : takenBeforeRun needs trace false = true) :
    takenBeforeRun needs
      (provisionNodesLoop w writerOk wf ps index config tasks trace n).2.2.1 false = true := by
  induction ps generalizing index config tasks trace n with
  | nil => simpa [provisionNodesLoop] using h
  | cons p ps ih =>
    simp only [provisionNodesLoop]
    split
    · exact takenBeforeRun_append _ _ _ _ h (fun _ => by simp [takenBeforeRun])
    · split_ifs
      · simp only [List.append_assoc]
        exact takenBeforeRun_append _ _ _ _ h (fun _ => by simp [takenBeforeRun])
      · split
        · simp only [List.append_assoc]
          exact takenBeforeRun_append _ _ _ _ h (fun _ => by simp [takenBeforeRun])
        · apply ih
          simp only [List.append_assoc]
          exact takenBeforeRun_append _ _ _ _ h (fun _ => by
            simp only [List.cons_append, List.nil_append, takenBeforeRun]
            split_ifs <;> simp)

/-- C8 as stated fails for the pre-provision task: on AWS the driver opens the
writer and runs the pre-provision task without any call of `Take()` before it. -/
theorem C8_counterexample_preprovision_without_take :
    (run awsEnv [Event.driver]).trace =
      [Action.getWriter "p-task-0".toList true,
       Action.run TaskRole.preProvision "p-task-0".toList,
       Action.kubeState KubeState.provisioning,
       Action.configUpdate] ∧
    Action.take ∉ (run awsEnv [Event.driver]).trace ∧
    takenBeforeRun cloudRoles (run awsEnv [Event.driver]).trace false = false := by
  decide

theorem foldl_trace_append (env : DriverEnv) (es : List Event) (s : DriverState) :
    ∃ chunk, (es.foldl (step env) s).trace = s.trace ++ chunk := by
  induction es generalizing s with
  | nil => exact ⟨[], by simp⟩
  | cons e es ih =>
    simp only [List.foldl_cons]
    obtain ⟨c1, h1, _⟩ := step_trace_chunk env s e
    obtain ⟨c2, h2⟩ := ih (step env s e)
    exact ⟨c1 ++ c2, by rw [h2, h1, List.append_assoc]⟩

/-- C8, amended: in every execution of the driver of `ProvisionCluster` and in
every call of `ProvisionNodes`, each run of a master task or of a worker task
is preceded by a call of `Take()` of its own, made after the previous such
run; when there is a pre-provision task and its writer opens, the task is run
before any `Take()`, so no execution passes the check that includes the
pre-provision role. -/
theorem C8_take_before_master_and_worker_runs (env : DriverEnv) (es : List Event)
    (w : World) (tp : TaskProvisioner) (ctx : Nat) (writerOk : Nat → Bool)
    (nodeProfiles : List NodeProfile) (kube : Kube) (config : Config) (n : Nat) :
    takenBeforeRun instanceRoles (run env es).trace false = true ∧
    takenBeforeRun instanceRoles
      (ProvisionNodes w tp ctx writerOk nodeProfiles kube config n).trace false = true ∧
    (env.preProvisionTask.isSome = true → env.writerPre = true →
      takenBeforeRun cloudRoles (run env (Event.driver :: es)).trace false = false) := by
  refine ⟨run_takenBeforeRun env es, ?_, ?_⟩
  · unfold ProvisionNodes
    split_ifs
    · rfl
    · simp only
      split
      · rfl
      · split
        · rfl
        · exact provisionNodesLoop_takenBeforeRun _ _ _ _ _ _ _ _ _ _ rfl
  · intro hpre hwr
    obtain ⟨t, ht⟩ := Option.isSome_iff_exists.mp hpre
    simp only [run, List.foldl_cons]
    obtain ⟨chunk, hc⟩ := foldl_trace_append env es (step env (DriverState.init env) Event.driver)
    rw [hc]
    simp only [step, driverStep, driverPreProvision_snd, DriverState.init]
    have hfirst : ∃ rest, (driverPreProvision env).1 =
        Action.getWriter t.ID true :: Action.run TaskRole.preProvision t.ID :: rest := by
      cases hrun : env.preRunOk
      · exact ⟨[Action.kubeState KubeState.failed], by
          simp [driverPreProvision, ht, preProvision, hwr, hrun]⟩
      · exact ⟨[Action.kubeState KubeState.provisioning, Action.configUpdate], by
          simp [driverPreProvision, ht, preProvision, hwr, hrun]⟩
    obtain ⟨rest, hrest⟩ := hfirst
    split_ifs <;> simp [hrest, takenBeforeRun, cloudRoles]

/-- Witness for C8 : on AWS the pre-provision task is run before any `Take()`. -/
theorem C8_take_before_master_and_worker_runs_witness :
    (awsEnv.preProvisionTask.isSome = true ∧ awsEnv.writerPre = true) ∧
    takenBeforeRun cloudRoles
      (run awsEnv (Event.driver :: [Event.driver, Event.driver])).trace false = false :=
  ⟨⟨by decide, by decide⟩,
   (C8_take_before_master_and_worker_runs awsEnv [Event.driver, Event.driver] exampleWorld
      NewProvisioner 1 (fun _ => true) [] {} {} 0).2.2 (by decide) (by decide)⟩

/-- C9 as stated fails: in `exampleEnv` the driver waits for the quorum of its
three masters, the context is cancelled, the `select` takes the `ctx.Done()`
case, and the goroutine returns without having sent `KubeState=Failed`. -/
theorem C9_counterexample_cancel_while_waiting :
    (run exampleEnv [Event.driver, Event.driver, Event.driver, Event.driver,
      Event.driver]).phase = Phase.waitQuorum true ∧
    (run exampleEnv [Event.driver, Event.driver, Event.driver, Event.driver,
      Event.driver, Event.cancel, Event.select SelectCase.ctxDone]).phase = Phase.returned ∧
    Action.kubeState KubeState.failed ∉
      (run exampleEnv [Event.driver, Event.driver, Event.driver, Event.driver,
        Event.driver, Event.cancel, Event.select SelectCase.ctxDone]).trace := by
  decide

/-- C9, amended: when the context is cancelled while the driver waits for the
master quorum and the `select` takes the `ctx.Done()` case, the goroutine
returns and has sent nothing in the wait: its actions are those it had made
before. Whatever case the `select` takes, `KubeState=Failed` is sent from the
wait only by the `failChan` case. -/
theorem C9_cancel_returns_without_event (env : DriverEnv) (es : List Event) (chans : Bool)
    (hwait : (run env es).phase = Phase.waitQuorum chans) :
    (run env (es ++ [Event.cancel, Event.select SelectCase.ctxDone])).phase = Phase.returned ∧
    (run env (es ++ [Event.cancel, Event.select SelectCase.ctxDone])).trace
      = (run env es).trace ∧
    (∀ c, c ≠ SelectCase.failChan →
      Action.kubeState KubeState.failed ∈
        (run env (es ++ [Event.cancel, Event.select c])).trace →
      Action.kubeState KubeState.failed ∈ (run env es).trace) := by
  refine ⟨?_, ?_, ?_⟩
  · rw [run_append]
    generalize run env es = s at *
    obtain ⟨phase, trace, ml, fl, cd, dc, fc, wa, la, re⟩ := s
    simp only at hwait
    subst hwait
    simp [step, selectStep]
  · rw [run_append]
    generalize run env es = s at *
    obtain ⟨phase, trace, ml, fl, cd, dc, fc, wa, la, re⟩ := s
    simp only at hwait
    subst hwait
    simp [step, selectStep]
  · intro c hc
    rw [run_append]
    generalize run env es = s at *
    obtain ⟨phase, trace, ml, fl, cd, dc, fc, wa, la, re⟩ := s
    simp only at hwait
    subst hwait
    cases c with
    | ctxDone => simp [step, selectStep]
    | doneChan =>
      simp only [List.foldl_cons, List.foldl_nil, step, selectStep]
      split_ifs <;> simp
    | failChan => exact absurd rfl hc

/-- Witness for C9 : the wait of `exampleEnv` after its three masters are started. -/
theorem C9_cancel_returns_without_event_witness :
    (run exampleEnv [Event.driver, Event.driver, Event.driver, Event.driver,
      Event.driver]).phase = Phase.waitQuorum true ∧
    (run exampleEnv ([Event.driver, Event.driver, Event.driver, Event.driver,
      Event.driver] ++ [Event.cancel, Event.select SelectCase.ctxDone])).phase
      = Phase.returned ∧
    (run exampleEnv ([Event.driver, Event.driver, Event.driver, Event.driver,
      Event.driver] ++ [Event.cancel, Event.select SelectCase.ctxDone])).trace
      = (run exampleEnv [Event.driver, Event.driver, Event.driver, Event.driver,
          Event.driver]).trace :=
  ⟨by decide,
   (C9_cancel_returns_without_event exampleEnv _ true (by decide)).1,
   (C9_cancel_returns_without_event exampleEnv _ true (by decide)).2.1⟩

/-! ## `Cancel` after a provisioning, and `ProvisionNodes` -/

theorem mapGet_mapSet_self {α β : Type} [DecidableEq α] (m : List (α × β)) (k : α) (v : β) :
    mapGet (mapSet m k v) k = some v := by
  induction m with
  | nil => simp [mapSet, mapGet]
  | cons p ps ih =>
    rcases p with ⟨k1, v1⟩
    by_cases h : k1 = k
    · simp [mapSet, mapGet, h]
    · simp [mapSet, mapGet, h, ih]

theorem mapGet_mapSet_other {α β : Type} [DecidableEq α] (m : List (α × β)) (k k2 : α) (v : β)
    (hne : k2 ≠ k) : mapGet (mapSet m k v) k2 = mapGet m k2 := by
  induction m with
  | nil =>
    have : ¬ k = k2 := fun h => hne h.symm
    simp [mapSet, mapGet, this]
  | cons p ps ih =>
    rcases p with ⟨k1, v1⟩
    by_cases h : k1 = k
    · subst h
      have : ¬ k1 = k2 := fun h => hne h.symm
      simp [mapSet, mapGet, this]
    · by_cases h2 : k1 = k2
      · subst h2
        simp [mapSet, mapGet, h]
      · simp [mapSet, mapGet, h, h2, ih]

theorem provisioningRun_eq (env : DriverEnv) (tp : TaskProvisioner) (es : List Event) :
    provisioningRun env tp es = (tp, run env es) := by
  unfold provisioningRun run
  generalize DriverState.init env = s
  induction es generalizing s with
  | nil => rfl
  | cons e es ih => simp only [List.foldl_cons]; exact ih _

theorem ProvisionCluster_tp (w : World) (tp : TaskProvisioner) (ctx : Nat) (profile : Profile)
    (config : Config) (n : Nat) (clusterTask : Task)
    (hct : (prepare w tp config.Provider profile.MasterProfiles.length
      profile.NodesProfiles.length n).1.clusterTask = some clusterTask)
    (hlen : 8 ≤ clusterTask.ID.length) :
    (ProvisionCluster w tp ctx profile config n).tp =
      { tp with cancelMap := mapSet tp.cancelMap (clusterTask.ID.take 8) ctx } := by
  have hl : ¬ clusterTask.ID.length < 8 := by omega
  unfold ProvisionCluster
  simp only [hct, hl, if_false]
  repeat (first | rfl | split)


/-- C11 as stated fails: a DigitalOcean provisioning with one master and one
worker runs to the end, the driver sends `KubeState=Operational` and returns,
and `Cancel` of its cluster ID then returns nil, not `ErrNotFound`. -/
theorem C11_counterexample_cancel_after_finish :
    (provisioningRun
      (driverEnvOf exampleProfile
        (ProvisionCluster exampleWorld NewProvisioner 1 exampleProfile exampleConfig 0).plan
        { ID := "c-task-0xx".toList, WorkflowType := "Cluster" })
      (ProvisionCluster exampleWorld NewProvisioner 1 exampleProfile exampleConfig 0).tp
      exampleFinish).2.phase = Phase.returned ∧
    kubeStates (provisioningRun
      (driverEnvOf exampleProfile
        (ProvisionCluster exampleWorld NewProvisioner 1 exampleProfile exampleConfig 0).plan
        { ID := "c-task-0xx".toList, WorkflowType := "Cluster" })
      (ProvisionCluster exampleWorld NewProvisioner 1 exampleProfile exampleConfig 0).tp
      exampleFinish).2.trace = [KubeState.operational] ∧
    (ProvisionCluster exampleWorld NewProvisioner 1 exampleProfile exampleConfig 0).config.ClusterID
      = "c-task-0".toList ∧
    (Cancel (provisioningRun
      (driverEnvOf exampleProfile
        (ProvisionCluster exampleWorld NewProvisioner 1 exampleProfile exampleConfig 0).plan
        { ID := "c-task-0xx".toList, WorkflowType := "Cluster" })
      (ProvisionCluster exampleWorld NewProvisioner 1 exampleProfile exampleConfig 0).tp
      exampleFinish).1 [] "c-task-0".toList).1 = none ∧
    (Cancel (provisioningRun
      (driverEnvOf exampleProfile
        (ProvisionCluster exampleWorld NewProvisioner 1 exampleProfile exampleConfig 0).plan
        { ID := "c-task-0xx".toList, WorkflowType := "Cluster" })
      (ProvisionCluster exampleWorld NewProvisioner 1 exampleProfile exampleConfig 0).tp
      exampleFinish).1 [] "c-task-0".toList).1 ≠ some CancelError.ErrNotFound := by
  decide

/-- C11, amended: after a call of `ProvisionCluster` that returned without
error, whatever its driver has done since (in particular when it has reached
a terminal state and returned), `Cancel` of the cluster ID returns nil and
calls the cancel function that the call registered: the entry is never removed. -/
theorem C11_cancel_after_provisioning (w : World) (tp : TaskProvisioner) (ctx : Nat)
    (profile : Profile) (config : Config) (n : Nat) (taskMap : List (String × List Task))
    (h : (ProvisionCluster w tp ctx profile config n).ret = ProvisionReturn.ok taskMap)
    (env : DriverEnv) (es : List Event) (cancelled : List Nat) :
    (Cancel (provisioningRun env (ProvisionCluster w tp ctx profile config n).tp es).1 cancelled
      (ProvisionCluster w tp ctx profile config n).config.ClusterID).1 = none ∧
    ctx ∈ (Cancel (provisioningRun env (ProvisionCluster w tp ctx profile config n).tp es).1
      cancelled (ProvisionCluster w tp ctx profile config n).config.ClusterID).2.2 := by
  obtain ⟨clusterTask, masters, nodes, cfg1, cfg2, hct, hlen, hbk, hbc, hcfg, -, -, -⟩ :=
    ProvisionCluster_ok_inv w tp ctx profile config n taskMap h
  have hid : (ProvisionCluster w tp ctx profile config n).config.ClusterID
      = clusterTask.ID.take 8 := by
    have h1 := bootstrapCerts_ClusterID w cfg1
    rw [hbc] at h1
    have h2 := bootstrapKeys_ClusterID w _ cfg1 hbk
    simp only at h1 h2
    rw [hcfg, h1, h2]
  rw [provisioningRun_eq, hid, ProvisionCluster_tp w tp ctx profile config n clusterTask hct hlen]
  simp only [Cancel, mapGet_mapSet_self]
  constructor
  · trivial
  · by_cases hc : ctx ∈ cancelled <;> simp [hc]

/-- Witness for C11 : the DigitalOcean provisioning of the examples, finished. -/
theorem C11_cancel_after_provisioning_witness :
    (Cancel (provisioningRun
        (driverEnvOf exampleProfile
          (ProvisionCluster exampleWorld NewProvisioner 1 exampleProfile exampleConfig 0).plan
          { ID := "c-task-0xx".toList, WorkflowType := "Cluster" })
        (ProvisionCluster exampleWorld NewProvisioner 1 exampleProfile exampleConfig 0).tp
        exampleFinish).1 []
      (ProvisionCluster exampleWorld NewProvisioner 1 exampleProfile
        exampleConfig 0).config.ClusterID).1 = none ∧
    1 ∈ (Cancel (provisioningRun
        (driverEnvOf exampleProfile
          (ProvisionCluster exampleWorld NewProvisioner 1 exampleProfile exampleConfig 0).plan
          { ID := "c-task-0xx".toList, WorkflowType := "Cluster" })
        (ProvisionCluster exampleWorld NewProvisioner 1 exampleProfile exampleConfig 0).tp
        exampleFinish).1 []
      (ProvisionCluster exampleWorld NewProvisioner 1 exampleProfile
        exampleConfig 0).config.ClusterID).2.2 :=
  C11_cancel_after_provisioning exampleWorld NewProvisioner 1 exampleProfile exampleConfig 0
    [("master", [{ ID := "a-task-0".toList, WorkflowType := "DigitalOceanMaster" }]),
     ("node", [{ ID := "b-task-0x".toList, WorkflowType := "DigitalOceanNode" }]),
     ("cluster", [{ ID := "c-task-0xx".toList, WorkflowType := "Cluster" }])]
    (by decide)
    (driverEnvOf exampleProfile
      (ProvisionCluster exampleWorld NewProvisioner 1 exampleProfile exampleConfig 0).plan
      { ID := "c-task-0xx".toList, WorkflowType := "Cluster" })
    exampleFinish []

theorem provisionNodesLoop_not_masterNode (w : World) (writerOk : Nat → Bool) (wf : String)
    (ps : List NodeProfile) (index : Nat) (config : Config) (tasks : List GoString)
    (trace : List Action) (n : Nat) :
    (provisionNodesLoop w writerOk wf ps index config tasks trace n).1 ≠
      NodesReturn.error NodesError.masterNode ∧
    (provisionNodesLoop w writerOk wf ps index config tasks trace n).1 ≠
      NodesReturn.error NodesError.providerWorkflow := by
  induction ps generalizing index config tasks trace n with
  | nil => simp [provisionNodesLoop]
  | cons p ps ih =>
    simp only [provisionNodesLoop]
    split
    · simp
    · split_ifs
      · simp
      · split
        · simp
        · exact ih _ _ _ _ _

/-- C12: `ProvisionNodes` returns the error `ErrNotFound` wrapped with
"master node" exactly when the kube has no master; in that case the list is
nil, no task is created, nothing is run, the reducer is not started and the
provisioner (its cancel map) and the config are as before. -/
theorem C12_no_master (w : World) (tp : TaskProvisioner) (ctx : Nat) (writerOk : Nat → Bool)
    (nodeProfiles : List NodeProfile) (kube : Kube) (config : Config) (n : Nat) :
    ((ProvisionNodes w tp ctx writerOk nodeProfiles kube config n).ret
        = NodesReturn.error NodesError.masterNode ↔ kube.Masters = []) ∧
    (kube.Masters = [] →
      ProvisionNodes w tp ctx writerOk nodeProfiles kube config n =
        { ret := NodesReturn.error NodesError.masterNode, tp := tp, config := config,
          trace := [], spawned := false, created := n }) := by
  constructor
  · constructor
    · intro h
      by_contra hne
      have hlen : ¬ kube.Masters.length = 0 := by
        simpa [List.length_eq_zero] using hne
      unfold ProvisionNodes at h
      simp only [hlen, if_false] at h
      split at h
      · simp at h
      · split at h
        · simp at h
        · exact (provisionNodesLoop_not_masterNode _ _ _ _ _ _ _ _ _).1 h
    · intro h
      simp [ProvisionNodes, h]
  · intro h
    simp [ProvisionNodes, h]

/-- Witness for C12 : a kube without masters. -/
theorem C12_no_master_witness :
    ({} : Kube).Masters = [] ∧
    ProvisionNodes exampleWorld NewProvisioner 1 (fun _ => true) [[]] {} exampleConfig 0 =
      { ret := NodesReturn.error NodesError.masterNode, tp := NewProvisioner,
        config := exampleConfig, trace := [], spawned := false, created := 0 } :=
  ⟨rfl, (C12_no_master exampleWorld NewProvisioner 1 (fun _ => true) [[]] {} exampleConfig 0).2
    rfl⟩

/-- C13 as stated fails: for the provider "Vultr", which has no workflow set,
`ProvisionNodes` returns the "provider workflow" error and creates no task,
but the cancel map, empty before the call, has an entry for the cluster
afterwards. -/
theorem C13_counterexample_cancel_registered :
    (ProvisionNodes exampleWorld NewProvisioner 1 (fun _ => true) [[]] exampleKube
      vultrConfig 0).ret
      = NodesReturn.error NodesError.providerWorkflow ∧
    mapGet NewProvisioner.cancelMap "c-task-0".toList = none ∧
    mapGet (ProvisionNodes exampleWorld NewProvisioner 1 (fun _ => true) [[]] exampleKube
      vultrConfig 0).tp.cancelMap
      "c-task-0".toList = some 1 := by
  decide

/-- C13, amended: when the kube has a master, loading the cloud specific data
succeeds and the provider has no workflow set in `provisionMap`,
`ProvisionNodes` returns the error `ErrNotFound` wrapped with "provider
workflow", creates no task, runs nothing and does not start the reducer; the
cancel function of the call is registered under the cluster ID all the
same, and every other entry of the cancel map is as before. -/
theorem C13_unknown_provider (w : World) (tp : TaskProvisioner) (ctx : Nat)
    (writerOk : Nat → Bool) (nodeProfiles : List NodeProfile) (kube : Kube) (config : Config)
    (n : Nat) (loaded : Config)
    (hm : kube.Masters ≠ [])
    (hload : w.loadCloudSpecificData
      { config with Masters := config.Masters ++ kube.Masters.map Prod.snd } = some loaded)
    (hprov : mapGet tp.provisionMap loaded.Provider = none) :
    (ProvisionNodes w tp ctx writerOk nodeProfiles kube config n).ret
      = NodesReturn.error NodesError.providerWorkflow ∧
    (ProvisionNodes w tp ctx writerOk nodeProfiles kube config n).created = n ∧
    (ProvisionNodes w tp ctx writerOk nodeProfiles kube config n).trace = [] ∧
    (ProvisionNodes w tp ctx writerOk nodeProfiles kube config n).spawned = false ∧
    mapGet (ProvisionNodes w tp ctx writerOk nodeProfiles kube config n).tp.cancelMap
      config.ClusterID = some ctx ∧
    (∀ id, id ≠ config.ClusterID →
      mapGet (ProvisionNodes w tp ctx writerOk nodeProfiles kube config n).tp.cancelMap id
        = mapGet tp.cancelMap id) := by
  have hlen : ¬ kube.Masters.length = 0 := by
    simpa [List.length_eq_zero] using hm
  unfold ProvisionNodes
  simp only [hlen, if_false, hload, hprov]
  refine ⟨trivial, trivial, trivial, trivial, mapGet_mapSet_self _ _ _, ?_⟩
  intro id hid
  exact mapGet_mapSet_other _ _ _ _ hid

/-- Witness for C13 : the provider "Vultr". -/
theorem C13_unknown_provider_witness :
    (ProvisionNodes exampleWorld NewProvisioner 1 (fun _ => true) [[]] exampleKube
      vultrConfig 0).ret
      = NodesReturn.error NodesError.providerWorkflow ∧
    (ProvisionNodes exampleWorld NewProvisioner 1 (fun _ => true) [[]] exampleKube
      vultrConfig 0).created = 0 ∧
    (ProvisionNodes exampleWorld NewProvisioner 1 (fun _ => true) [[]] exampleKube
      vultrConfig 0).trace = [] ∧
    (ProvisionNodes exampleWorld NewProvisioner 1 (fun _ => true) [[]] exampleKube
      vultrConfig 0).spawned
      = false ∧
    mapGet (ProvisionNodes exampleWorld NewProvisioner 1 (fun _ => true) [[]] exampleKube
      vultrConfig 0).tp.cancelMap
      vultrConfig.ClusterID
      = some 1 ∧
    (∀ id, id ≠ vultrConfig.ClusterID →
      mapGet (ProvisionNodes exampleWorld NewProvisioner 1 (fun _ => true) [[]] exampleKube
        vultrConfig 0).tp.cancelMap id
        = mapGet NewProvisioner.cancelMap id) :=
  C13_unknown_provider exampleWorld NewProvisioner 1 (fun _ => true) [[]] exampleKube
    vultrConfig 0
    { vultrConfig with Masters := [{ Name := "kube-master".toList, Role := NodeRole.master }] }
    (by decide) (by decide) (by decide)

theorem runsOf_append (role : TaskRole) (a b : List Action) :
    runsOf role (a ++ b) = runsOf role a ++ runsOf role b := by
  induction a with
  | nil => rfl
  | cons x xs ih =>
    cases x with
    | run r id =>
      simp only [List.cons_append, runsOf]
      split_ifs <;> simp [ih]
    | take => simpa [runsOf] using ih
    | getWriter id ok => simpa [runsOf] using ih
    | kubeState st => simpa [runsOf] using ih
    | configUpdate => simpa [runsOf] using ih
    | provisionNodes => simpa [runsOf] using ih
    | waitCluster => simpa [runsOf] using ih

theorem provisionNodesLoop_ok (w : World) (writerOk : Nat → Bool) (wf : String)
    (ps : List NodeProfile) (index : Nat) (config : Config) (tasks : List GoString)
    (trace : List Action) (n : Nat) (ts : List GoString)
    (h : (provisionNodesLoop w writerOk wf ps index config tasks trace n).1 = NodesReturn.ok ts) :
    ts = tasks ++ (List.range ps.length).map (fun i => w.taskID (n + i)) ∧
    (provisionNodesLoop w writerOk wf ps index config tasks trace n).2.2.2 = n + ps.length ∧
    runsOf TaskRole.node (provisionNodesLoop w writerOk wf ps index config tasks trace n).2.2.1
      = runsOf TaskRole.node trace ++ (List.range ps.length).map (fun i => w.taskID (n + i)) := by
  induction ps generalizing index config tasks trace n with
  | nil =>
    simp only [provisionNodesLoop, NodesReturn.ok.injEq] at h
    simp [provisionNodesLoop, h]
  | cons p ps ih =>
    simp only [provisionNodesLoop] at h ⊢
    split at h
    · simp at h
    · rename_i t n1 hnew
      have hnt : t.ID = w.taskID n ∧ n1 = n + 1 := by
        unfold NewTask at hnew
        split_ifs at hnew
        · simp only [Prod.mk.injEq, Option.some.injEq] at hnew
          obtain ⟨ht, hn⟩ := hnew
          subst ht
          exact ⟨rfl, hn.symm⟩
        · simp at hnew
      split_ifs at h ⊢ with hw
      · generalize FillNodeCloudSpecificData w config.Provider p config = r at h ⊢
        rcases r with ⟨cfg2, _ | e⟩
        · simp only at h ⊢
          obtain ⟨h1, h2, h3⟩ := ih _ _ _ _ _ h
          have hr : (List.range (ps.length + 1)).map (fun i => w.taskID (n + i))
              = w.taskID n :: (List.range ps.length).map (fun i => w.taskID (n1 + i)) := by
            rw [List.range_succ_eq_map, List.map_cons, List.map_map]
            simp only [Nat.add_zero, List.cons.injEq, true_and]
            apply List.map_congr_left
            intro i _
            simp only [Function.comp, hnt.2]
            congr 1
            omega
          refine ⟨?_, ?_, ?_⟩
          · rw [h1, List.length_cons, hr, hnt.1]
            simp
          · rw [h2, List.length_cons, hnt.2]
            omega
          · rw [h3, List.length_cons, hr]
            simp [runsOf_append, runsOf, hnt.1]
        · simp at h

/-- C14: when `ProvisionNodes` returns without error on k node profiles, the
returned list has k task IDs, the i-th being the ID of the i-th task created
by the call, and these are the tasks run, in this order; what the runs
report reaches only the goroutines that log errors: the return value and
every other effect of the call are the same for all run results. -/
theorem C14_returned_task_ids (w : World) (tp : TaskProvisioner) (ctx : Nat)
    (writerOk : Nat → Bool) (nodeProfiles : List NodeProfile) (kube : Kube) (config : Config)
    (n : Nat) (tasks : List GoString) (runOk runOk2 : Nat → Bool)
    (h : (ProvisionNodes w tp ctx writerOk nodeProfiles kube config n).ret
      = NodesReturn.ok tasks) :
    tasks.length = nodeProfiles.length ∧
    tasks = (List.range nodeProfiles.length).map (fun i => w.taskID (n + i)) ∧
    runsOf TaskRole.node (ProvisionNodes w tp ctx writerOk nodeProfiles kube config n).trace
      = tasks ∧
    (ProvisionNodes w tp ctx writerOk nodeProfiles kube config n).created
      = n + nodeProfiles.length ∧
    (ProvisionNodesObserved w tp ctx writerOk runOk nodeProfiles kube config n).1.ret
      = NodesReturn.ok tasks ∧
    (ProvisionNodesObserved w tp ctx writerOk runOk nodeProfiles kube config n).1
      = (ProvisionNodesObserved w tp ctx writerOk runOk2 nodeProfiles kube config n).1 := by
  have key : tasks = (List.range nodeProfiles.length).map (fun i => w.taskID (n + i)) ∧
      (ProvisionNodes w tp ctx writerOk nodeProfiles kube config n).created
        = n + nodeProfiles.length ∧
      runsOf TaskRole.node (ProvisionNodes w tp ctx writerOk nodeProfiles kube config n).trace
        = (List.range nodeProfiles.length).map (fun i => w.taskID (n + i)) := by
    by_cases hlen : kube.Masters.length = 0
    · simp [ProvisionNodes, hlen] at h
    · unfold ProvisionNodes at h ⊢
      simp only [hlen, if_false] at h ⊢
      cases hload : w.loadCloudSpecificData
          { config with Masters := config.Masters ++ kube.Masters.map Prod.snd } with
      | none => simp [hload] at h
      | some cfg =>
        simp only [hload] at h ⊢
        cases hws : mapGet tp.provisionMap cfg.Provider with
        | none => simp [hws] at h
        | some ws =>
          simp only [hws] at h ⊢
          have := provisionNodesLoop_ok _ _ _ _ _ _ _ _ _ _ h
          simpa [runsOf] using this
  obtain ⟨k1, k2, k3⟩ := key
  refine ⟨?_, k1, ?_, k2, h, rfl⟩
  · rw [k1]; simp
  · rw [k3, ← k1]

/-- Witness for C14 : one node profile added to a DigitalOcean kube. -/
theorem C14_returned_task_ids_witness :
    ["a-task-0".toList].length = [([] : NodeProfile)].length ∧
    ["a-task-0".toList] = (List.range [([] : NodeProfile)].length).map
      (fun i => exampleWorld.taskID (0 + i)) ∧
    runsOf TaskRole.node (ProvisionNodes exampleWorld NewProvisioner 1 (fun _ => true) [[]]
      exampleKube exampleConfig 0).trace = ["a-task-0".toList] ∧
    (ProvisionNodes exampleWorld NewProvisioner 1 (fun _ => true) [[]]
      exampleKube exampleConfig 0).created = 0 + [([] : NodeProfile)].length ∧
    (ProvisionNodesObserved exampleWorld NewProvisioner 1 (fun _ => true) (fun _ => false) [[]]
      exampleKube exampleConfig 0).1.ret = NodesReturn.ok ["a-task-0".toList] ∧
    (ProvisionNodesObserved exampleWorld NewProvisioner 1 (fun _ => true) (fun _ => false) [[]]
      exampleKube exampleConfig 0).1
      = (ProvisionNodesObserved exampleWorld NewProvisioner 1 (fun _ => true) (fun _ => true)
        [[]] exampleKube exampleConfig 0).1 :=
  C14_returned_task_ids exampleWorld NewProvisioner 1 (fun _ => true) [[]] exampleKube
    exampleConfig 0 ["a-task-0".toList] (fun _ => false) (fun _ => true) (by decide)

/-! ## `waitCluster`, bootstrap failures and the reducer -/

/-- C15 as stated fails: when `getWriter` fails in `waitCluster` and no master
exists, the method returns without sending `KubeState=Failed`; it sends no
state at all. -/
theorem C15_counterexample_no_writer :
    ({ exampleEnv with writerCluster := false, masterAtCluster := false } : DriverEnv).masterAtCluster
      = false ∧
    kubeStates (waitCluster { exampleEnv with writerCluster := false, masterAtCluster := false })
      = [] ∧
    Action.kubeState KubeState.failed ∉
      waitCluster { exampleEnv with writerCluster := false, masterAtCluster := false } := by
  decide

/-- C15, amended: when `getWriter` succeeds, `waitCluster` sends exactly one
state: `Operational` if a master exists and the run of the cluster task
reports nil, `Failed` if the run reports an error or no master exists; the
task is run only when a master exists, with a copy of the config whose `Node`
is that master. When `getWriter` fails, `waitCluster` sends no state and does
not run the task. -/
theorem C15_waitCluster_states (env : DriverEnv) (config : Config) (m : Node) :
    kubeStates (waitCluster env) =
      (if env.writerCluster then
        [if env.masterAtCluster && env.clusterRunOk then KubeState.operational
         else KubeState.failed]
       else []) ∧
    runsOf TaskRole.cluster (waitCluster env) =
      (if env.writerCluster && env.masterAtCluster then [env.clusterTask.ID] else []) ∧
    clusterRunConfig config (some m) = some { config with Node := m } ∧
    clusterRunConfig config none = none := by
  refine ⟨?_, ?_, rfl, rfl⟩
  · unfold waitCluster
    cases env.writerCluster <;> cases env.masterAtCluster <;> cases env.clusterRunOk <;> rfl
  · unfold waitCluster
    cases env.writerCluster <;> cases env.masterAtCluster <;> cases env.clusterRunOk <;> rfl

/-- C17: when `ProvisionCluster` has planned and named its nodes and then
`bootstrapKeys` or `bootstrapCerts` fails, it returns a nil task map with the
error wrapped as "bootstrap keys" or "bootstrap certs", `kubeService.Create`
is not called, and neither the reducer nor the driver goroutine is started. -/
theorem C17_bootstrap_failure (w : World) (tp : TaskProvisioner) (ctx : Nat)
    (profile : Profile) (config : Config) (n : Nat) (clusterTask : Task)
    (mn : List (GoString × Node) × List (GoString × Node))
    (hct : (prepare w tp config.Provider profile.MasterProfiles.length
      profile.NodesProfiles.length n).1.clusterTask = some clusterTask)
    (hlen : 8 ≤ clusterTask.ID.length)
    (hnodes : nodesFromProfile w config.ClusterName
      (prepare w tp config.Provider profile.MasterProfiles.length
        profile.NodesProfiles.length n).1.masterTasks
      (prepare w tp config.Provider profile.MasterProfiles.length
        profile.NodesProfiles.length n).1.nodeTasks profile = some mn)
    (hfail : bootstrapKeys w { config with ClusterID := clusterTask.ID.take 8 } = none ∨
      ∃ c1, bootstrapKeys w { config with ClusterID := clusterTask.ID.take 8 } = some c1 ∧
        (bootstrapCerts w c1).2 = false) :
    ((ProvisionCluster w tp ctx profile config n).ret
        = ProvisionReturn.error ProvisionError.bootstrapKeys ∨
      (ProvisionCluster w tp ctx profile config n).ret
        = ProvisionReturn.error ProvisionError.bootstrapCerts) ∧
    (ProvisionCluster w tp ctx profile config n).createCalls = [] ∧
    (ProvisionCluster w tp ctx profile config n).spawned = false := by
  have hl : ¬ clusterTask.ID.length < 8 := by omega
  rcases mn with ⟨masters, nodes⟩
  unfold ProvisionCluster
  simp only [hct, hl, if_false, hnodes]
  rcases hfail with hk | ⟨c1, hk, hc⟩
  · simp [hk]
  · simp only [hk]
    rcases hbc : bootstrapCerts w c1 with ⟨c2, ok⟩
    rw [hbc] at hc
    simp only at hc
    subst hc
    simp

/-- Witness for C17 : the key generator fails. -/
theorem C17_bootstrap_failure_witness :
    bootstrapKeys { exampleWorld with generateKeyPair := none }
      { exampleConfig with ClusterID := "c-task-0xx".toList.take 8 } = none ∧
    ((ProvisionCluster { exampleWorld with generateKeyPair := none } NewProvisioner 1
        exampleProfile exampleConfig 0).ret
        = ProvisionReturn.error ProvisionError.bootstrapKeys ∨
      (ProvisionCluster { exampleWorld with generateKeyPair := none } NewProvisioner 1
        exampleProfile exampleConfig 0).ret
        = ProvisionReturn.error ProvisionError.bootstrapCerts) ∧
    (ProvisionCluster { exampleWorld with generateKeyPair := none } NewProvisioner 1
      exampleProfile exampleConfig 0).createCalls = [] ∧
    (ProvisionCluster { exampleWorld with generateKeyPair := none } NewProvisioner 1
      exampleProfile exampleConfig 0).spawned = false :=
  ⟨by decide,
   C17_bootstrap_failure { exampleWorld with generateKeyPair := none } NewProvisioner 1
    exampleProfile exampleConfig 0 { ID := "c-task-0xx".toList, WorkflowType := "Cluster" }
    ([("kube-master-a-task-0".toList,
        { TaskID := "a-task-0".toList, Name := "kube-master-a-task-0".toList,
          Provider := CloudName.DigitalOcean, State := NodeState.planned })],
     [("kube-node-b-ta".toList,
        { TaskID := "b-task-0x".toList, Name := "kube-node-b-ta".toList,
          Provider := CloudName.DigitalOcean, State := NodeState.planned })])
    (by decide) (by decide) (by decide) (Or.inl (by decide))⟩

/-- C18: for a node event `n` and a fetched record `k`, the reducer hands to
`kubeService.Create` a record that differs from `k` only in one map: in
`Masters` when the role of `n` is master, otherwise in `Nodes`; in that map
the entry under `n.Name` is `n` and every other entry is as in `k`. -/
theorem C18_node_event (k : Kube) (n : Node) :
    ∃ r, reducerHandle (some k) (ReducerEvent.node n) = some r ∧
      (n.Role = NodeRole.master →
        r = { k with Masters := r.Masters } ∧ mapGet r.Masters n.Name = some n ∧
        ∀ key, key ≠ n.Name → mapGet r.Masters key = mapGet k.Masters key) ∧
      (n.Role ≠ NodeRole.master →
        r = { k with Nodes := r.Nodes } ∧ mapGet r.Nodes n.Name = some n ∧
        ∀ key, key ≠ n.Name → mapGet r.Nodes key = mapGet k.Nodes key) := by
  by_cases h : n.Role = NodeRole.master
  · refine ⟨{ k with Masters := mapSet k.Masters n.Name n }, ?_, ?_, ?_⟩
    · simp [reducerHandle, reducerUpdate, h]
    · intro _
      exact ⟨rfl, mapGet_mapSet_self _ _ _, fun key hk => mapGet_mapSet_other _ _ _ _ hk⟩
    · intro hn
      exact absurd h hn
  · refine ⟨{ k with Nodes := mapSet k.Nodes n.Name n }, ?_, ?_, ?_⟩
    · simp [reducerHandle, reducerUpdate, h]
    · intro hn
      exact absurd hn h
    · intro _
      exact ⟨rfl, mapGet_mapSet_self _ _ _, fun key hk => mapGet_mapSet_other _ _ _ _ hk⟩

/-- Witness for C18 : a master node arrives for the kube of the examples, which
has another master already. -/
theorem C18_node_event_witness :
    ({ Name := "m2".toList, Role := NodeRole.master } : Node).Role = NodeRole.master ∧
    reducerHandle (some exampleKube)
        (ReducerEvent.node { Name := "m2".toList, Role := NodeRole.master })
      = some { exampleKube with
          Masters := [("kube-master".toList,
              { Name := "kube-master".toList, Role := NodeRole.master }),
            ("m2".toList, { Name := "m2".toList, Role := NodeRole.master })] } ∧
    ∃ r, reducerHandle (some exampleKube)
        (ReducerEvent.node { Name := "m2".toList, Role := NodeRole.master }) = some r ∧
      (({ Name := "m2".toList, Role := NodeRole.master } : Node).Role = NodeRole.master →
        r = { exampleKube with Masters := r.Masters } ∧
        mapGet r.Masters ({ Name := "m2".toList, Role := NodeRole.master } : Node).Name
          = some { Name := "m2".toList, Role := NodeRole.master } ∧
        ∀ key, key ≠ ({ Name := "m2".toList, Role := NodeRole.master } : Node).Name →
          mapGet r.Masters key = mapGet exampleKube.Masters key) ∧
      (({ Name := "m2".toList, Role := NodeRole.master } : Node).Role ≠ NodeRole.master →
        r = { exampleKube with Nodes := r.Nodes } ∧
        mapGet r.Nodes ({ Name := "m2".toList, Role := NodeRole.master } : Node).Name
          = some { Name := "m2".toList, Role := NodeRole.master } ∧
        ∀ key, key ≠ ({ Name := "m2".toList, Role := NodeRole.master } : Node).Name →
          mapGet r.Nodes key = mapGet exampleKube.Nodes key) :=
  ⟨by decide, by decide,
   C18_node_event exampleKube { Name := "m2".toList, Role := NodeRole.master }⟩

/-- C19: for a state event `s` and a fetched record `k`, the reducer hands to
`kubeService.Create` the record `k` with `State` set to `s` and nothing else
changed; handling the event again on the record just persisted gives the
same record. -/
theorem C19_state_event (k : Kube) (s : KubeState) :
    reducerHandle (some k) (ReducerEvent.kubeState s) = some { k with State := s } ∧
    reducerHandle (reducerHandle (some k) (ReducerEvent.kubeState s))
        (ReducerEvent.kubeState s)
      = reducerHandle (some k) (ReducerEvent.kubeState s) := by
  constructor <;> rfl

/-- C20: for a config event whose provider is AWS, the record that the
reducer hands to `kubeService.Create` has as `CloudSpec` exactly thirteen
entries, under the thirteen distinct AWS keys, each holding the
corresponding field of the config; what `CloudSpec` held in the fetched
record is gone. -/
theorem C20_aws_cloud_spec (k : Kube) (c : Config) (h : c.Provider = CloudName.AWS) :
    ∃ r, reducerHandle (some k) (ReducerEvent.config c) = some r ∧
      r.CloudSpec =
        [(clouds.AwsAZ, c.AWSConfig.AvailabilityZone),
         (clouds.AwsVpcCIDR, c.AWSConfig.VPCCIDR),
         (clouds.AwsVpcID, c.AWSConfig.VPCID),
         (clouds.AwsKeyPairName, c.AWSConfig.KeyPairName),
         (clouds.AwsMastersSecGroupID, c.AWSConfig.MastersSecurityGroupID),
         (clouds.AwsNodesSecgroupID, c.AWSConfig.NodesSecurityGroupID),
         (clouds.AwsSshBootstrapPrivateKey, c.SshConfig.BootstrapPrivateKey),
         (clouds.AwsUserProvidedSshPublicKey, c.SshConfig.PublicKey),
         (clouds.AwsRouteTableID, c.AWSConfig.RouteTableID),
         (clouds.AwsInternetGateWayID, c.AWSConfig.InternetGatewayID),
         (clouds.AwsMasterInstanceProfile, c.AWSConfig.MastersInstanceProfile),
         (clouds.AwsNodeInstanceProfile, c.AWSConfig.NodesInstanceProfile),
         (clouds.AwsImageID, c.AWSConfig.ImageID)] ∧
      r.CloudSpec.length = 13 ∧
      (r.CloudSpec.map Prod.fst).Nodup ∧
      r.CloudSpec.map Prod.fst =
        ["aws/availabilityZone", "aws/vpcCidr", "aws/vpcId", "aws/keyPairName",
         "aws/mastersSecGroupId", "aws/nodesSecGroupId", "aws/sshBootstrapPrivateKey",
         "aws/userProvidedSshPublicKey", "aws/routeTableId", "aws/internetGatewayId",
         "aws/mastersInstanceProfile", "aws/nodesInstanceProfile", "aws/imageId"] := by
  have hspec : cloudSpecificSettings c =
        [(clouds.AwsAZ, c.AWSConfig.AvailabilityZone),
         (clouds.AwsVpcCIDR, c.AWSConfig.VPCCIDR),
         (clouds.AwsVpcID, c.AWSConfig.VPCID),
         (clouds.AwsKeyPairName, c.AWSConfig.KeyPairName),
         (clouds.AwsMastersSecGroupID, c.AWSConfig.MastersSecurityGroupID),
         (clouds.AwsNodesSecgroupID, c.AWSConfig.NodesSecurityGroupID),
         (clouds.AwsSshBootstrapPrivateKey, c.SshConfig.BootstrapPrivateKey),
         (clouds.AwsUserProvidedSshPublicKey, c.SshConfig.PublicKey),
         (clouds.AwsRouteTableID, c.AWSConfig.RouteTableID),
         (clouds.AwsInternetGateWayID, c.AWSConfig.InternetGatewayID),
         (clouds.AwsMasterInstanceProfile, c.AWSConfig.MastersInstanceProfile),
         (clouds.AwsNodeInstanceProfile, c.AWSConfig.NodesInstanceProfile),
         (clouds.AwsImageID, c.AWSConfig.ImageID)] := by
    unfold cloudSpecificSettings
    rw [h]
    simp only [mapSet, clouds.AwsAZ, clouds.AwsVpcCIDR, clouds.AwsVpcID, clouds.AwsKeyPairName,
      clouds.AwsMastersSecGroupID, clouds.AwsNodesSecgroupID, clouds.AwsSshBootstrapPrivateKey,
      clouds.AwsUserProvidedSshPublicKey, clouds.AwsRouteTableID, clouds.AwsInternetGateWayID,
      clouds.AwsMasterInstanceProfile, clouds.AwsNodeInstanceProfile, clouds.AwsImageID]
    simp
  refine ⟨updateCloudSpecificData k c, rfl, ?_, ?_, ?_, ?_⟩
  · exact hspec
  · show (cloudSpecificSettings c).length = 13
    rw [hspec]; rfl
  · show ((cloudSpecificSettings c).map Prod.fst).Nodup
    rw [hspec]
    simp only [List.map_cons, List.map_nil]
    decide
  · show (cloudSpecificSettings c).map Prod.fst = _
    rw [hspec]
    rfl

/-- Witness for C20 : an AWS config with a VPC ID and an image ID. -/
theorem C20_aws_cloud_spec_witness :
    awsConfig.Provider = CloudName.AWS ∧
    mapGet (updateCloudSpecificData exampleKube awsConfig).CloudSpec "aws/vpcId"
      = some "vpc-1" ∧
    ∃ r, reducerHandle (some exampleKube) (ReducerEvent.config awsConfig) = some r ∧
      r.CloudSpec =
        [(clouds.AwsAZ, awsConfig.AWSConfig.AvailabilityZone),
         (clouds.AwsVpcCIDR, awsConfig.AWSConfig.VPCCIDR),
         (clouds.AwsVpcID, awsConfig.AWSConfig.VPCID),
         (clouds.AwsKeyPairName, awsConfig.AWSConfig.KeyPairName),
         (clouds.AwsMastersSecGroupID, awsConfig.AWSConfig.MastersSecurityGroupID),
         (clouds.AwsNodesSecgroupID, awsConfig.AWSConfig.NodesSecurityGroupID),
         (clouds.AwsSshBootstrapPrivateKey, awsConfig.SshConfig.BootstrapPrivateKey),
         (clouds.AwsUserProvidedSshPublicKey, awsConfig.SshConfig.PublicKey),
         (clouds.AwsRouteTableID, awsConfig.AWSConfig.RouteTableID),
         (clouds.AwsInternetGateWayID, awsConfig.AWSConfig.InternetGatewayID),
         (clouds.AwsMasterInstanceProfile, awsConfig.AWSConfig.MastersInstanceProfile),
         (clouds.AwsNodeInstanceProfile, awsConfig.AWSConfig.NodesInstanceProfile),
         (clouds.AwsImageID, awsConfig.AWSConfig.ImageID)] ∧
      r.CloudSpec.length = 13 ∧
      (r.CloudSpec.map Prod.fst).Nodup ∧
      r.CloudSpec.map Prod.fst =
        ["aws/availabilityZone", "aws/vpcCidr", "aws/vpcId", "aws/keyPairName",
         "aws/mastersSecGroupId", "aws/nodesSecGroupId", "aws/sshBootstrapPrivateKey",
         "aws/userProvidedSshPublicKey", "aws/routeTableId", "aws/internetGatewayId",
         "aws/mastersInstanceProfile", "aws/nodesInstanceProfile", "aws/imageId"] :=
  ⟨by decide, by decide, C20_aws_cloud_spec exampleKube awsConfig (by decide)⟩

/-! ## The workers phase -/

theorem noFailedInWorkers_append (a b : List Action) (f : Bool) :
    noFailedInWorkers (a ++ b) f
      = (noFailedInWorkers a f && noFailedInWorkers b (inWorkersAfter a f)) := by
  induction a generalizing f with
  | nil => simp [noFailedInWorkers, inWorkersAfter]
  | cons x xs ih =>
    cases x with
    | kubeState st =>
      simp only [List.cons_append, noFailedInWorkers, inWorkersAfter]
      split_ifs
      · simp
      · exact ih f
    | take => simpa [noFailedInWorkers, inWorkersAfter] using ih f
    | getWriter id ok => simpa [noFailedInWorkers, inWorkersAfter] using ih f
    | run r id => simpa [noFailedInWorkers, inWorkersAfter] using ih f
    | configUpdate => simpa [noFailedInWorkers, inWorkersAfter] using ih f
    | provisionNodes => simpa [noFailedInWorkers, inWorkersAfter] using ih true
    | waitCluster => simpa [noFailedInWorkers, inWorkersAfter] using ih false

theorem inWorkersAfter_append (a b : List Action) (f : Bool) :
    inWorkersAfter (a ++ b) f = inWorkersAfter b (inWorkersAfter a f) := by
  induction a generalizing f with
  | nil => simp [inWorkersAfter]
  | cons x xs ih =>
    cases x with
    | kubeState st => simpa [inWorkersAfter] using ih f
    | take => simpa [inWorkersAfter] using ih f
    | getWriter id ok => simpa [inWorkersAfter] using ih f
    | run r id => simpa [inWorkersAfter] using ih f
    | configUpdate => simpa [inWorkersAfter] using ih f
    | provisionNodes => simpa [inWorkersAfter] using ih true
    | waitCluster => simpa [inWorkersAfter] using ih false

theorem driverPreProvision_clean (env : DriverEnv) :
    noFailedInWorkers (driverPreProvision env).1 false = true ∧
    inWorkersAfter (driverPreProvision env).1 false = false := by
  unfold driverPreProvision preProvision
  cases env.preProvisionTask with
  | none => simp [noFailedInWorkers, inWorkersAfter]
  | some t =>
    cases env.writerPre <;> cases env.preRunOk <;>
      simp [noFailedInWorkers, inWorkersAfter]

theorem waitCluster_clean (env : DriverEnv) (f : Bool) :
    noFailedInWorkers (waitCluster env) f = true ∧
    inWorkersAfter (waitCluster env) f = false ∧
    Action.waitCluster ∈ waitCluster env := by
  unfold waitCluster
  cases env.writerCluster <;> cases env.masterAtCluster <;> cases env.clusterRunOk <;>
    simp [noFailedInWorkers, inWorkersAfter]

theorem Inv3_init (env : DriverEnv) : Inv3 env (DriverState.init env) := by
  constructor <;> simp [DriverState.init, noFailedInWorkers, inWorkersAfter]

theorem Inv3_step (env : DriverEnv) (s : DriverState) (e : Event) (h : Inv3 env s)
    (h2 : Inv2 env s) : Inv3 env (step env s e) := by
  obtain ⟨phase, trace, ml, fl, cd, dc, fc, wa, la, re⟩ := s
  obtain ⟨k1, k2, k3, k4⟩ := h
  have hearly := h2.early
  simp only at k1 k2 k3 k4 hearly
  have hsame : ∀ {ph2 : Phase}, ph2 = phase →
      Inv3 env ⟨ph2, trace, ml, fl, cd, dc, fc, wa, la, re⟩ := by
    intro ph2 hph
    subst hph
    exact ⟨k1, k2, k3, k4⟩
  cases e with
  | driver =>
    cases phase with
    | preProvision =>
      have hff : inWorkersAfter trace false = false := by
        cases hf : inWorkersAfter trace false
        · rfl
        · have := k2 hf
          simp [Phase.late] at this
      have hc := driverPreProvision_clean env
      have hn := driverPreProvision_no_nodes env
      have hnot := hearly rfl
      simp only [step, driverStep, driverPreProvision_snd]
      split_ifs <;> constructor <;>
        simp_all [Phase.late, noFailedInWorkers_append, inWorkersAfter_append]
    | masters index =>
      have hff : inWorkersAfter trace false = false := by
        cases hf : inWorkersAfter trace false
        · rfl
        · have := k2 hf
          simp [Phase.late] at this
      have hnot := hearly rfl
      simp only [step, driverStep, mastersStep]
      split
      · constructor <;> simp_all [Phase.late]
      · split_ifs <;> constructor <;>
          simp_all [Phase.late, noFailedInWorkers_append, inWorkersAfter_append,
            noFailedInWorkers, inWorkersAfter]
    | waitQuorum chans => exact hsame rfl
    | nodes index =>
      simp only [step, driverStep, nodesStep]
      split
      · constructor <;> simp_all [Phase.late]
      · rename_i task hget
        have hlt : index < env.nodeTasks.length := (List.get?_eq_some.mp hget).1
        split_ifs
        · constructor <;>
            simp_all [Phase.late, noFailedInWorkers_append, inWorkersAfter_append,
              noFailedInWorkers, inWorkersAfter]
        · constructor <;>
            simp_all [Phase.late, noFailedInWorkers_append, inWorkersAfter_append,
              noFailedInWorkers, inWorkersAfter]
          intro _
          omega
        · constructor <;>
            simp_all [Phase.late, noFailedInWorkers_append, inWorkersAfter_append,
              noFailedInWorkers, inWorkersAfter]
    | waitCluster =>
      have hc := waitCluster_clean env (inWorkersAfter trace false)
      simp only [step, driverStep]
      constructor <;>
        simp_all [Phase.late, noFailedInWorkers_append, inWorkersAfter_append]
    | returned => exact hsame rfl
    | panicked => exact hsame rfl
  | select c =>
    cases phase with
    | waitQuorum chans =>
      have hff : inWorkersAfter trace false = false := by
        cases hf : inWorkersAfter trace false
        · rfl
        · have := k2 hf
          simp [Phase.late] at this
      have hnot := hearly rfl
      cases c with
      | ctxDone =>
        simp only [step, selectStep]
        split_ifs <;> constructor <;> simp_all [Phase.late]
      | doneChan =>
        simp only [step, selectStep]
        split_ifs <;> constructor <;>
          simp_all [Phase.late, noFailedInWorkers_append, inWorkersAfter_append,
            noFailedInWorkers, inWorkersAfter]
      | failChan =>
        simp only [step, selectStep]
        split_ifs <;> constructor <;>
          simp_all [Phase.late, noFailedInWorkers_append, inWorkersAfter_append,
            noFailedInWorkers, inWorkersAfter]
    | preProvision => exact hsame rfl
    | masters index => exact hsame rfl
    | nodes index => exact hsame rfl
    | waitCluster => exact hsame rfl
    | returned => exact hsame rfl
    | panicked => exact hsame rfl
  | report index ok =>
    simp only [step, reportStep]
    split_ifs <;> exact ⟨k1, k2, k3, k4⟩
  | closeDone =>
    simp only [step]
    split_ifs <;> exact ⟨k1, k2, k3, k4⟩
  | closeFail =>
    simp only [step]
    split_ifs <;> exact ⟨k1, k2, k3, k4⟩
  | cancel => exact ⟨k1, k2, k3, k4⟩

theorem Inv3_run (env : DriverEnv) (es : List Event) : Inv3 env (run env es) := by
  induction es using List.reverseRecOn with
  | nil => exact Inv3_init env
  | append_singleton es e ih =>
    rw [run_append]
    exact Inv3_step env _ e ih (Inv2_run env es)

theorem clusterStep_foldl_driver (env : DriverEnv) (es : List ClusterEvent) (cs : ClusterState) :
    (es.foldl (clusterStep env) cs).driver = (baseEvents es).foldl (step env) cs.driver := by
  induction es generalizing cs with
  | nil => rfl
  | cons e es ih =>
    cases e with
    | base e => simp only [List.foldl_cons, baseEvents, clusterStep]; exact ih _
    | workerReport index ok =>
      simp only [List.foldl_cons, baseEvents, clusterStep]
      split_ifs <;> exact ih _

theorem clusterRun_driver (env : DriverEnv) (es : List ClusterEvent) :
    (clusterRun env es).driver = run env (baseEvents es) :=
  clusterStep_foldl_driver env es _

theorem baseEvents_append (a b : List ClusterEvent) :
    baseEvents (a ++ b) = baseEvents a ++ baseEvents b := by
  induction a with
  | nil => rfl
  | cons e es ih => cases e <;> simp [baseEvents, ih]

theorem baseEvents_replicate (k : Nat) (e : Event) :
    baseEvents (List.replicate k (ClusterEvent.base e)) = List.replicate k e := by
  induction k with
  | zero => rfl
  | succ k ih => simp [List.replicate_succ, baseEvents, ih]

theorem pendingNodes_driver (env : DriverEnv) (s : DriverState) :
    pendingNodes env (step env s Event.driver).phase ≤ pendingNodes env s.phase - 1 := by
  obtain ⟨phase, trace, ml, fl, cd, dc, fc, wa, la, re⟩ := s
  cases phase with
  | preProvision =>
    simp only [step, driverStep]
    split_ifs <;> simp [pendingNodes]
  | masters index =>
    simp only [step, driverStep, mastersStep]
    split
    · simp [pendingNodes]
    · split_ifs <;> simp [pendingNodes]
  | nodes index =>
    simp only [step, driverStep, nodesStep]
    split
    · simp [pendingNodes]
    · rename_i task hget
      have hlt : index < env.nodeTasks.length := (List.get?_eq_some.mp hget).1
      split_ifs
      · simp [pendingNodes]
      · simp [pendingNodes]
      · simp only [pendingNodes]
        omega
  | waitQuorum chans => simp [step, driverStep, pendingNodes]
  | waitCluster => simp [step, driverStep, pendingNodes]
  | returned => simp [step, driverStep, pendingNodes]
  | panicked => simp [step, driverStep, pendingNodes]

theorem pendingNodes_replicate (env : DriverEnv) (k : Nat) (s : DriverState) :
    pendingNodes env ((List.replicate k Event.driver).foldl (step env) s).phase
      ≤ pendingNodes env s.phase - k := by
  induction k generalizing s with
  | zero => simp
  | succ k ih =>
    simp only [List.replicate_succ, List.foldl_cons]
    have h1 := ih (step env s Event.driver)
    have h2 := pendingNodes_driver env s
    omega

theorem pendingNodes_le (env : DriverEnv) (ph : Phase) :
    pendingNodes env ph ≤ env.nodeTasks.length + 2 := by
  cases ph <;> simp only [pendingNodes] <;> omega

/-- The driver that has entered the workers phase calls `waitCluster` after
at most one step per worker task and two more. -/
theorem entered_imp_waitCluster (env : DriverEnv) (es : List Event)
    (hN : env.nodeTasks.length ≤ env.N) (hent : enteredWorkers (run env es)) :
    Action.waitCluster ∈
      (run env (es ++ List.replicate (env.nodeTasks.length + 2) Event.driver)).trace := by
  have I2 := Inv2_run env (es ++ List.replicate (env.nodeTasks.length + 2) Event.driver)
  have I3 := Inv3_run env (es ++ List.replicate (env.nodeTasks.length + 2) Event.driver)
  have hent2 : Action.provisionNodes ∈
      (run env (es ++ List.replicate (env.nodeTasks.length + 2) Event.driver)).trace := by
    rw [run_append]
    exact foldl_trace_mono env _ _ _ hent
  have hpend : pendingNodes env
      (run env (es ++ List.replicate (env.nodeTasks.length + 2) Event.driver)).phase = 0 := by
    have h1 := pendingNodes_replicate env (env.nodeTasks.length + 2) (run env es)
    rw [← run_append] at h1
    have h2 := pendingNodes_le env (run env es).phase
    omega
  generalize run env (es ++ List.replicate (env.nodeTasks.length + 2) Event.driver) = s at *
  obtain ⟨phase, trace, ml, fl, cd, dc, fc, wa, la, re⟩ := s
  cases phase with
  | preProvision => exact absurd hent2 (I2.early rfl)
  | masters index => exact absurd hent2 (I2.early rfl)
  | waitQuorum chans => exact absurd hent2 (I2.early rfl)
  | nodes index => simp [pendingNodes] at hpend
  | waitCluster => simp [pendingNodes] at hpend
  | returned => exact I3.ret_wait rfl hent2
  | panicked =>
    have := I3.pan_nodes rfl hent2
    omega

/-- C16: whatever the worker goroutines receive from their runs, the state of
the driver is the one its own events produce; no `KubeState=Failed` is sent
between the call of `provisionNodes` and the call of `waitCluster`; and the
driver that has called `provisionNodes` goes on to call `waitCluster`: it
has done so when it has returned, and it does so within one step per worker
task and two more. -/
theorem C16_workers_never_abort (env : DriverEnv) (es : List ClusterEvent)
    (hN : env.nodeTasks.length ≤ env.N) :
    (clusterRun env es).driver = run env (baseEvents es) ∧
    noFailedInWorkers (clusterRun env es).driver.trace false = true ∧
    (enteredWorkers (clusterRun env es).driver →
      Action.waitCluster ∈
        (clusterRun env (es ++ List.replicate (env.nodeTasks.length + 2)
          (ClusterEvent.base Event.driver))).driver.trace) ∧
    ((clusterRun env es).driver.phase = Phase.returned →
      enteredWorkers (clusterRun env es).driver →
      Action.waitCluster ∈ (clusterRun env es).driver.trace) := by
  refine ⟨clusterRun_driver env es, ?_, ?_, ?_⟩
  · rw [clusterRun_driver]
    exact (Inv3_run env _).nofail
  · intro hent
    rw [clusterRun_driver] at hent
    rw [clusterRun_driver, baseEvents_append, baseEvents_replicate]
    exact entered_imp_waitCluster env _ hN hent
  · intro hret hent
    rw [clusterRun_driver] at hret hent ⊢
    exact (Inv3_run env _).ret_wait hret hent

/-- Witness for C16 : in `exampleEnv` the worker is started and its run fails;
the driver goes on to `waitCluster`. -/
theorem C16_workers_never_abort_witness :
    (exampleEnv.nodeTasks.length ≤ exampleEnv.N ∧
      enteredWorkers (clusterRun exampleEnv exampleWorkerSchedule).driver ∧
      (clusterRun exampleEnv exampleWorkerSchedule).workerLog = [(0, false)]) ∧
    ((clusterRun exampleEnv exampleWorkerSchedule).driver
        = run exampleEnv (baseEvents exampleWorkerSchedule) ∧
    noFailedInWorkers (clusterRun exampleEnv exampleWorkerSchedule).driver.trace false = true ∧
    (enteredWorkers (clusterRun exampleEnv exampleWorkerSchedule).driver →
      Action.waitCluster ∈
        (clusterRun exampleEnv (exampleWorkerSchedule ++
          List.replicate (exampleEnv.nodeTasks.length + 2)
            (ClusterEvent.base Event.driver))).driver.trace) ∧
    ((clusterRun exampleEnv exampleWorkerSchedule).driver.phase = Phase.returned →
      enteredWorkers (clusterRun exampleEnv exampleWorkerSchedule).driver →
      Action.waitCluster ∈ (clusterRun exampleEnv exampleWorkerSchedule).driver.trace)) :=
  ⟨⟨by decide, by decide, by decide⟩,
   C16_workers_never_abort exampleEnv exampleWorkerSchedule (by decide)⟩

/-! ## C21 and C22: the reducer on a GCE config and on errors -/

/-- C21, counterexample: the fetched record `gceKube` has one cloud-spec
entry, and after a config event with provider GCE the record handed to
`kubeService.Create` has an empty cloud-spec mapping. -/
theorem C21_counterexample_gce_cloud_spec_replaced :
    gceKube.CloudSpec = [("gce/projectId", "p-1")] ∧
    gceConfig.Provider = CloudName.GCE ∧
    (reducerHandle (some gceKube) (ReducerEvent.config gceConfig)).map (fun k => k.CloudSpec)
      = some [] ∧
    (reducerHandle (some gceKube) (ReducerEvent.config gceConfig)).map (fun k => k.CloudSpec)
      ≠ some gceKube.CloudSpec := by
  decide

/-- C21, amended: for a config event with provider GCE and a fetched record
`k`, the reducer writes no key into the cloud-spec mapping, and the record
it persists is `k` with `BootstrapPrivateKey` and `SshPublicKey` taken from
the config and with the empty mapping as `CloudSpec`: the fetched mapping is
replaced, every other field is the fetched one. -/
theorem C21_gce_config_event (k : Kube) (c : Config) (h : c.Provider = CloudName.GCE) :
    cloudSpecificSettings c = [] ∧
    reducerHandle (some k) (ReducerEvent.config c) =
      some { k with
        BootstrapPrivateKey := c.SshConfig.BootstrapPrivateKey,
        SshPublicKey := c.SshConfig.PublicKey,
        CloudSpec := [] } := by
  simp [reducerHandle, reducerUpdate, updateCloudSpecificData, cloudSpecificSettings, h]

/-- Witness for C21 : the GCE config `gceConfig` and the fetched record `gceKube`. -/
theorem C21_gce_config_event_witness :
    gceConfig.Provider = CloudName.GCE ∧
    cloudSpecificSettings gceConfig = [] ∧
    reducerHandle (some gceKube) (ReducerEvent.config gceConfig) =
      some { gceKube with
        BootstrapPrivateKey := gceConfig.SshConfig.BootstrapPrivateKey,
        SshPublicKey := gceConfig.SshConfig.PublicKey,
        CloudSpec := [] } :=
  ⟨rfl, C21_gce_config_event gceKube gceConfig rfl⟩

theorem monitorStep_returned (s : ReducerState) (i : ReducerInput) (h : s.returned = true) :
    monitorStep s i = s := by
  cases i with
  | event e fetched createOk => simp [monitorStep, h]
  | ctxDone =>
    obtain ⟨c, r, l, ret⟩ := s
    simp only at h
    simp [monitorStep, h]

theorem monitorStep_foldl_returned (inputs : List ReducerInput) (s : ReducerState)
    (h : s.returned = true) : inputs.foldl monitorStep s = s := by
  induction inputs with
  | nil => rfl
  | cons i rest ih => rw [List.foldl_cons, monitorStep_returned s i h]; exact ih

theorem monitorStep_event (s : ReducerState) (e : ReducerEvent) (fetched : Option Kube)
    (createOk : Bool) (h : s.returned = false) :
    (monitorStep s (ReducerInput.event e fetched createOk)).returned = false ∧
    (monitorStep s (ReducerInput.event e fetched createOk)).received = s.received + 1 ∧
    (monitorStep s (ReducerInput.event e fetched createOk)).createCalls =
      s.createCalls ++ (reducerHandle fetched e).toList := by
  cases hr : reducerHandle fetched e with
  | none => simp [monitorStep, h, hr]
  | some k => cases createOk <;> simp [monitorStep, h, hr]

theorem monitor_foldl (inputs : List ReducerInput) (s : ReducerState)
    (h : s.returned = false) :
    ((inputs.foldl monitorStep s).returned = true ↔ ReducerInput.ctxDone ∈ inputs) ∧
    (inputs.foldl monitorStep s).received = s.received + (beforeDone inputs).length ∧
    (inputs.foldl monitorStep s).createCalls =
      s.createCalls ++ (beforeDone inputs).filterMap ReducerInput.created := by
  induction inputs generalizing s with
  | nil => simp [h, beforeDone]
  | cons i rest ih =>
    cases i with
    | ctxDone =>
      have hs : (monitorStep s ReducerInput.ctxDone).returned = true := rfl
      rw [List.foldl_cons, monitorStep_foldl_returned rest _ hs]
      simp [monitorStep, beforeDone]
    | event e fetched createOk =>
      obtain ⟨h1, h2, h3⟩ := monitorStep_event s e fetched createOk h
      obtain ⟨i1, i2, i3⟩ := ih _ h1
      rw [List.foldl_cons]
      refine ⟨?_, ?_, ?_⟩
      · rw [i1]; simp
      · rw [i2, h2]; simp [beforeDone, List.takeWhile_cons]; omega
      · rw [i3, h3]
        cases hr : reducerHandle fetched e <;>
          simp [beforeDone, List.takeWhile_cons, List.filterMap_cons, ReducerInput.created, hr]

/-- C22: whatever the loop of `monitorClusterState` proceeds with, it has
returned exactly when one of its iterations took the case `<-ctx.Done()`;
it receives every event that comes before that case, whatever `Get` and
`Create` answered for the earlier ones; the calls of `Create` are those of
the events whose fetch succeeded, in order; and an event whose fetch fails
adds no call of `Create` and does not make the loop return, nor does an
event whose `Create` fails. -/
theorem C22_reducer_returns_only_on_ctx_done (inputs : List ReducerInput) :
    ((monitorClusterState inputs).returned = true ↔ ReducerInput.ctxDone ∈ inputs) ∧
    (monitorClusterState inputs).received = (beforeDone inputs).length ∧
    (monitorClusterState inputs).createCalls =
      (beforeDone inputs).filterMap ReducerInput.created ∧
    (∀ (e : ReducerEvent) (createOk : Bool),
      (monitorClusterState (inputs ++ [ReducerInput.event e none createOk])).createCalls =
        (monitorClusterState inputs).createCalls ∧
      (monitorClusterState (inputs ++ [ReducerInput.event e none createOk])).returned =
        (monitorClusterState inputs).returned) ∧
    (∀ (e : ReducerEvent) (fetched : Option Kube) (createOk : Bool),
      (monitorClusterState (inputs ++ [ReducerInput.event e fetched createOk])).returned =
        (monitorClusterState inputs).returned) := by
  have key : ∀ (e : ReducerEvent) (fetched : Option Kube) (createOk : Bool),
      (monitorClusterState (inputs ++ [ReducerInput.event e fetched createOk])).returned =
        (monitorClusterState inputs).returned ∧
      (fetched = none →
        (monitorClusterState (inputs ++ [ReducerInput.event e fetched createOk])).createCalls =
          (monitorClusterState inputs).createCalls) := by
    intro e fetched createOk
    unfold monitorClusterState
    rw [List.foldl_append, List.foldl_cons, List.foldl_nil]
    generalize inputs.foldl monitorStep _ = s
    cases hs : s.returned with
    | true => rw [monitorStep_returned s _ hs]; simp [hs]
    | false =>
      obtain ⟨h1, _, h3⟩ := monitorStep_event s e fetched createOk hs
      refine ⟨h1, ?_⟩
      intro hf
      rw [h3, hf]; simp [reducerHandle]
  obtain ⟨h1, h2, h3⟩ := monitor_foldl inputs
    { createCalls := [], received := 0, logged := 0, returned := false } rfl
  refine ⟨h1, ?_, ?_, ?_, ?_⟩
  · simpa [monitorClusterState] using h2
  · simpa [monitorClusterState] using h3
  · intro e createOk
    exact ⟨(key e none createOk).2 rfl, (key e none createOk).1⟩
  · intro e fetched createOk
    exact (key e fetched createOk).1

/-! ## C23 and C24: the maps of `nodesFromProfile` -/

theorem fillNodes_eq (mk : Nat → NodeProfile → Option Node) (ps : List NodeProfile)
    (index : Nat) (acc : List (GoString × Node)) :
    fillNodes mk ps index acc = (plannedNodes mk ps index).map (fun ns => storeNodes ns acc) := by
  induction ps generalizing index acc with
  | nil => simp [fillNodes, plannedNodes, storeNodes]
  | cons p ps ih =>
    cases hmk : mk index p with
    | none => simp [fillNodes, plannedNodes, hmk]
    | some n =>
      simp only [fillNodes, plannedNodes, hmk]
      rw [ih]
      cases plannedNodes mk ps (index + 1) <;> simp [storeNodes]

theorem plannedNodes_spec (mk : Nat → NodeProfile → Option Node) (ps : List NodeProfile)
    (index : Nat) (ns : List Node) (h : plannedNodes mk ps index = some ns) :
    ns.length = ps.length ∧
    ∀ i n, ns.get? i = some n → ∃ p, ps.get? i = some p ∧ mk (index + i) p = some n := by
  induction ps generalizing index ns with
  | nil =>
    simp only [plannedNodes, Option.some.injEq] at h
    subst h
    simp
  | cons p ps ih =>
    cases hmk : mk index p with
    | none => simp [plannedNodes, hmk] at h
    | some n0 =>
      cases hr : plannedNodes mk ps (index + 1) with
      | none => simp [plannedNodes, hmk, hr] at h
      | some rest =>
        simp only [plannedNodes, hmk, hr, Option.some.injEq] at h
        subst h
        obtain ⟨hl, hi⟩ := ih (index + 1) rest hr
        refine ⟨by simp [hl], ?_⟩
        intro i n hget
        cases i with
        | zero =>
          simp only [List.get?_cons_zero, Option.some.injEq] at hget
          subst hget
          exact ⟨p, by simp, by simpa using hmk⟩
        | succ j =>
          simp only [List.get?_cons_succ] at hget
          obtain ⟨q, hq, hmkq⟩ := hi j n hget
          refine ⟨q, by simpa using hq, ?_⟩
          rw [← hmkq]
          congr 1
          omega

theorem storeNodes_append (ns : List Node) (x : Node) (acc : List (GoString × Node)) :
    storeNodes (ns ++ [x]) acc = mapSet (storeNodes ns acc) x.Name x := by
  simp [storeNodes, List.foldl_append]

theorem mem_mapSet {α β : Type} [DecidableEq α] (m : List (α × β)) (k : α) (v : β)
    (e : α × β) (h : e ∈ mapSet m k v) : e = (k, v) ∨ e ∈ m := by
  induction m with
  | nil => simpa [mapSet] using h
  | cons p ps ih =>
    rcases p with ⟨k1, v1⟩
    by_cases hk : k1 = k
    · simp only [mapSet, hk, if_true, List.mem_cons] at h
      rcases h with h | h
      · exact Or.inl h
      · exact Or.inr (List.mem_cons_of_mem _ h)
    · simp only [mapSet, hk, if_false, List.mem_cons] at h
      rcases h with h | h
      · exact Or.inr (by simp [h])
      · rcases ih h with h2 | h2
        · exact Or.inl h2
        · exact Or.inr (List.mem_cons_of_mem _ h2)

theorem mem_keys_mapSet {α β : Type} [DecidableEq α] (m : List (α × β)) (k k2 : α) (v : β) :
    k2 ∈ (mapSet m k v).map Prod.fst ↔ k2 = k ∨ k2 ∈ m.map Prod.fst := by
  induction m with
  | nil => simp [mapSet]
  | cons p ps ih =>
    rcases p with ⟨k1, v1⟩
    by_cases hk : k1 = k
    · subst hk
      simp [mapSet]
    · simp only [mapSet, hk, if_false, List.map_cons, List.mem_cons, ih]
      tauto

theorem nodup_keys_mapSet {α β : Type} [DecidableEq α] (m : List (α × β)) (k : α) (v : β)
    (h : (m.map Prod.fst).Nodup) : ((mapSet m k v).map Prod.fst).Nodup := by
  induction m with
  | nil => simp [mapSet]
  | cons p ps ih =>
    rcases p with ⟨k1, v1⟩
    simp only [List.map_cons, List.nodup_cons] at h
    by_cases hk : k1 = k
    · subst hk
      simp only [mapSet, if_true, List.map_cons, List.nodup_cons]
      exact h
    · simp only [mapSet, hk, if_false, List.map_cons, List.nodup_cons]
      refine ⟨?_, ih h.2⟩
      rw [mem_keys_mapSet]
      intro hc
      rcases hc with hc | hc
      · exact hk hc
      · exact h.1 hc

theorem storeNodes_keys (ns : List Node) (acc : List (GoString × Node))
    (h : (acc.map Prod.fst).Nodup) :
    ((storeNodes ns acc).map Prod.fst).Nodup ∧
    ∀ k, k ∈ (storeNodes ns acc).map Prod.fst ↔
      k ∈ acc.map Prod.fst ∨ k ∈ ns.map (fun n => n.Name) := by
  induction ns using List.reverseRecOn with
  | nil =>
    refine ⟨h, fun k => ?_⟩
    show k ∈ acc.map Prod.fst ↔ k ∈ acc.map Prod.fst ∨ k ∈ []
    simp only [List.not_mem_nil, or_false]
  | append_singleton ns x ih =>
    rw [storeNodes_append]
    refine ⟨nodup_keys_mapSet _ _ _ ih.1, ?_⟩
    intro k
    rw [mem_keys_mapSet, ih.2]
    simp only [List.map_append, List.map_cons, List.map_nil, List.mem_append,
      List.mem_singleton]
    tauto

theorem storeNodes_length (ns : List Node) :
    (storeNodes ns []).length = (ns.map (fun n => n.Name)).toFinset.card := by
  obtain ⟨hnd, hmem⟩ := storeNodes_keys ns [] (by simp)
  have h1 : (storeNodes ns []).length = ((storeNodes ns []).map Prod.fst).toFinset.card := by
    rw [List.toFinset_card_of_nodup hnd, List.length_map]
  rw [h1]
  congr 1
  ext k
  simp only [List.mem_toFinset]
  rw [hmem]
  simp

theorem storeNodes_length_iff (ns : List Node) :
    (storeNodes ns []).length = ns.length ↔ (ns.map (fun n => n.Name)).Nodup := by
  rw [storeNodes_length]
  constructor
  · intro h
    have h2 : (ns.map (fun n => n.Name)).toFinset.card = (ns.map (fun n => n.Name)).length := by
      rw [h, List.length_map]
    rw [List.card_toFinset] at h2
    have hs : (ns.map (fun n => n.Name)).dedup = ns.map (fun n => n.Name) :=
      (List.dedup_sublist _).eq_of_length h2
    rw [← hs]
    exact List.nodup_dedup _
  · intro h
    rw [List.toFinset_card_of_nodup h, List.length_map]

theorem storeNodes_mem (ns : List Node) (acc : List (GoString × Node)) (e : GoString × Node)
    (h : e ∈ storeNodes ns acc) : e ∈ acc ∨ (e.1 = e.2.Name ∧ e.2 ∈ ns) := by
  induction ns using List.reverseRecOn with
  | nil => exact Or.inl (by simpa [storeNodes] using h)
  | append_singleton ns x ih =>
    rw [storeNodes_append] at h
    rcases mem_mapSet _ _ _ _ h with h1 | h1
    · subst h1
      exact Or.inr ⟨rfl, by simp⟩
    · rcases ih h1 with h2 | h2
      · exact Or.inl h2
      · exact Or.inr ⟨h2.1, List.mem_append_left _ h2.2⟩

theorem storeNodes_get (ns : List Node) (acc : List (GoString × Node)) (k : GoString) :
    (∃ n ∈ ns, n.Name = k ∧ mapGet (storeNodes ns acc) k = some n) ∨
    ((∀ n ∈ ns, n.Name ≠ k) ∧ mapGet (storeNodes ns acc) k = mapGet acc k) := by
  induction ns using List.reverseRecOn with
  | nil => exact Or.inr ⟨by simp, by simp [storeNodes]⟩
  | append_singleton ns x ih =>
    rw [storeNodes_append]
    by_cases hk : x.Name = k
    · subst hk
      exact Or.inl ⟨x, by simp, rfl, mapGet_mapSet_self _ _ _⟩
    · rw [mapGet_mapSet_other _ _ _ _ (fun h => hk h.symm)]
      rcases ih with ⟨n, hn, hname, hget⟩ | ⟨hall, hget⟩
      · exact Or.inl ⟨n, List.mem_append_left _ hn, hname, hget⟩
      · refine Or.inr ⟨?_, hget⟩
        intro n hn
        rcases List.mem_append.1 hn with h1 | h1
        · exact hall n h1
        · simp only [List.mem_singleton] at h1
          subst h1
          exact hk

theorem nodesFromProfile_eq (w : World) (clusterName : GoString)
    (masterTasks nodeTasks : List Task) (profile : Profile)
    (masters nodes : List (GoString × Node))
    (h : nodesFromProfile w clusterName masterTasks nodeTasks profile = some (masters, nodes)) :
    ∃ ms ns,
      plannedNodes (masterNodeOf w clusterName profile masterTasks) profile.MasterProfiles 0
        = some ms ∧
      plannedNodes (workerNodeOf w clusterName profile nodeTasks) profile.NodesProfiles 0
        = some ns ∧
      masters = storeNodes ms [] ∧ nodes = storeNodes ns [] := by
  unfold nodesFromProfile at h
  rw [fillNodes_eq, fillNodes_eq] at h
  cases hm : plannedNodes (masterNodeOf w clusterName profile masterTasks)
      profile.MasterProfiles 0 with
  | none => simp [hm] at h
  | some ms =>
    cases hn : plannedNodes (workerNodeOf w clusterName profile nodeTasks)
        profile.NodesProfiles 0 with
    | none => simp [hm, hn] at h
    | some ns =>
      simp only [hm, hn, Option.map_some', Option.some.injEq, Prod.mk.injEq] at h
      exact ⟨ms, ns, rfl, rfl, h.1.symm, h.2.symm⟩

/-- C23, counterexample: two worker tasks with the distinct IDs "abcd-1111"
and "abcd-2222" and a profile with two node profiles give a Nodes map with
one entry, because both workers get the name made from "abcd". -/
theorem C23_counterexample_shared_first_four_bytes :
    (collidingTasks.map (fun t => t.ID)).Nodup ∧
    twoWorkersProfile.NodesProfiles.length = 2 ∧
    (nodesFromProfile exampleWorld "kube".toList [] collidingTasks twoWorkersProfile).map
      (fun r => (r.1.length, r.2.length)) = some (0, 1) := by
  decide

/-- C23, amended: when `nodesFromProfile` returns for a profile with M master
profiles and N node profiles, the Masters map has exactly M entries if and
only if the M master records it built have pairwise distinct names, and the
Nodes map has exactly N entries if and only if the N worker records have
pairwise distinct names; the size of each map is the number of distinct
names. Distinct task IDs are not enough, a worker's name is made from the
first four bytes of its task ID. -/
theorem C23_map_sizes (w : World) (clusterName : GoString)
    (masterTasks nodeTasks : List Task) (profile : Profile)
    (masters nodes : List (GoString × Node))
    (h : nodesFromProfile w clusterName masterTasks nodeTasks profile = some (masters, nodes)) :
    ∃ ms ns,
      plannedNodes (masterNodeOf w clusterName profile masterTasks) profile.MasterProfiles 0
        = some ms ∧
      plannedNodes (workerNodeOf w clusterName profile nodeTasks) profile.NodesProfiles 0
        = some ns ∧
      ms.length = profile.MasterProfiles.length ∧
      ns.length = profile.NodesProfiles.length ∧
      masters.length = (ms.map (fun n => n.Name)).toFinset.card ∧
      nodes.length = (ns.map (fun n => n.Name)).toFinset.card ∧
      (masters.length = profile.MasterProfiles.length ↔ (ms.map (fun n => n.Name)).Nodup) ∧
      (nodes.length = profile.NodesProfiles.length ↔ (ns.map (fun n => n.Name)).Nodup) := by
  obtain ⟨ms, ns, hm, hn, hms, hns⟩ := nodesFromProfile_eq _ _ _ _ _ _ _ h
  have lm := (plannedNodes_spec _ _ _ _ hm).1
  have ln := (plannedNodes_spec _ _ _ _ hn).1
  refine ⟨ms, ns, hm, hn, lm, ln, ?_, ?_, ?_, ?_⟩
  · rw [hms]; exact storeNodes_length ms
  · rw [hns]; exact storeNodes_length ns
  · rw [hms, ← lm]; exact storeNodes_length_iff ms
  · rw [hns, ← ln]; exact storeNodes_length_iff ns

/-- Witness for C23 : one master task and one worker task of a DigitalOcean profile. -/
theorem C23_map_sizes_witness :
    nodesFromProfile exampleWorld "kube".toList
        [{ ID := "a-task-0".toList, WorkflowType := "DigitalOceanMaster" }]
        [{ ID := "b-task-0".toList, WorkflowType := "DigitalOceanNode" }] exampleProfile
      = some ([("kube-master-a-task-0".toList,
                { TaskID := "a-task-0".toList, Name := "kube-master-a-task-0".toList,
                  Provider := CloudName.DigitalOcean, State := NodeState.planned })],
              [("kube-node-b-ta".toList,
                { TaskID := "b-task-0".toList, Name := "kube-node-b-ta".toList,
                  Provider := CloudName.DigitalOcean, State := NodeState.planned })]) ∧
    ∃ ms ns,
      plannedNodes (masterNodeOf exampleWorld "kube".toList exampleProfile
        [{ ID := "a-task-0".toList, WorkflowType := "DigitalOceanMaster" }])
        exampleProfile.MasterProfiles 0 = some ms ∧
      plannedNodes (workerNodeOf exampleWorld "kube".toList exampleProfile
        [{ ID := "b-task-0".toList, WorkflowType := "DigitalOceanNode" }])
        exampleProfile.NodesProfiles 0 = some ns ∧
      ms.length = exampleProfile.MasterProfiles.length ∧
      ns.length = exampleProfile.NodesProfiles.length ∧
      [("kube-master-a-task-0".toList,
        ({ TaskID := "a-task-0".toList, Name := "kube-master-a-task-0".toList,
           Provider := CloudName.DigitalOcean, State := NodeState.planned } : Node))].length
        = (ms.map (fun n => n.Name)).toFinset.card ∧
      [("kube-node-b-ta".toList,
        ({ TaskID := "b-task-0".toList, Name := "kube-node-b-ta".toList,
           Provider := CloudName.DigitalOcean, State := NodeState.planned } : Node))].length
        = (ns.map (fun n => n.Name)).toFinset.card ∧
      ([("kube-master-a-task-0".toList,
        ({ TaskID := "a-task-0".toList, Name := "kube-master-a-task-0".toList,
           Provider := CloudName.DigitalOcean, State := NodeState.planned } : Node))].length
        = exampleProfile.MasterProfiles.length ↔ (ms.map (fun n => n.Name)).Nodup) ∧
      ([("kube-node-b-ta".toList,
        ({ TaskID := "b-task-0".toList, Name := "kube-node-b-ta".toList,
           Provider := CloudName.DigitalOcean, State := NodeState.planned } : Node))].length
        = exampleProfile.NodesProfiles.length ↔ (ns.map (fun n => n.Name)).Nodup) :=
  ⟨by decide, C23_map_sizes exampleWorld "kube".toList _ _ exampleProfile _ _ (by decide)⟩

/-- C24, counterexample: with a `util.BindParams` that binds the key "region"
of the node profile, the record stored for the one master profile of
`regionProfile` has the region "nyc3" of the node profile, not the region
"fra1" of the profile. -/
theorem C24_counterexample_bound_region :
    regionProfile.Region = "fra1" ∧
    nodesFromProfile bindingWorld "kube".toList
        [{ ID := "a-task-0".toList, WorkflowType := "DigitalOceanMaster" }] [] regionProfile
      = some ([("kube-master-a-task-0".toList,
                { TaskID := "a-task-0".toList, Name := "kube-master-a-task-0".toList,
                  Provider := CloudName.DigitalOcean, Region := "nyc3",
                  State := NodeState.planned })], []) ∧
    (nodesFromProfile bindingWorld "kube".toList
        [{ ID := "a-task-0".toList, WorkflowType := "DigitalOceanMaster" }] []
        regionProfile).map (fun r => r.1.map (fun e => decide (e.2.Region = regionProfile.Region)))
      = some [false] := by
  decide

/-- C24, amended: when `nodesFromProfile` returns, the record of the i-th
master profile `p` is `util.BindParams(p, n)` for the node `n` that has the
ID of the i-th master task as TaskID, the state Planned, the provider and
region of the profile, and the name `MakeNodeName(clusterName, taskID, true)`;
the record of the i-th node profile is `util.BindParams(p, n)` for the node
with the ID of the i-th node task, the state Planned, the provider and
region of the profile, and the name
`MakeNodeName(clusterName, taskID[:4], false)`; on GCE both names are passed
through `strings.ToLower`. Each map is the result of storing the records in
order under the names they have after `BindParams`: every entry of a map is
one of the records under its name, and looking up the name of a record
gives a record of that name (the record itself when the names are distinct).
When `BindParams` leaves TaskID, Name, State, Provider and Region of a node
as they are, the records themselves have these fields. -/
theorem C24_node_records (w : World) (clusterName : GoString)
    (masterTasks nodeTasks : List Task) (profile : Profile)
    (masters nodes : List (GoString × Node))
    (h : nodesFromProfile w clusterName masterTasks nodeTasks profile = some (masters, nodes)) :
    ∃ ms ns,
      ms.length = profile.MasterProfiles.length ∧
      ns.length = profile.NodesProfiles.length ∧
      (∀ i n, ms.get? i = some n → ∃ task p, masterTasks.get? i = some task ∧
        profile.MasterProfiles.get? i = some p ∧
        n = w.BindParams p
          { TaskID := task.ID,
            Name := if profile.Provider = CloudName.GCE
              then w.ToLower (w.MakeNodeName clusterName task.ID true)
              else w.MakeNodeName clusterName task.ID true,
            Provider := profile.Provider, Region := profile.Region,
            State := NodeState.planned }) ∧
      (∀ i n, ns.get? i = some n → ∃ task p, nodeTasks.get? i = some task ∧
        profile.NodesProfiles.get? i = some p ∧ 4 ≤ task.ID.length ∧
        n = w.BindParams p
          { TaskID := task.ID,
            Name := if profile.Provider = CloudName.GCE
              then w.ToLower (w.MakeNodeName clusterName (task.ID.take 4) false)
              else w.MakeNodeName clusterName (task.ID.take 4) false,
            Provider := profile.Provider, Region := profile.Region,
            State := NodeState.planned }) ∧
      masters = storeNodes ms [] ∧ nodes = storeNodes ns [] ∧
      (∀ e ∈ masters, e.1 = e.2.Name ∧ e.2 ∈ ms) ∧
      (∀ e ∈ nodes, e.1 = e.2.Name ∧ e.2 ∈ ns) ∧
      (∀ n ∈ ms, ∃ n2 ∈ ms, n2.Name = n.Name ∧ mapGet masters n.Name = some n2) ∧
      (∀ n ∈ ns, ∃ n2 ∈ ns, n2.Name = n.Name ∧ mapGet nodes n.Name = some n2) ∧
      (∀ n ∈ ms, (ms.map (fun x => x.Name)).Nodup → mapGet masters n.Name = some n) ∧
      (∀ n ∈ ns, (ns.map (fun x => x.Name)).Nodup → mapGet nodes n.Name = some n) ∧
      ((∀ p n, (w.BindParams p n).TaskID = n.TaskID ∧ (w.BindParams p n).Name = n.Name ∧
          (w.BindParams p n).State = n.State ∧ (w.BindParams p n).Provider = n.Provider ∧
          (w.BindParams p n).Region = n.Region) →
        (∀ i n, ms.get? i = some n → ∃ task, masterTasks.get? i = some task ∧
          n.TaskID = task.ID ∧ n.State = NodeState.planned ∧
          n.Provider = profile.Provider ∧ n.Region = profile.Region ∧
          n.Name = (if profile.Provider = CloudName.GCE
            then w.ToLower (w.MakeNodeName clusterName task.ID true)
            else w.MakeNodeName clusterName task.ID true)) ∧
        (∀ i n, ns.get? i = some n → ∃ task, nodeTasks.get? i = some task ∧
          n.TaskID = task.ID ∧ n.State = NodeState.planned ∧
          n.Provider = profile.Provider ∧ n.Region = profile.Region ∧
          n.Name = (if profile.Provider = CloudName.GCE
            then w.ToLower (w.MakeNodeName clusterName (task.ID.take 4) false)
            else w.MakeNodeName clusterName (task.ID.take 4) false))) := by
  obtain ⟨ms, ns, hm, hn, hms, hns⟩ := nodesFromProfile_eq _ _ _ _ _ _ _ h
  obtain ⟨lm, im⟩ := plannedNodes_spec _ _ _ _ hm
  obtain ⟨ln, iN⟩ := plannedNodes_spec _ _ _ _ hn
  have look : ∀ (l : List Node) (n : Node), n ∈ l →
      ∃ n2 ∈ l, n2.Name = n.Name ∧ mapGet (storeNodes l []) n.Name = some n2 := by
    intro l n hmem
    rcases storeNodes_get l [] n.Name with hx | ⟨hall, _⟩
    · exact hx
    · exact absurd rfl (hall n hmem)
  have inj : ∀ (l : List Node) (a b : Node), (l.map (fun x => x.Name)).Nodup →
      a ∈ l → b ∈ l → a.Name = b.Name → a = b := by
    intro l a b hnd ha hb hname
    exact List.inj_on_of_nodup_map hnd ha hb hname
  have recM : ∀ i n, ms.get? i = some n → ∃ task p, masterTasks.get? i = some task ∧
      profile.MasterProfiles.get? i = some p ∧
      n = w.BindParams p
        { TaskID := task.ID,
          Name := if profile.Provider = CloudName.GCE
            then w.ToLower (w.MakeNodeName clusterName task.ID true)
            else w.MakeNodeName clusterName task.ID true,
          Provider := profile.Provider, Region := profile.Region,
          State := NodeState.planned } := by
    intro i n hget
    obtain ⟨p, hp, hmk⟩ := im i n hget
    rw [Nat.zero_add] at hmk
    unfold masterNodeOf at hmk
    cases ht : masterTasks.get? i with
    | none => rw [ht] at hmk; simp at hmk
    | some task =>
      rw [ht] at hmk
      simp only [Option.some.injEq] at hmk
      exact ⟨task, p, rfl, hp, hmk.symm⟩
  have recN : ∀ i n, ns.get? i = some n → ∃ task p, nodeTasks.get? i = some task ∧
      profile.NodesProfiles.get? i = some p ∧ 4 ≤ task.ID.length ∧
      n = w.BindParams p
        { TaskID := task.ID,
          Name := if profile.Provider = CloudName.GCE
            then w.ToLower (w.MakeNodeName clusterName (task.ID.take 4) false)
            else w.MakeNodeName clusterName (task.ID.take 4) false,
          Provider := profile.Provider, Region := profile.Region,
          State := NodeState.planned } := by
    intro i n hget
    obtain ⟨p, hp, hmk⟩ := iN i n hget
    rw [Nat.zero_add] at hmk
    unfold workerNodeOf at hmk
    cases ht : nodeTasks.get? i with
    | none => rw [ht] at hmk; simp at hmk
    | some task =>
      rw [ht] at hmk
      simp only at hmk
      by_cases hlen : task.ID.length < 4
      · simp [hlen] at hmk
      · simp only [hlen, if_false, Option.some.injEq] at hmk
        exact ⟨task, p, rfl, hp, by omega, hmk.symm⟩
  refine ⟨ms, ns, lm, ln, recM, recN, hms, hns, ?_, ?_, ?_, ?_, ?_, ?_, ?_⟩
  · intro e he
    rw [hms] at he
    rcases storeNodes_mem ms [] e he with h1 | h1
    · simp at h1
    · exact h1
  · intro e he
    rw [hns] at he
    rcases storeNodes_mem ns [] e he with h1 | h1
    · simp at h1
    · exact h1
  · intro n hmem
    rw [hms]
    exact look ms n hmem
  · intro n hmem
    rw [hns]
    exact look ns n hmem
  · intro n hmem hnd
    obtain ⟨n2, h2, hname, hget⟩ := look ms n hmem
    rw [hms, hget, inj ms n2 n hnd h2 hmem hname]
  · intro n hmem hnd
    obtain ⟨n2, h2, hname, hget⟩ := look ns n hmem
    rw [hns, hget, inj ns n2 n hnd h2 hmem hname]
  · intro hB
    constructor
    · intro i n hget
      obtain ⟨task, p, ht, _, hn⟩ := recM i n hget
      obtain ⟨b1, b2, b3, b4, b5⟩ := hB p
        { TaskID := task.ID,
          Name := if profile.Provider = CloudName.GCE
            then w.ToLower (w.MakeNodeName clusterName task.ID true)
            else w.MakeNodeName clusterName task.ID true,
          Provider := profile.Provider, Region := profile.Region, State := NodeState.planned }
      rw [← hn] at b1 b2 b3 b4 b5
      exact ⟨task, ht, b1, b3, b4, b5, b2⟩
    · intro i n hget
      obtain ⟨task, p, ht, _, _, hn⟩ := recN i n hget
      obtain ⟨b1, b2, b3, b4, b5⟩ := hB p
        { TaskID := task.ID,
          Name := if profile.Provider = CloudName.GCE
            then w.ToLower (w.MakeNodeName clusterName (task.ID.take 4) false)
            else w.MakeNodeName clusterName (task.ID.take 4) false,
          Provider := profile.Provider, Region := profile.Region,
          State := NodeState.planned }
      rw [← hn] at b1 b2 b3 b4 b5
      exact ⟨task, ht, b1, b3, b4, b5, b2⟩

/-- Witness for C24 : one master task and one worker task of a GCE profile for
the cluster "Kube"; the names are lower-cased, the task IDs are not. -/
theorem C24_node_records_witness :
    nodesFromProfile exampleWorld "Kube".toList
        [{ ID := "A-task-0".toList, WorkflowType := "GCEMaster" }]
        [{ ID := "B-task-0".toList, WorkflowType := "GCENode" }] gceProfile
      = some ([("kube-master-a-task-0".toList,
                { TaskID := "A-task-0".toList, Name := "kube-master-a-task-0".toList,
                  Provider := CloudName.GCE, Region := "us-east1",
                  State := NodeState.planned })],
              [("kube-node-b-ta".toList,
                { TaskID := "B-task-0".toList, Name := "kube-node-b-ta".toList,
                  Provider := CloudName.GCE, Region := "us-east1",
                  State := NodeState.planned })]) ∧
    exampleWorld.ToLower (exampleWorld.MakeNodeName "Kube".toList "A-task-0".toList true)
      ≠ exampleWorld.MakeNodeName "Kube".toList "A-task-0".toList true ∧
    ∃ ms ns : List Node,
      ms.length = gceProfile.MasterProfiles.length ∧
      ns.length = gceProfile.NodesProfiles.length ∧
      (∀ i n, ms.get? i = some n → ∃ task p,
        [({ ID := "A-task-0".toList, WorkflowType := "GCEMaster" } : Task)].get? i = some task ∧
        gceProfile.MasterProfiles.get? i = some p ∧
        n = exampleWorld.BindParams p
          { TaskID := task.ID,
            Name := if gceProfile.Provider = CloudName.GCE
              then exampleWorld.ToLower (exampleWorld.MakeNodeName "Kube".toList task.ID true)
              else exampleWorld.MakeNodeName "Kube".toList task.ID true,
            Provider := gceProfile.Provider, Region := gceProfile.Region,
            State := NodeState.planned }) := by
  obtain ⟨ms, ns, h1, h2, h3, _⟩ := C24_node_records exampleWorld "Kube".toList
    [{ ID := "A-task-0".toList, WorkflowType := "GCEMaster" }]
    [{ ID := "B-task-0".toList, WorkflowType := "GCENode" }] gceProfile _ _
    (show nodesFromProfile exampleWorld "Kube".toList
        [{ ID := "A-task-0".toList, WorkflowType := "GCEMaster" }]
        [{ ID := "B-task-0".toList, WorkflowType := "GCENode" }] gceProfile
      = some ([("kube-master-a-task-0".toList,
                { TaskID := "A-task-0".toList, Name := "kube-master-a-task-0".toList,
                  Provider := CloudName.GCE, Region := "us-east1",
                  State := NodeState.planned })],
              [("kube-node-b-ta".toList,
                { TaskID := "B-task-0".toList, Name := "kube-node-b-ta".toList,
                  Provider := CloudName.GCE, Region := "us-east1",
                  State := NodeState.planned })]) by decide)
  exact ⟨by decide, by decide, ms, ns, h1, h2, h3⟩

/-! ## C25: which failures of the driver are sent as a state -/

theorem stuck_step (env : DriverEnv) (s : DriverState) (e : Event)
    (h : s.phase = Phase.waitQuorum false ∨ (s.phase = Phase.returned ∧ s.ctxDone = true)) :
    (step env s e).trace = s.trace ∧
    ((step env s e).phase = Phase.waitQuorum false ∨
      ((step env s e).phase = Phase.returned ∧ (step env s e).ctxDone = true)) := by
  obtain ⟨phase, trace, ml, fl, cd, dc, fc, wa, la, re⟩ := s
  simp only at h
  rcases h with h | ⟨h, hc⟩
  · subst h
    cases e with
    | driver => simp [step, driverStep]
    | select c =>
      cases c with
      | ctxDone =>
        by_cases hcd : cd = true
        · simp [step, selectStep, hcd]
        · simp [step, selectStep, hcd]
      | doneChan => simp [step, selectStep]
      | failChan => simp [step, selectStep]
    | report index ok =>
      simp only [step, reportStep]
      split_ifs <;> simp
    | closeDone =>
      simp only [step]
      split_ifs <;> simp
    | closeFail =>
      simp only [step]
      split_ifs <;> simp
    | cancel => simp [step]
  · subst h
    subst hc
    cases e with
    | driver => simp [step, driverStep]
    | select c => simp [step, selectStep]
    | report index ok =>
      simp only [step, reportStep]
      split_ifs <;> simp
    | closeDone =>
      simp only [step]
      split_ifs <;> simp
    | closeFail =>
      simp only [step]
      split_ifs <;> simp
    | cancel => simp [step]

theorem stuck_foldl (env : DriverEnv) (es : List Event) (s : DriverState)
    (h : s.phase = Phase.waitQuorum false ∨ (s.phase = Phase.returned ∧ s.ctxDone = true)) :
    (es.foldl (step env) s).trace = s.trace ∧
    ((es.foldl (step env) s).phase = Phase.waitQuorum false ∨
      ((es.foldl (step env) s).phase = Phase.returned ∧
        (es.foldl (step env) s).ctxDone = true)) := by
  induction es generalizing s with
  | nil => exact ⟨rfl, h⟩
  | cons e es ih =>
    obtain ⟨h1, h2⟩ := stuck_step env s e h
    obtain ⟨i1, i2⟩ := ih (step env s e) h2
    simp only [List.foldl_cons]
    exact ⟨by rw [i1, h1], i2⟩

theorem failure_quorum_sent (env : DriverEnv) (es : List Event)
    (hq : (run env es).phase = Phase.waitQuorum true)
    (hf : env.M / 2 + 1 ≤ failures (run env es).reports) :
    (run env (es ++ [Event.closeFail, Event.select SelectCase.failChan])).phase
      = Phase.returned ∧
    (run env (es ++ [Event.closeFail, Event.select SelectCase.failChan])).trace
      = (run env es).trace ++ [Action.kubeState KubeState.failed] := by
  have hI := Inv_run env es
  have hI2 := Inv2_run env es
  have hle := Inv_reports_le env _ hI
  have hM : env.M ≠ 0 := by omega
  have hw : (run env es).watchers = true := by
    rcases hI2.wq_true hq with h | h
    · exact h
    · exact absurd h hM
  have hc : (run env es).failLatch.count = 0 := by
    rw [hI.fcount]; omega
  rw [run_append]
  generalize run env es = s at hq hw hc
  obtain ⟨phase, trace, ml, fl, cd, dc, fc, wa, la, re⟩ := s
  simp only at hq hw hc
  subst hq
  subst hw
  simp [step, selectStep, CountdownLatch.released, hc]

theorem ProvisionClusterObserved_fst (w : World) (tp : TaskProvisioner) (ctx : Nat)
    (profile : Profile) (config : Config) (n : Nat) (answers : DriverEnv) (es : List Event) :
    (ProvisionClusterObserved w tp ctx profile config n answers es).1 =
      (ProvisionCluster w tp ctx profile config n).ret := by
  unfold ProvisionClusterObserved
  simp only
  split <;> rfl

/-- C25, counterexample: failures of `getWriter` that are never sent as a
state. With `awsNoWriterEnv` the writer of the pre-provision task cannot be
opened and the provisioning runs to its end with Operational as its only
state. With `masterNoWriterEnv` the writer of the second master task cannot
be opened: the driver waits with nil channels, no report of the first
master and no latch watcher moves it, and after a cancellation it returns;
no state was sent. -/
theorem C25_counterexample_writer_failures_not_sent :
    awsNoWriterEnv.writerPre = false ∧
    (run awsNoWriterEnv exampleFinish).phase = Phase.returned ∧
    kubeStates (run awsNoWriterEnv exampleFinish).trace = [KubeState.operational] ∧
    masterNoWriterEnv.writerMaster 1 = false ∧
    (run masterNoWriterEnv [Event.driver, Event.driver, Event.driver]).trace =
      [Action.take, Action.getWriter "a-task-0".toList true,
       Action.run TaskRole.master "a-task-0".toList,
       Action.take, Action.getWriter "b-task-0".toList false] ∧
    (run masterNoWriterEnv [Event.driver, Event.driver, Event.driver, Event.report 0 false,
      Event.closeDone, Event.closeFail, Event.select SelectCase.doneChan,
      Event.select SelectCase.failChan, Event.driver]).phase = Phase.waitQuorum false ∧
    quiescent masterNoWriterEnv (run masterNoWriterEnv [Event.driver, Event.driver,
      Event.driver, Event.report 0 false, Event.closeDone, Event.closeFail]) ∧
    (run masterNoWriterEnv [Event.driver, Event.driver, Event.driver, Event.report 0 false,
      Event.closeDone, Event.closeFail, Event.cancel,
      Event.select SelectCase.ctxDone]).phase = Phase.returned ∧
    kubeStates (run masterNoWriterEnv [Event.driver, Event.driver, Event.driver,
      Event.report 0 false, Event.closeDone, Event.closeFail, Event.cancel,
      Event.select SelectCase.ctxDone]).trace = [] := by
  decide

/-- C25, amended: the pre-provision stage sends Failed when the run of its
task reports an error and sends nothing when `getWriter` fails; the cluster
stage sends Failed when no master is found or the run of the cluster task
reports an error and sends nothing when `getWriter` fails; once
`provisionMasters` has returned on a failed `getWriter`, no schedule makes
the driver send a state, and it returns only after a cancellation; when
the driver waits with channels and `M/2+1` master runs have failed, the
watcher of the failure latch closes `failChan` and the `select` sends
Failed and returns. What `ProvisionCluster` returns is the same for all
answers of the tasks and all schedules of the driver. -/
theorem C25_failures_sent_as_state (env : DriverEnv) (es es2 : List Event) :
    (∀ t : Task, kubeStates (preProvision env t).1 =
      if env.writerPre = false then []
      else if env.preRunOk = false then [KubeState.failed]
      else [KubeState.provisioning]) ∧
    (kubeStates (waitCluster env) =
      if env.writerCluster = false then []
      else if env.masterAtCluster = false then [KubeState.failed]
      else if env.clusterRunOk = false then [KubeState.failed]
      else [KubeState.operational]) ∧
    ((run env es).phase = Phase.waitQuorum false →
      (∃ i, i < env.masterTasks.length ∧ env.writerMaster i = false) ∧
      kubeStates (run env (es ++ es2)).trace = kubeStates (run env es).trace ∧
      ((run env (es ++ es2)).phase = Phase.waitQuorum false ∨
        ((run env (es ++ es2)).phase = Phase.returned ∧
          (run env (es ++ es2)).ctxDone = true))) ∧
    ((run env es).phase = Phase.waitQuorum true →
      env.M / 2 + 1 ≤ failures (run env es).reports →
      (run env (es ++ [Event.closeFail, Event.select SelectCase.failChan])).phase
        = Phase.returned ∧
      (run env (es ++ [Event.closeFail, Event.select SelectCase.failChan])).trace
        = (run env es).trace ++ [Action.kubeState KubeState.failed]) ∧
    (∀ (w : World) (tp : TaskProvisioner) (ctx : Nat) (profile : Profile) (config : Config)
      (n : Nat) (answers : DriverEnv) (schedule : List Event),
      (ProvisionClusterObserved w tp ctx profile config n answers schedule).1 =
        (ProvisionClusterObserved w tp ctx profile config n env es).1) := by
  refine ⟨?_, ?_, ?_, ?_, ?_⟩
  · intro t
    unfold preProvision
    split_ifs <;> rfl
  · unfold waitCluster
    split_ifs <;> rfl
  · intro hq
    obtain ⟨h1, h2⟩ := stuck_foldl env es2 (run env es) (Or.inl hq)
    rw [run_append]
    exact ⟨(Inv2_run env es).wq_false hq, by rw [h1], h2⟩
  · exact failure_quorum_sent env es
  · intro w tp ctx profile config n answers schedule
    rw [ProvisionClusterObserved_fst, ProvisionClusterObserved_fst]

/-- Witness for C25 : the writer of the second of three master tasks cannot be
opened, and two of three master runs fail. -/
theorem C25_failures_sent_as_state_witness :
    (run masterNoWriterEnv [Event.driver, Event.driver, Event.driver]).phase
      = Phase.waitQuorum false ∧
    kubeStates (run masterNoWriterEnv ([Event.driver, Event.driver, Event.driver] ++
      [Event.report 0 false, Event.cancel, Event.select SelectCase.ctxDone])).trace =
      kubeStates (run masterNoWriterEnv [Event.driver, Event.driver, Event.driver]).trace ∧
    (run exampleEnv [Event.driver, Event.driver, Event.driver, Event.driver, Event.driver,
      Event.report 0 false, Event.report 2 false]).phase = Phase.waitQuorum true ∧
    exampleEnv.M / 2 + 1 ≤ failures (run exampleEnv [Event.driver, Event.driver, Event.driver,
      Event.driver, Event.driver, Event.report 0 false, Event.report 2 false]).reports ∧
    (run exampleEnv ([Event.driver, Event.driver, Event.driver, Event.driver, Event.driver,
      Event.report 0 false, Event.report 2 false] ++
      [Event.closeFail, Event.select SelectCase.failChan])).phase = Phase.returned :=
  ⟨by decide,
   ((C25_failures_sent_as_state masterNoWriterEnv [Event.driver, Event.driver, Event.driver]
      [Event.report 0 false, Event.cancel, Event.select SelectCase.ctxDone]).2.2.1
      (by decide)).2.1,
   by decide, by decide,
   ((C25_failures_sent_as_state exampleEnv [Event.driver, Event.driver, Event.driver,
      Event.driver, Event.driver, Event.report 0 false, Event.report 2 false] []).2.2.2.1
      (by decide) (by decide)).1⟩

/-! ## C26 to C30: a failed `NewTask`, the latch sizes, the cancel map and the indices -/

theorem provisionNodesLoop_not_workflow (w : World) (writerOk : Nat → Bool)
    (nodeWorkflow : String) (profiles : List NodeProfile) (index : Nat) (config : Config)
    (tasks : List GoString) (trace : List Action) (n : Nat) :
    (provisionNodesLoop w writerOk nodeWorkflow profiles index config tasks trace n).1
      ≠ NodesReturn.error NodesError.workflow := by
  induction profiles generalizing index config tasks trace n with
  | nil => simp [provisionNodesLoop]
  | cons p ps ih =>
    unfold provisionNodesLoop
    simp only
    rcases hnt : NewTask w nodeWorkflow n with ⟨t, n2⟩
    cases t with
    | none => simp
    | some t =>
      simp only
      by_cases hw : writerOk index = false
      · simp [hw]
      · simp only [hw, if_false]
        rcases hf : FillNodeCloudSpecificData w config.Provider p config with ⟨c2, err⟩
        cases err with
        | some e => simp
        | none => exact ih _ _ _ _ _

/-- C26, failing input: a DigitalOcean kube with a master gets one node
profile while the workflow "DigitalOceanNode" is not registered. `NewTask`
returns an error and no task, and `ProvisionNodes` reads the ID of the
missing task before it tests the error: the call ends in a nil dereference,
not in the return of `ErrNotFound` for "workflow". No input makes the loop
of `ProvisionNodes` return that error. -/
theorem C26_failed_NewTask_dereferences_nil :
    workflows.DigitalOceanNode ∉ clusterOnlyWorld.registry ∧
    (NewTask clusterOnlyWorld workflows.DigitalOceanNode 0).1 = none ∧
    (ProvisionNodes clusterOnlyWorld NewProvisioner 1 (fun _ => true) [[]]
      exampleKube exampleConfig 0).ret = NodesReturn.panic ∧
    (ProvisionNodes clusterOnlyWorld NewProvisioner 1 (fun _ => true) [[]]
      exampleKube exampleConfig 0).ret ≠ NodesReturn.error NodesError.workflow ∧
    (∀ (w : World) (writerOk : Nat → Bool) (nodeWorkflow : String)
      (profiles : List NodeProfile) (index : Nat) (config : Config) (tasks : List GoString)
      (trace : List Action) (n : Nat),
      (provisionNodesLoop w writerOk nodeWorkflow profiles index config tasks trace n).1
        ≠ NodesReturn.error NodesError.workflow) :=
  ⟨by decide, by decide, by decide, by decide, provisionNodesLoop_not_workflow⟩

/-- C27, counterexample: with three masters the failure latch is created
with size 2, not 3/2 = 1; after one master run has failed the watcher of
the latch does not close `failChan` and the `select` sends no state; and
the schedule `exampleSchedule`, in which one of the three master runs
fails, ends with the state Operational. -/
theorem C27_counterexample_three_masters :
    exampleEnv.M = 3 ∧
    (DriverState.init exampleEnv).failLatch.count = 2 ∧
    (DriverState.init exampleEnv).failLatch.count ≠ exampleEnv.M / 2 ∧
    failures (run exampleEnv [Event.driver, Event.driver, Event.driver, Event.driver,
      Event.driver, Event.report 0 false]).reports = exampleEnv.M / 2 ∧
    (run exampleEnv [Event.driver, Event.driver, Event.driver, Event.driver,
      Event.driver, Event.report 0 false, Event.closeFail,
      Event.select SelectCase.failChan]).failClosed = false ∧
    (run exampleEnv [Event.driver, Event.driver, Event.driver, Event.driver,
      Event.driver, Event.report 0 false, Event.closeFail,
      Event.select SelectCase.failChan]).phase = Phase.waitQuorum true ∧
    kubeStates (run exampleEnv [Event.driver, Event.driver, Event.driver, Event.driver,
      Event.driver, Event.report 0 false, Event.closeFail,
      Event.select SelectCase.failChan]).trace = [] ∧
    failures (run exampleEnv exampleSchedule).reports = exampleEnv.M / 2 ∧
    kubeStates (run exampleEnv exampleSchedule).trace = [KubeState.operational] := by
  decide

/-- C27, amended: for every odd master count M the failure latch is created
with size M/2+1; in a run without cancellation the latch is at zero exactly
when M/2+1 master runs have failed, `failChan` is closed only then, and
that number of failures is reached exactly when the successes that are
still possible no longer reach the success quorum M/2+1; when the driver
waits at its `select` and M/2+1 runs have failed, the watcher closes
`failChan` and the driver sends Failed and returns; and when all M masters
have reported, one of the two latches is at zero. -/
theorem C27_failure_latch_size (env : DriverEnv) (es : List Event)
    (hodd : env.M % 2 = 1) (hnc : Event.cancel ∉ es) :
    (DriverState.init env).failLatch = NewCountdownLatch (env.M / 2 + 1) ∧
    ((run env es).failLatch.count = 0 ↔ env.M / 2 + 1 ≤ failures (run env es).reports) ∧
    ((run env es).failClosed = true → env.M / 2 + 1 ≤ failures (run env es).reports) ∧
    (env.M / 2 + 1 ≤ failures (run env es).reports ↔
      env.M - failures (run env es).reports < env.M / 2 + 1) ∧
    ((run env es).phase = Phase.waitQuorum true →
      env.M / 2 + 1 ≤ failures (run env es).reports →
      (run env (es ++ [Event.closeFail, Event.select SelectCase.failChan])).phase
        = Phase.returned ∧
      (run env (es ++ [Event.closeFail, Event.select SelectCase.failChan])).trace
        = (run env es).trace ++ [Action.kubeState KubeState.failed]) ∧
    ((run env es).reports.length = env.M →
      (run env es).masterLatch.count = 0 ∨ (run env es).failLatch.count = 0) := by
  have hI := Inv_run env es
  have hI2 := Inv2_run env es
  have hle := Inv_reports_le env _ hI
  have hcd := run_ctxDone_false env es hnc
  have hsum := successes_add_failures (run env es).reports
  have hzero : (run env es).failLatch.count = 0 ↔
      env.M / 2 + 1 ≤ failures (run env es).reports := by
    rw [hI.fcount]; omega
  refine ⟨rfl, hzero, ?_, ?_, ?_, ?_⟩
  · intro hfc
    rcases hI2.fail_imp hfc with h | h
    · exact hzero.1 h
    · rw [hcd] at h; exact absurd h (by decide)
  · omega
  · exact failure_quorum_sent env es
  · intro hall
    rw [hI.mcount, hI.fcount]
    omega

/-- Witness for C27 : three masters and the schedule `exampleSchedule`. -/
theorem C27_failure_latch_size_witness :
    exampleEnv.M % 2 = 1 ∧ Event.cancel ∉ exampleSchedule ∧
    (DriverState.init exampleEnv).failLatch = NewCountdownLatch (exampleEnv.M / 2 + 1) ∧
    ((run exampleEnv exampleSchedule).failLatch.count = 0 ↔
      exampleEnv.M / 2 + 1 ≤ failures (run exampleEnv exampleSchedule).reports) :=
  ⟨by decide, by decide,
   (C27_failure_latch_size exampleEnv exampleSchedule (by decide) (by decide)).1,
   (C27_failure_latch_size exampleEnv exampleSchedule (by decide) (by decide)).2.1⟩

/-- C28, failing input: two masters, the run of the first succeeds and the
run of the second fails. Both masters have reported, each latch of size
2/2+1 = 2 stands at 1, neither channel is closed, and the driver stays at
its `select`: no event other than a cancellation changes the state. -/
theorem C28_two_masters_tie_blocks :
    twoMastersEnv.M = 2 ∧
    (run twoMastersEnv tieSchedule).reports.length = twoMastersEnv.M ∧
    successes (run twoMastersEnv tieSchedule).reports = 1 ∧
    failures (run twoMastersEnv tieSchedule).reports = 1 ∧
    (run twoMastersEnv tieSchedule).masterLatch.count = 1 ∧
    (run twoMastersEnv tieSchedule).failLatch.count = 1 ∧
    (run twoMastersEnv tieSchedule).doneClosed = false ∧
    (run twoMastersEnv tieSchedule).failClosed = false ∧
    (run twoMastersEnv tieSchedule).phase = Phase.waitQuorum true ∧
    quiescent twoMastersEnv (run twoMastersEnv tieSchedule) ∧
    (∀ e : Event, e ≠ Event.cancel →
      step twoMastersEnv (run twoMastersEnv tieSchedule) e = run twoMastersEnv tieSchedule) := by
  refine ⟨by decide, by decide, by decide, by decide, by decide, by decide, by decide,
    by decide, by decide, by decide, ?_⟩
  intro e he
  have hs : run twoMastersEnv tieSchedule =
      { phase := Phase.waitQuorum true,
        trace := (run twoMastersEnv tieSchedule).trace,
        masterLatch := { count := 1 }, failLatch := { count := 1 },
        ctxDone := false, doneClosed := false, failClosed := false, watchers := true,
        launched := 2, reports := [(0, true), (1, false)] } := by decide
  rw [hs]
  cases e with
  | driver => rfl
  | select c => cases c <;> rfl
  | report index ok =>
    have hidx : ¬ (index < 2 ∧ index ∉ [0, 1]) := by
      intro h
      obtain ⟨h1, h2⟩ := h
      simp only [List.mem_cons, List.mem_singleton, List.not_mem_nil, or_false, not_or] at h2
      omega
    simp only [step, reportStep, List.map_cons, List.map_nil, hidx, if_false]
  | closeDone => rfl
  | closeFail => rfl
  | cancel => exact absurd rfl he

/-- C29, counterexample: when the key pair cannot be generated,
`ProvisionCluster` returns the error "bootstrap keys" and leaves the cancel
function registered under the cluster ID, so the cancel map differs from
the empty one it was called with and `Cancel` of that ID returns nil; the same
holds when the initial cluster record cannot be persisted. -/
theorem C29_counterexample_cancel_left_registered :
    NewProvisioner.cancelMap = [] ∧
    (ProvisionCluster noKeysWorld NewProvisioner 7 exampleProfile exampleConfig 0).ret
      = ProvisionReturn.error ProvisionError.bootstrapKeys ∧
    (ProvisionCluster noKeysWorld NewProvisioner 7 exampleProfile exampleConfig 0).tp.cancelMap
      = [("c-task-0".toList, 7)] ∧
    (Cancel (ProvisionCluster noKeysWorld NewProvisioner 7 exampleProfile exampleConfig 0).tp
      [] "c-task-0".toList).1 = none ∧
    (ProvisionCluster noCreateWorld NewProvisioner 7 exampleProfile exampleConfig 0).ret
      = ProvisionReturn.error ProvisionError.buildInitialCluster ∧
    (ProvisionCluster noCreateWorld NewProvisioner 7 exampleProfile exampleConfig 0).tp.cancelMap
      = [("c-task-0".toList, 7)] := by
  decide

/-- C29, amended: when `ProvisionCluster` returns the error "Wrong value of
cluster task", the provisioner and its cancel map are as before the call;
when it returns any other error (bootstrap keys, bootstrap certs, build
initial cluster), the cluster task exists with an ID of at least 8 bytes and
the cancel map is the one before the call with the cancel function stored
under the first 8 bytes of that ID, where a lookup finds it; in both cases
no goroutine was started. -/
theorem C29_cancel_map_after_error (w : World) (tp : TaskProvisioner) (ctx : Nat)
    (profile : Profile) (config : Config) (n : Nat) (e : ProvisionError)
    (h : (ProvisionCluster w tp ctx profile config n).ret = ProvisionReturn.error e) :
    (ProvisionCluster w tp ctx profile config n).spawned = false ∧
    ((e = ProvisionError.wrongClusterTask ∧
        (ProvisionCluster w tp ctx profile config n).tp = tp) ∨
     (e ≠ ProvisionError.wrongClusterTask ∧
        ∃ clusterTask,
          (ProvisionCluster w tp ctx profile config n).plan.clusterTask = some clusterTask ∧
          8 ≤ clusterTask.ID.length ∧
          (ProvisionCluster w tp ctx profile config n).tp =
            { tp with cancelMap := mapSet tp.cancelMap (clusterTask.ID.take 8) ctx } ∧
          mapGet (ProvisionCluster w tp ctx profile config n).tp.cancelMap
            (clusterTask.ID.take 8) = some ctx)) := by
  have hplan := ProvisionCluster_plan w tp ctx profile config n
  cases hct : (prepare w tp config.Provider profile.MasterProfiles.length
      profile.NodesProfiles.length n).1.clusterTask with
  | none =>
    unfold ProvisionCluster at h ⊢
    simp only [hct] at h ⊢
    simp only [ProvisionReturn.error.injEq] at h
    exact ⟨trivial, Or.inl ⟨h.symm, trivial⟩⟩
  | some clusterTask =>
    by_cases hl : clusterTask.ID.length < 8
    · unfold ProvisionCluster at h ⊢
      simp only [hct, hl, if_true] at h ⊢
      simp only [ProvisionReturn.error.injEq] at h
      exact ⟨trivial, Or.inl ⟨h.symm, trivial⟩⟩
    · have htp := ProvisionCluster_tp w tp ctx profile config n clusterTask hct (by omega)
      have hsp : (ProvisionCluster w tp ctx profile config n).spawned = false ∧
          e ≠ ProvisionError.wrongClusterTask := by
        unfold ProvisionCluster at h ⊢
        simp only [hct, hl, if_false] at h ⊢
        revert h
        repeat (first | split | (intro h; first
          | (simp only [ProvisionReturn.error.injEq] at h; subst h; exact ⟨rfl, by decide⟩)
          | exact absurd h (by simp)))
      refine ⟨hsp.1, Or.inr ⟨hsp.2, clusterTask, ?_, by omega, htp, ?_⟩⟩
      · rw [hplan, hct]
      · rw [htp]
        exact mapGet_mapSet_self _ _ _

/-- Witness for C29 : the key generator fails. -/
theorem C29_cancel_map_after_error_witness :
    (ProvisionCluster noKeysWorld NewProvisioner 7 exampleProfile exampleConfig 0).ret
      = ProvisionReturn.error ProvisionError.bootstrapKeys ∧
    (ProvisionCluster noKeysWorld NewProvisioner 7 exampleProfile exampleConfig 0).spawned
      = false :=
  ⟨by decide,
   (C29_cancel_map_after_error noKeysWorld NewProvisioner 7 exampleProfile exampleConfig 0
      ProvisionError.bootstrapKeys (by decide)).1⟩

/-- C30, failing input: a Packet profile with one master. The provisioner has
no workflow set for Packet, so `prepare` returns no master task while the
cluster task is created with an ID of 8 bytes; `ProvisionCluster` goes on
to `nodesFromProfile`, whose first loop reads `masterTasks[0]` of an empty
list: the call ends in an index-out-of-range panic. -/
theorem C30_packet_master_index_out_of_range :
    packetProfile.MasterProfiles.length = 1 ∧
    (prepare exampleWorld NewProvisioner packetConfig.Provider
      packetProfile.MasterProfiles.length packetProfile.NodesProfiles.length 0).1.masterTasks
      = [] ∧
    (prepare exampleWorld NewProvisioner packetConfig.Provider
      packetProfile.MasterProfiles.length packetProfile.NodesProfiles.length 0).1.clusterTask
      = some { ID := "a-task-0".toList, WorkflowType := "Cluster" } ∧
    masterNodeOf exampleWorld packetConfig.ClusterName packetProfile [] 0 [] = none ∧
    nodesFromProfile exampleWorld packetConfig.ClusterName [] [] packetProfile = none ∧
    (ProvisionCluster exampleWorld NewProvisioner 1 packetProfile packetConfig 0).ret
      = ProvisionReturn.panic := by
  decide

end Provisioner
